import Mathlib

/-!
# Space Venture: the platformer simulation core

A shallow embedding of `space_ventureV2.0.cpp`: the entity model, the level
builder (`CreateLevelLayout`, `InitPlatformerLevel`), the level transitions
(`TransitionToGameplay`, `TransitionToNextLevel`, the buttons of the
level-complete screen), the per-frame update `UpdatePlatformer` and the selection
buttons of the customization and settings screens.

Conventions of the embedding

* The program keeps its state in global variables; here they are the fields of
  one record, `Game`, that every function takes and returns.
* C++ `float` values are exact rationals (`ℚ`) and rounding is outside the model,
  with one exception: the attack timer of an enemy, which accumulates
  `GetFrameTime()` against a threshold, is rounded to binary32 at every addition
  (`roundF32`), as the `float` variable `enemy.timer` is.
  C++ `int` values are unbounded integers (`Int`); signed overflow is undefined
  behaviour in the source and is not modelled.
* What a frame reads from raylib (keys, frame time, screen width) and the C
  library function `sinf` are the fields of `Frame`.
* `GetRandomValue` is a stream of draws, `Nat → Int`, indexed by the position
  of the call inside one run of the level builder.
* `PlaySound` appends the cue to `Game.sounds`.
* A `for (auto& x : xs)` loop is `forEach body`, which threads the globals
  through the body and rebuilds the collection from the updated elements.
-/

namespace SpaceVenture

/-! ## Data model -/

/-- The raylib type `Vector2`. -/
structure Vector2 where
  x : ℚ
  y : ℚ
deriving DecidableEq

/-- The raylib type `Rectangle`. -/
structure Rectangle where
  x : ℚ
  y : ℚ
  width : ℚ
  height : ℚ
deriving DecidableEq

/-- The raylib type `Color`. -/
structure Color where
  r : Nat
  g : Nat
  b : Nat
  a : Nat
deriving DecidableEq

/-- The enumeration `GameState` (source line 10). -/
inductive GameState where
  | MAIN_MENU
  | SETTINGS
  | CHARACTER_CREATION
  | CHARACTER_CUSTOMIZATION
  | PLAYING
  | PLATFORMER
  | LEVEL_COMPLETE
  | SPACESHIP_COMBAT
deriving DecidableEq

/-- The sound cues the simulation plays. -/
inductive Sound where
  | jumpSound
  | shootSound
  | hitSound
  | coinSound
  | portalSound
deriving DecidableEq

/-- The struct `PlayerData` (source lines 59-74). -/
structure PlayerData where
  rect : Rectangle
  velocity : Vector2
  isJumping : Bool
  canJump : Bool
  facingRight : Bool
  health : Int
  score : Int
  currency : Int
  skinColor : Color
  hairColor : Color
  hairstyle : Int
  appearance : Int
  beardStyle : Int
  energy : Int
deriving DecidableEq

/-- The struct `Enemy` (source lines 78-89); `type` is 0 Basic, 1 Flying, 2 Heavy. -/
structure Enemy where
  rect : Rectangle
  velocity : Vector2
  active : Bool
  facingRight : Bool
  health : Int
  type : Int
  timer : ℚ
  currencyValue : Int
  primaryColor : Color
  secondaryColor : Color
deriving DecidableEq

/-- The struct `Platform` (source lines 93-98); `type` is 0 Normal, 1 Moving, 2 Breakable. -/
structure Platform where
  rect : Rectangle
  deadly : Bool
  type : Int
  velocity : Vector2
deriving DecidableEq

/-- The struct `Projectile` (source lines 102-108). -/
structure Projectile where
  rect : Rectangle
  velocity : Vector2
  active : Bool
  fromPlayer : Bool
  damage : Int
deriving DecidableEq

/-- The struct `LevelPortal` (source lines 112-116). -/
structure LevelPortal where
  rect : Rectangle
  active : Bool
  targetLevel : Int
deriving DecidableEq

/-- The struct `Collectible` (source lines 189-194); `type` is 0 Coin, 1 Health, 2 Powerup. -/
structure Collectible where
  rect : Rectangle
  active : Bool
  value : Int
  type : Int
deriving DecidableEq

/-- The global variables the simulation reads and writes. -/
structure Game where
  gameState : GameState
  selectedHairstyle : Int
  selectedHairColor : Int
  selectedSkinColor : Int
  selectedEyeColor : Int
  selectedFaceStyle : Int
  selectedPlayerAppearance : Int
  selectedBeardStyle : Int
  hasHelmet : Bool
  selectedFightingClass : Int
  selectedWeapon : Int
  selectedArmor : Int
  selectedAccessory : Int
  playerHealth : Int
  playerMaxHealth : Int
  playerScore : Int
  playerCurrency : Int
  isPaused : Bool
  player : PlayerData
  enemies : List Enemy
  platforms : List Platform
  projectiles : List Projectile
  levelExit : LevelPortal
  levelBounds : Rectangle
  cameraOffset : Vector2
  currentLevel : Int
  maxLevel : Int
  levelCompleted : Bool
  levelCompletionBonus : Int
  collectibles : List Collectible
  selectedResolution : Int
  screenWidth : Int
  screenHeight : Int
  sounds : List Sound
deriving DecidableEq

/-- What one frame reads from outside the program: `IsKeyPressed(KEY_M)`,
`IsKeyDown(KEY_RIGHT)`, `IsKeyDown(KEY_LEFT)`, `IsKeyPressed(KEY_UP)`,
`IsKeyPressed(KEY_SPACE)`, `GetFrameTime()`, `GetScreenWidth()`, and the C
library function `sinf`. -/
structure Frame where
  keyM : Bool
  keyRight : Bool
  keyLeft : Bool
  keyUp : Bool
  keySpace : Bool
  frameTime : ℚ
  screenWidth : Int
  sinf : ℚ → ℚ

/-! ## Constants and initial values of the globals -/

def GRAVITY : ℚ := 1 / 2

def JUMP_FORCE : ℚ := -12

def MOVE_SPEED : ℚ := 5

/-- The colour table `enemyPrimaryColors` (source lines 162-166). -/
def enemyPrimaryColors (type : Fin 3) : Color :=
  match type with
  | 0 => ⟨180, 50, 50, 255⟩
  | 1 => ⟨50, 50, 180, 255⟩
  | 2 => ⟨120, 40, 120, 255⟩

/-- The colour table `enemySecondaryColors` (source lines 168-172). -/
def enemySecondaryColors (type : Fin 3) : Color :=
  match type with
  | 0 => ⟨120, 30, 30, 255⟩
  | 1 => ⟨30, 30, 120, 255⟩
  | 2 => ⟨80, 20, 80, 255⟩

/-- The zero-initialised global `player`. -/
def zeroPlayer : PlayerData :=
  { rect := ⟨0, 0, 0, 0⟩, velocity := ⟨0, 0⟩, isJumping := false, canJump := false,
    facingRight := false, health := 0, score := 0, currency := 0,
    skinColor := ⟨0, 0, 0, 0⟩, hairColor := ⟨0, 0, 0, 0⟩, hairstyle := 0, appearance := 0,
    beardStyle := 0, energy := 0 }

/-- The globals as the program initialises them before `main` runs. -/
def initialGame : Game :=
  { gameState := GameState.MAIN_MENU
    selectedHairstyle := 0
    selectedHairColor := 0
    selectedSkinColor := 0
    selectedEyeColor := 0
    selectedFaceStyle := 0
    selectedPlayerAppearance := 0
    selectedBeardStyle := 0
    hasHelmet := false
    selectedFightingClass := 0
    selectedWeapon := 0
    selectedArmor := 0
    selectedAccessory := 0
    playerHealth := 100
    playerMaxHealth := 100
    playerScore := 0
    playerCurrency := 0
    isPaused := false
    player := zeroPlayer
    enemies := []
    platforms := []
    projectiles := []
    levelExit := ⟨⟨0, 0, 0, 0⟩, false, 0⟩
    levelBounds := ⟨0, 0, 4000, 720⟩
    cameraOffset := ⟨0, 0⟩
    currentLevel := 1
    maxLevel := 3
    levelCompleted := false
    levelCompletionBonus := 500
    collectibles := []
    selectedResolution := 0
    screenWidth := 1280
    screenHeight := 720
    sounds := [] }

/-! ## Single-precision rounding -/

/-- The number of binary digits of `n`, found in at most `fuel` halvings. -/
def bitLength : Nat → Nat → Nat
  | 0, _ => 0
  | fuel + 1, n => if n = 0 then 0 else bitLength fuel (n / 2) + 1

/-- The binary32 value nearest to `q`, ties to the even significand: what a `float`
addition or assignment stores. With `2 ^ e ≤ |q| < 2 ^ (e + 1)` the spacing of the
values is `2 ^ (e - 23)`, and `2 ^ (-149)` in the subnormal range; the overflow to
infinity above the largest finite value is outside the model. -/
def roundF32 (q : ℚ) : ℚ :=
  if q = 0 then 0
  else
    let n : Nat := q.num.natAbs
    let d : Nat := q.den
    let e0 : Int := (bitLength n n : Int) - (bitLength d d : Int)
    let above : Bool :=
      if 0 ≤ e0 then decide (d * 2 ^ e0.toNat ≤ n) else decide (d ≤ n * 2 ^ (-e0).toNat)
    let e : Int := if above then e0 else e0 - 1
    let k : Int := max (e - 23) (-149)
    let num : Nat := if 0 ≤ k then n else n * 2 ^ (-k).toNat
    let den : Nat := if 0 ≤ k then d * 2 ^ k.toNat else d
    let f : Nat := num / den
    let r : Nat := num % den
    let m : Nat := if den < 2 * r ∨ (2 * r = den ∧ f % 2 = 1) then f + 1 else f
    let mag : ℚ :=
      if 0 ≤ k then ((m * 2 ^ k.toNat : Nat) : ℚ) else mkRat (m : Int) (2 ^ (-k).toNat)
    if q < 0 then -mag else mag

/-! ## Geometry -/

/-- Modelled from the spec: the collision test between two rectangles is raylib's
`CheckCollisionRecs`, library code outside the repository: two rectangles collide
when they overlap strictly on both axes. -/
def CheckCollisionRecs (rec1 rec2 : Rectangle) : Bool :=
  decide (rec1.x < rec2.x + rec2.width) && decide (rec1.x + rec1.width > rec2.x) &&
    (decide (rec1.y < rec2.y + rec2.height) && decide (rec1.y + rec1.height > rec2.y))

/-- A range-based `for (auto& x : xs)` loop whose body updates the globals and
the current element. -/
def forEach {α : Type} (body : Game → α → Game × α) : Game → List α → Game × List α
  | g, [] => (g, [])
  | g, x :: xs =>
    let r := body g x
    let rs := forEach body r.1 xs
    (rs.1, r.2 :: rs.2)

/-- The call `PlaySound(s)`. -/
def PlaySound (s : Sound) (g : Game) : Game :=
  { g with sounds := g.sounds ++ [s] }

/-! ## Spawning (source lines 495-555) -/

/-- The function `SpawnEnemy(x, y, type)`; `r` is the value `GetRandomValue(0, 1)`
returns. The call sites pass the literals 0, 1 and 2 only, and any other
`type` reads the colour tables out of bounds, so `type` ranges over 0..2. -/
def SpawnEnemy (r : Int) (x y : ℚ) (type : Fin 3) (g : Game) : Game :=
  let facingRight : Bool := r == 1
  let enemy : Enemy :=
    match type with
    | 0 =>
      { rect := ⟨x, y, 60, 80⟩, velocity := ⟨if facingRight then 2 else -2, 0⟩,
        active := true, facingRight := facingRight, health := 3, type := 0, timer := 0,
        currencyValue := 10, primaryColor := enemyPrimaryColors 0,
        secondaryColor := enemySecondaryColors 0 }
    | 1 =>
      { rect := ⟨x, y, 70, 60⟩, velocity := ⟨if facingRight then 3 else -3, 0⟩,
        active := true, facingRight := facingRight, health := 2, type := 1, timer := 0,
        currencyValue := 15, primaryColor := enemyPrimaryColors 1,
        secondaryColor := enemySecondaryColors 1 }
    | 2 =>
      { rect := ⟨x, y, 80, 100⟩, velocity := ⟨if facingRight then 1 else -1, 0⟩,
        active := true, facingRight := facingRight, health := 5, type := 2, timer := 0,
        currencyValue := 25, primaryColor := enemyPrimaryColors 2,
        secondaryColor := enemySecondaryColors 2 }
  { g with enemies := g.enemies ++ [enemy] }

/-- The function `SpawnCollectible(x, y, type)`; the call sites pass 0, 1 and 2 only. -/
def SpawnCollectible (x y : ℚ) (type : Fin 3) (g : Game) : Game :=
  let collectible : Collectible :=
    match type with
    | 0 => { rect := ⟨x, y, 30, 30⟩, active := true, value := 5, type := 0 }
    | 1 => { rect := ⟨x, y, 40, 40⟩, active := true, value := 20, type := 1 }
    | 2 => { rect := ⟨x, y, 40, 40⟩, active := true, value := 10, type := 2 }
  { g with collectibles := g.collectibles ++ [collectible] }

/-- The function `ShootProjectile(x, y, velX, fromPlayer, damage)`. -/
def ShootProjectile (x y velX : ℚ) (fromPlayer : Bool) (damage : Int) (g : Game) : Game :=
  let proj : Projectile :=
    { rect := ⟨x, y, 15, 8⟩, velocity := ⟨velX, 0⟩, active := true,
      fromPlayer := fromPlayer, damage := damage }
  PlaySound Sound.shootSound { g with projectiles := g.projectiles ++ [proj] }

/-- The function `CheckCollisionWithPlatforms(rect)`. -/
def CheckCollisionWithPlatforms (rect : Rectangle) (g : Game) : Bool :=
  g.platforms.any fun platform => CheckCollisionRecs rect platform.rect

/-! ## Level management (source lines 242-492) -/

/-- The ground strip every level starts with: forty platforms of width 100 at y = 650. -/
def groundPlatforms : List Platform :=
  (List.range 40).map fun i => ⟨⟨(i : ℚ) * 100, 650, 100, 30⟩, false, 0, ⟨0, 0⟩⟩

/-- A sequence of statements, each a change of the globals, run in order. -/
def runAll (steps : List (Game → Game)) (g : Game) : Game :=
  steps.foldl (fun g step => step g) g

/-- The three assignments to `levelExit` that end a level's layout. -/
def setExit (rect : Rectangle) (active : Bool) (targetLevel : Int) (g : Game) : Game :=
  { g with levelExit := ⟨rect, active, targetLevel⟩ }

/-- A run of `platforms.push_back` calls. -/
def pushPlatforms (ps : List Platform) (g : Game) : Game :=
  { g with platforms := g.platforms ++ ps }

/-- The branch `level == 1` of `CreateLevelLayout` (source lines 259-290). -/
def level1Layout (draw : Nat → Int) (g : Game) : Game :=
  runAll
    [ pushPlatforms
        [ ⟨⟨300, 500, 200, 30⟩, false, 0, ⟨0, 0⟩⟩,
          ⟨⟨600, 400, 150, 30⟩, false, 0, ⟨0, 0⟩⟩,
          ⟨⟨900, 350, 200, 30⟩, false, 0, ⟨0, 0⟩⟩,
          ⟨⟨400, 300, 80, 20⟩, false, 0, ⟨0, 0⟩⟩,
          ⟨⟨520, 250, 60, 20⟩, false, 0, ⟨0, 0⟩⟩,
          ⟨⟨650, 220, 50, 20⟩, false, 0, ⟨0, 0⟩⟩,
          ⟨⟨800, 630, 100, 20⟩, true, 0, ⟨0, 0⟩⟩ ],
      SpawnEnemy (draw 0) 500 600 0,
      SpawnEnemy (draw 1) 950 300 0,
      SpawnCollectible 350 450 0,
      SpawnCollectible 650 350 0,
      SpawnCollectible 950 300 0,
      SpawnCollectible 400 270 0,
      SpawnCollectible 520 220 0,
      SpawnCollectible 650 190 0,
      setExit ⟨1200, 550, 60, 100⟩ true 2 ] g

/-- The branch `level == 2` of `CreateLevelLayout` (source lines 292-337). -/
def level2Layout (draw : Nat → Int) (g : Game) : Game :=
  runAll
    [ pushPlatforms
        [ ⟨⟨300, 500, 200, 30⟩, false, 0, ⟨0, 0⟩⟩,
          ⟨⟨600, 400, 150, 30⟩, false, 0, ⟨0, 0⟩⟩,
          ⟨⟨900, 350, 200, 30⟩, false, 0, ⟨0, 0⟩⟩,
          ⟨⟨1300, 450, 150, 30⟩, false, 1, ⟨1, 0⟩⟩,
          ⟨⟨1600, 550, 120, 30⟩, false, 2, ⟨0, 0⟩⟩,
          ⟨⟨1900, 500, 120, 30⟩, false, 2, ⟨0, 0⟩⟩,
          ⟨⟨1100, 300, 80, 20⟩, false, 0, ⟨0, 0⟩⟩,
          ⟨⟨1200, 250, 80, 20⟩, false, 0, ⟨0, 0⟩⟩,
          ⟨⟨1350, 200, 60, 20⟩, false, 1, ⟨0, 3 / 2⟩⟩,
          ⟨⟨800, 630, 100, 20⟩, true, 0, ⟨0, 0⟩⟩,
          ⟨⟨1400, 630, 100, 20⟩, true, 0, ⟨0, 0⟩⟩,
          ⟨⟨1700, 630, 100, 20⟩, true, 0, ⟨0, 0⟩⟩ ],
      SpawnEnemy (draw 0) 500 600 0,
      SpawnEnemy (draw 1) 700 350 1,
      SpawnEnemy (draw 2) 950 300 0,
      SpawnEnemy (draw 3) 1500 400 0,
      SpawnEnemy (draw 4) 1800 450 1,
      SpawnCollectible 350 450 0,
      SpawnCollectible 650 350 0,
      SpawnCollectible 950 300 0,
      SpawnCollectible 1350 400 0,
      SpawnCollectible 1700 500 0,
      SpawnCollectible 1950 450 0,
      SpawnCollectible 1100 270 0,
      SpawnCollectible 1200 220 0,
      SpawnCollectible 1350 170 0,
      SpawnCollectible 1200 600 1,
      setExit ⟨2200, 550, 60, 100⟩ true 3 ] g

/-- The loop of source lines 385-389: twenty coins at random positions; the
draws 0..7 of level 3 went to the eight enemies before it. -/
def randomCoins (draw : Nat → Int) (g : Game) : Game :=
  (List.range 20).foldl
    (fun g i => SpawnCollectible (draw (8 + 2 * i)) (draw (8 + 2 * i + 1)) 0 g) g

/-- The branch `level == 3` of `CreateLevelLayout` (source lines 339-414). -/
def level3Layout (draw : Nat → Int) (g : Game) : Game :=
  runAll
    [ pushPlatforms
        [ ⟨⟨300, 500, 200, 30⟩, false, 0, ⟨0, 0⟩⟩,
          ⟨⟨600, 400, 150, 30⟩, false, 0, ⟨0, 0⟩⟩,
          ⟨⟨900, 350, 200, 30⟩, false, 0, ⟨0, 0⟩⟩,
          ⟨⟨1300, 450, 150, 30⟩, false, 1, ⟨1, 0⟩⟩,
          ⟨⟨1600, 550, 120, 30⟩, false, 2, ⟨0, 0⟩⟩,
          ⟨⟨1900, 500, 120, 30⟩, false, 2, ⟨0, 0⟩⟩,
          ⟨⟨2200, 600, 100, 30⟩, false, 0, ⟨0, 0⟩⟩,
          ⟨⟨2500, 550, 150, 30⟩, false, 1, ⟨6 / 5, 0⟩⟩,
          ⟨⟨2800, 450, 200, 30⟩, false, 0, ⟨0, 0⟩⟩,
          ⟨⟨3200, 400, 150, 30⟩, false, 1, ⟨3 / 2, 0⟩⟩,
          ⟨⟨2900, 350, 60, 20⟩, false, 0, ⟨0, 0⟩⟩,
          ⟨⟨3000, 300, 60, 20⟩, false, 0, ⟨0, 0⟩⟩,
          ⟨⟨3100, 250, 60, 20⟩, false, 0, ⟨0, 0⟩⟩,
          ⟨⟨2600, 300, 80, 20⟩, false, 1, ⟨0, 2⟩⟩,
          ⟨⟨2800, 250, 60, 20⟩, false, 1, ⟨9 / 5, 0⟩⟩,
          ⟨⟨1750, 450, 60, 20⟩, false, 2, ⟨0, 0⟩⟩,
          ⟨⟨1850, 400, 60, 20⟩, false, 2, ⟨0, 0⟩⟩,
          ⟨⟨1950, 350, 60, 20⟩, false, 2, ⟨0, 0⟩⟩,
          ⟨⟨800, 630, 100, 20⟩, true, 0, ⟨0, 0⟩⟩,
          ⟨⟨1400, 630, 100, 20⟩, true, 0, ⟨0, 0⟩⟩,
          ⟨⟨2000, 630, 100, 20⟩, true, 0, ⟨0, 0⟩⟩,
          ⟨⟨2600, 630, 100, 20⟩, true, 0, ⟨0, 0⟩⟩,
          ⟨⟨3000, 630, 100, 20⟩, true, 0, ⟨0, 0⟩⟩ ],
      SpawnEnemy (draw 0) 500 600 0,
      SpawnEnemy (draw 1) 700 350 1,
      SpawnEnemy (draw 2) 1100 600 2,
      SpawnEnemy (draw 3) 1500 400 0,
      SpawnEnemy (draw 4) 1900 450 1,
      SpawnEnemy (draw 5) 2400 500 2,
      SpawnEnemy (draw 6) 2900 400 1,
      SpawnEnemy (draw 7) 3300 350 2,
      randomCoins draw,
      SpawnCollectible 2900 320 0,
      SpawnCollectible 3000 270 0,
      SpawnCollectible 3100 220 0,
      SpawnCollectible 2600 270 0,
      SpawnCollectible 2800 220 0,
      SpawnCollectible 1750 420 0,
      SpawnCollectible 1850 370 0,
      SpawnCollectible 1950 320 0,
      SpawnCollectible 1200 600 1,
      SpawnCollectible 2300 550 1,
      SpawnCollectible 1700 500 2,
      SpawnCollectible 3000 400 2,
      setExit ⟨3500, 550, 60, 100⟩ true 1 ] g

/-- The function `CreateLevelLayout(level)` (source lines 242-427). -/
def CreateLevelLayout (draw : Nat → Int) (level : Int) (g : Game) : Game :=
  let g := { g with platforms := [], enemies := [], projectiles := [], collectibles := [] }
  let g := pushPlatforms groundPlatforms g
  let g :=
    if level = 1 then level1Layout draw g
    else if level = 2 then level2Layout draw g
    else if level = 3 then level3Layout draw g
    else g
  let g :=
    if level = 1 then { g with levelBounds := { g.levelBounds with width := 1500 } }
    else if level = 2 then { g with levelBounds := { g.levelBounds with width := 2500 } }
    else if level = 3 then { g with levelBounds := { g.levelBounds with width := 4000 } }
    else g
  { g with cameraOffset := ⟨0, 0⟩ }

/-- The `switch (selectedSkinColor)` of `InitPlatformerLevel`. -/
def skinColorOf (selectedSkinColor : Int) : Color :=
  if selectedSkinColor = 0 then ⟨255, 220, 177, 255⟩
  else if selectedSkinColor = 1 then ⟨240, 184, 130, 255⟩
  else if selectedSkinColor = 2 then ⟨165, 114, 90, 255⟩
  else ⟨255, 220, 177, 255⟩

/-- The `switch (selectedHairColor)` of `InitPlatformerLevel`. -/
def hairColorOf (selectedHairColor : Int) : Color :=
  if selectedHairColor = 0 then ⟨30, 30, 30, 255⟩
  else if selectedHairColor = 1 then ⟨139, 69, 19, 255⟩
  else if selectedHairColor = 2 then ⟨255, 215, 0, 255⟩
  else if selectedHairColor = 3 then ⟨178, 34, 34, 255⟩
  else if selectedHairColor = 4 then ⟨220, 220, 220, 255⟩
  else ⟨30, 30, 30, 255⟩

/-- The function `InitPlatformerLevel(level)` (source lines 429-474). -/
def InitPlatformerLevel (draw : Nat → Int) (level : Int) (g : Game) : Game :=
  let pl : PlayerData :=
    { g.player with
      rect := ⟨100, 300, 80, 120⟩, velocity := ⟨0, 0⟩, isJumping := false,
      canJump := false, facingRight := true }
  let pl : PlayerData :=
    if g.gameState ≠ GameState.LEVEL_COMPLETE then
      { pl with health := g.playerHealth, score := 0, currency := 0 }
    else pl
  let pl : PlayerData :=
    { pl with
      appearance := g.selectedPlayerAppearance, beardStyle := g.selectedBeardStyle,
      hairstyle := g.selectedHairstyle, skinColor := skinColorOf g.selectedSkinColor,
      hairColor := hairColorOf g.selectedHairColor }
  let g := { g with player := pl, hasHelmet := true }
  let g := CreateLevelLayout draw level g
  { g with currentLevel := level, levelCompleted := false }

/-- The function `TransitionToGameplay()` (source lines 475-478). -/
def TransitionToGameplay (draw : Nat → Int) (g : Game) : Game :=
  InitPlatformerLevel draw 1 { g with gameState := GameState.PLATFORMER }

/-- The function `TransitionToNextLevel()` (source lines 480-492). -/
def TransitionToNextLevel (g : Game) : Game :=
  let g := { g with player := { g.player with currency := g.player.currency + g.levelCompletionBonus } }
  let g := { g with playerCurrency := g.player.currency }
  if g.levelExit.targetLevel ≤ g.maxLevel then
    { g with gameState := GameState.LEVEL_COMPLETE, levelCompleted := true }
  else
    { g with gameState := GameState.MAIN_MENU }

/-- The "Next Level" button of `DrawLevelComplete` (source lines 1365-1369). -/
def nextLevelButton (draw : Nat → Int) (g : Game) : Game :=
  let g := { g with gameState := GameState.PLATFORMER }
  InitPlatformerLevel draw g.levelExit.targetLevel g

/-- The "Main Menu" button of `DrawLevelComplete` (source lines 1371-1375). -/
def mainMenuButton (g : Game) : Game :=
  { g with playerCurrency := g.player.currency, gameState := GameState.MAIN_MENU }

/-! ## The per-frame update `UpdatePlatformer` (source lines 1732-1984) -/

/-- The rectangle `playerFeet` of source line 1756. -/
def playerFeet (player : PlayerData) : Rectangle :=
  ⟨player.rect.x, player.rect.y + player.rect.height - 5, player.rect.width, 10⟩

/-- Movement controls, gravity, jump and integration (source lines 1739-1751). -/
def movePlayer (inp : Frame) (g : Game) : Game :=
  let pl := g.player
  let pl : PlayerData :=
    if inp.keyRight then
      { pl with velocity := { pl.velocity with x := MOVE_SPEED }, facingRight := true }
    else if inp.keyLeft then
      { pl with velocity := { pl.velocity with x := -MOVE_SPEED }, facingRight := false }
    else { pl with velocity := { pl.velocity with x := 0 } }
  let pl : PlayerData := { pl with velocity := { pl.velocity with y := pl.velocity.y + GRAVITY } }
  let jump : Bool := inp.keyUp && pl.canJump
  let pl : PlayerData :=
    if jump then
      { pl with velocity := { pl.velocity with y := JUMP_FORCE }, isJumping := true,
                canJump := false }
    else pl
  let g := if jump then PlaySound Sound.jumpSound g else g
  let pl : PlayerData := { pl with rect := { pl.rect with x := pl.rect.x + pl.velocity.x } }
  let pl : PlayerData := { pl with rect := { pl.rect with y := pl.rect.y + pl.velocity.y } }
  { g with player := pl }

/-- The landing branch (source lines 1759-1769), taken when the feet overlap the
platform and the player moves down. -/
def landOn (g : Game) (platform : Platform) : Game × Platform :=
  let pl : PlayerData :=
    { g.player with
      rect := { g.player.rect with y := platform.rect.y - g.player.rect.height },
      velocity := { g.player.velocity with y := 0 },
      isJumping := false, canJump := true }
  let g := { g with player := pl }
  let g :=
    if platform.deadly then
      let g := { g with player := { g.player with health := g.player.health - 10 } }
      let g := PlaySound Sound.hitSound g
      { g with player := { g.player with velocity := { g.player.velocity with y := -8 } } }
    else g
  let platform : Platform :=
    if platform.type = 2 then { platform with rect := { platform.rect with x := -100 } }
    else platform
  (g, platform)

/-- The motion of a moving platform (source lines 1774-1792); `width` is
`levelBounds.width`. -/
def movePlatform (width : ℚ) (platform : Platform) : Platform :=
  let p : Platform :=
    { platform with rect := { platform.rect with x := platform.rect.x + platform.velocity.x } }
  let p : Platform := { p with rect := { p.rect with y := p.rect.y + p.velocity.y } }
  let p : Platform :=
    if p.velocity.x ≠ 0 ∧ (p.rect.x < 0 ∨ p.rect.x > width - p.rect.width) then
      { p with velocity := { p.velocity with x := p.velocity.x * -1 } }
    else p
  if p.velocity.y ≠ 0 then
    let originalY : ℚ := p.rect.y - p.velocity.y
    let moveRange : ℚ := 100
    if (p.velocity.y > 0 ∧ p.rect.y > originalY + moveRange) ∨
        (p.velocity.y < 0 ∧ p.rect.y < originalY - moveRange) then
      { p with velocity := { p.velocity with y := p.velocity.y * -1 } }
    else p
  else p

/-- The two nested tests of source lines 1757-1758: the feet overlap the platform
and the player moves down. -/
def landsOn (player : PlayerData) (platform : Platform) : Bool :=
  CheckCollisionRecs (playerFeet player) platform.rect && decide (player.velocity.y > 0)

/-- The body of the platform loop (source lines 1756-1799). -/
def platformBody (g : Game) (platform : Platform) : Game × Platform :=
  let feet := playerFeet g.player
  let r : Game × Platform := if landsOn g.player platform then landOn g platform else (g, platform)
  if r.2.type = 1 then
    let p := movePlatform r.1.levelBounds.width r.2
    if r.1.player.canJump && CheckCollisionRecs feet p.rect then
      ({ r.1 with
          player := { r.1.player with
            rect := { r.1.player.rect with x := r.1.player.rect.x + p.velocity.x } } }, p)
    else (r.1, p)
  else r

/-- The assignment `player.canJump = false` of source line 1754. -/
def clearCanJump (g : Game) : Game :=
  { g with player := { g.player with canJump := false } }

/-- Platform collision (source lines 1753-1800). -/
def platformPhase (g : Game) : Game :=
  let r := forEach platformBody (clearCanJump g) g.platforms
  { r.1 with platforms := r.2 }

/-- Projectile shooting (source lines 1802-1812). -/
def shootPhase (inp : Frame) (g : Game) : Game :=
  if inp.keySpace then
    let projectileX : ℚ :=
      if g.player.facingRight then g.player.rect.x + g.player.rect.width else g.player.rect.x
    let projectileY : ℚ := g.player.rect.y + g.player.rect.height / 2
    let velocity : ℚ := if g.player.facingRight then 10 else -10
    let damage : Int := if g.selectedWeapon = 0 then 1 else if g.selectedWeapon = 1 then 2 else 3
    let velocity : ℚ :=
      if g.selectedWeapon = 0 then (if g.player.facingRight then 15 else -15)
      else if g.selectedWeapon = 1 then (if g.player.facingRight then 12 else -12)
      else if g.selectedWeapon = 2 then (if g.player.facingRight then 8 else -8)
      else velocity
    ShootProjectile projectileX projectileY velocity true damage g
  else g

/-- Keep the player in bounds (source lines 1814-1817). -/
def clampPlayer (g : Game) : Game :=
  let g :=
    if g.player.rect.x < 0 then
      { g with player := { g.player with rect := { g.player.rect with x := 0 } } }
    else g
  if g.player.rect.x > g.levelBounds.width - g.player.rect.width then
    { g with player := { g.player with
        rect := { g.player.rect with x := g.levelBounds.width - g.player.rect.width } } }
  else g

/-- The rectangle `enemyFeet` of source lines 1832 and 1876. -/
def enemyFeet (enemy : Enemy) : Rectangle :=
  ⟨enemy.rect.x, enemy.rect.y + enemy.rect.height - 5, enemy.rect.width, 10⟩

/-- Horizontal patrol with reversal at the level bounds (source lines 1824-1828). -/
def patrol (width : ℚ) (enemy : Enemy) : Enemy :=
  let e : Enemy := { enemy with rect := { enemy.rect with x := enemy.rect.x + enemy.velocity.x } }
  if e.rect.x < 0 ∨ e.rect.x > width - e.rect.width then
    { e with velocity := { e.velocity with x := e.velocity.x * -1 },
             facingRight := !e.facingRight }
  else e

/-- The body of the loop that lands a ground enemy (source lines 1832-1838). -/
def enemyLand (enemy : Enemy) (platform : Platform) : Enemy :=
  if CheckCollisionRecs (enemyFeet enemy) platform.rect && decide (enemy.velocity.y > 0) then
    { enemy with rect := { enemy.rect with y := platform.rect.y - enemy.rect.height },
                 velocity := { enemy.velocity with y := 0 } }
  else enemy

/-- Gravity and platform landing of a ground enemy (source lines 1829-1839). -/
def groundPhysics (g : Game) (enemy : Enemy) : Enemy :=
  let e : Enemy := { enemy with velocity := { enemy.velocity with y := enemy.velocity.y + GRAVITY } }
  let e : Enemy := { e with rect := { e.rect with y := e.rect.y + e.velocity.y } }
  g.platforms.foldl enemyLand e

/-- The timed attack of an enemy (source lines 1841-1847, 1859-1865, 1885-1891). -/
def enemyFire (threshold speed : ℚ) (damage : Int) (g : Game) (enemy : Enemy) : Game × Enemy :=
  if enemy.timer > threshold then
    let projectileX : ℚ :=
      if enemy.facingRight then enemy.rect.x + enemy.rect.width else enemy.rect.x
    let projectileY : ℚ := enemy.rect.y + enemy.rect.height / 2
    let velocity : ℚ := if enemy.facingRight then speed else -speed
    (ShootProjectile projectileX projectileY velocity false damage g, { enemy with timer := 0 })
  else (g, enemy)

/-- The case of the flying enemy up to its attack (source lines 1852-1858). -/
def flyingMotion (inp : Frame) (width : ℚ) (enemy : Enemy) : Enemy :=
  let e : Enemy := { enemy with timer := roundF32 (enemy.timer + inp.frameTime) }
  let e : Enemy := { e with rect := { e.rect with x := e.rect.x + e.velocity.x } }
  let e : Enemy := { e with rect := { e.rect with y := e.rect.y + inp.sinf (e.timer * 2) * 2 } }
  if e.rect.x < 0 ∨ e.rect.x > width - e.rect.width then
    { e with velocity := { e.velocity with x := e.velocity.x * -1 },
             facingRight := !e.facingRight }
  else e

/-- The `switch (enemy.type)` of the enemy loop (source lines 1822-1893). -/
def enemyBehavior (inp : Frame) (g : Game) (enemy : Enemy) : Game × Enemy :=
  if enemy.type = 0 then
    let e := groundPhysics g (patrol g.levelBounds.width enemy)
    enemyFire 3 8 1 g { e with timer := roundF32 (e.timer + inp.frameTime) }
  else if enemy.type = 1 then
    enemyFire 2 8 1 g (flyingMotion inp g.levelBounds.width enemy)
  else if enemy.type = 2 then
    let e := groundPhysics g (patrol g.levelBounds.width enemy)
    enemyFire 4 6 2 g { e with timer := roundF32 (e.timer + inp.frameTime) }
  else (g, enemy)

/-- Enemy-player collision (source lines 1895-1901). -/
def enemyContact (g : Game) (enemy : Enemy) : Game :=
  if CheckCollisionRecs g.player.rect enemy.rect then
    let g := { g with player := { g.player with health := g.player.health - 5 } }
    let g := PlaySound Sound.hitSound g
    { g with player := { g.player with
        velocity := ⟨if g.player.rect.x < enemy.rect.x then -8 else 8, -5⟩ } }
  else g

/-- The body of the enemy loop (source lines 1820-1902). -/
def enemyBody (inp : Frame) (g : Game) (enemy : Enemy) : Game × Enemy :=
  if !enemy.active then (g, enemy)
  else
    let r := enemyBehavior inp g enemy
    (enemyContact r.1 r.2, r.2)

/-- Enemy updates (source lines 1819-1902). -/
def enemyPhase (inp : Frame) (g : Game) : Game :=
  let r := forEach (enemyBody inp) g g.enemies
  { r.1 with enemies := r.2 }

/-- The loop over the enemies a player projectile runs, up to its `break`
(source lines 1917-1930). -/
def hitEnemies (proj : Projectile) (g : Game) : List Enemy → Game × Projectile × List Enemy
  | [] => (g, proj, [])
  | enemy :: rest =>
    if enemy.active && CheckCollisionRecs proj.rect enemy.rect then
      let enemy : Enemy := { enemy with health := enemy.health - proj.damage }
      let proj : Projectile := { proj with active := false }
      let g := PlaySound Sound.hitSound g
      if enemy.health ≤ 0 then
        let g := { g with player := { g.player with score := g.player.score + 100 * (enemy.type + 1) } }
        let g := { g with player := { g.player with currency := g.player.currency + enemy.currencyValue } }
        (g, proj, { enemy with active := false } :: rest)
      else (g, proj, enemy :: rest)
    else
      let r := hitEnemies proj g rest
      (r.1, r.2.1, enemy :: r.2.2)

/-- The move of a projectile (source line 1907). -/
def advance (proj : Projectile) : Projectile :=
  { proj with rect := { proj.rect with x := proj.rect.x + proj.velocity.x } }

/-- The body of the projectile loop (source lines 1906-1931). -/
def projectileBody (g : Game) (proj : Projectile) : Game × Projectile :=
  if !proj.active then (g, proj)
  else
    let proj : Projectile := advance proj
    if proj.rect.x < 0 ∨ proj.rect.x > g.levelBounds.width then (g, { proj with active := false })
    else if CheckCollisionWithPlatforms proj.rect g then (g, { proj with active := false })
    else if !proj.fromPlayer && CheckCollisionRecs proj.rect g.player.rect then
      let g := { g with player := { g.player with health := g.player.health - proj.damage } }
      (PlaySound Sound.hitSound g, { proj with active := false })
    else if proj.fromPlayer then
      let r := hitEnemies proj g g.enemies
      ({ r.1 with enemies := r.2.2 }, r.2.1)
    else (g, proj)

/-- Projectile updates (source lines 1904-1932). -/
def projectilePhase (g : Game) : Game :=
  let r := forEach projectileBody g g.projectiles
  { r.1 with projectiles := r.2 }

/-- The body of the collectible loop (source lines 1936-1951). -/
def collectibleBody (g : Game) (collectible : Collectible) : Game × Collectible :=
  if !collectible.active then (g, collectible)
  else if CheckCollisionRecs g.player.rect collectible.rect then
    let g :=
      if collectible.type = 0 then
        PlaySound Sound.coinSound
          { g with player := { g.player with currency := g.player.currency + collectible.value } }
      else if collectible.type = 1 then
        PlaySound Sound.coinSound
          { g with player := { g.player with
              health := min (g.player.health + collectible.value) g.playerMaxHealth } }
      else if collectible.type = 2 then
        PlaySound Sound.coinSound
          { g with player := { g.player with score := g.player.score + collectible.value * 10 } }
      else g
    (g, { collectible with active := false })
  else (g, collectible)

/-- Collectible updates (source lines 1934-1952). -/
def collectiblePhase (g : Game) : Game :=
  let r := forEach collectibleBody g g.collectibles
  { r.1 with collectibles := r.2 }

/-- Check for level exit (source lines 1954-1958). -/
def exitPhase (g : Game) : Game :=
  if g.levelExit.active && CheckCollisionRecs g.player.rect g.levelExit.rect then
    TransitionToNextLevel (PlaySound Sound.portalSound g)
  else g

/-- Camera follows player (source lines 1960-1965); `GetScreenWidth() / 2` is a
division of two `int`s. -/
def cameraPhase (inp : Frame) (g : Game) : Game :=
  let targetCameraX : ℚ :=
    g.player.rect.x - ((Int.tdiv inp.screenWidth 2 : Int) : ℚ) + g.player.rect.width / 2
  let targetCameraX : ℚ := if targetCameraX < 0 then 0 else targetCameraX
  let targetCameraX : ℚ :=
    if targetCameraX > g.levelBounds.width - (inp.screenWidth : ℚ) then
      g.levelBounds.width - (inp.screenWidth : ℚ)
    else targetCameraX
  { g with cameraOffset := { g.cameraOffset with x := targetCameraX } }

/-- Check for player death and update the score globals (source lines 1967-1972). -/
def deathPhase (g : Game) : Game :=
  let g := if g.player.health ≤ 0 then { g with gameState := GameState.MAIN_MENU } else g
  { g with playerScore := g.player.score, playerCurrency := g.player.currency }

/-- Clean up inactive objects (source lines 1974-1983). -/
def cleanupPhase (g : Game) : Game :=
  { g with
    collectibles := g.collectibles.filter fun c => c.active,
    projectiles := g.projectiles.filter fun p => p.active }

/-- The pause toggle of source lines 1733-1734. -/
def togglePause (inp : Frame) (g : Game) : Game :=
  if inp.keyM then { g with isPaused := !g.isPaused } else g

/-- The state in which the clamp of source lines 1814-1817 runs. -/
def beforeClamp (inp : Frame) (g : Game) : Game :=
  shootPhase inp (platformPhase (movePlayer inp (togglePause inp g)))

/-- The state in which the exit check of source lines 1954-1958 runs. -/
def beforeExit (inp : Frame) (g : Game) : Game :=
  collectiblePhase (projectilePhase (enemyPhase inp (clampPlayer (beforeClamp inp g))))

/-- The function `UpdatePlatformer()` (source lines 1732-1984). -/
def UpdatePlatformer (inp : Frame) (g : Game) : Game :=
  if (togglePause inp g).isPaused then togglePause inp g
  else cleanupPhase (deathPhase (cameraPhase inp (exitPhase (beforeExit inp g))))

/-- The update `switch (gameState)` of the main loop (source lines 2377-2389). -/
def mainUpdate (inp : Frame) (g : Game) : Game :=
  match g.gameState with
  | GameState.PLATFORMER => UpdatePlatformer inp g
  | GameState.SPACESHIP_COMBAT => { g with gameState := GameState.MAIN_MENU }
  | _ => g

/-- The frames of the main loop, run in order from a state. -/
def runMain (frames : List Frame) (g : Game) : Game :=
  frames.foldl (fun s inp => mainUpdate inp s) g

/-! ## Projections of the state used in the proofs -/

/-- The globals no phase of `UpdatePlatformer` after the pause toggle writes. -/
def staticPart (g : Game) : LevelPortal × Rectangle × Int × Int × Int × Int × Bool :=
  (g.levelExit, g.levelBounds, g.maxLevel, g.levelCompletionBonus, g.playerMaxHealth,
    g.selectedWeapon, g.isPaused)

/-- The position and motion of the player. -/
def kinematics (g : Game) : Rectangle × Vector2 × Bool × Bool × Bool :=
  (g.player.rect, g.player.velocity, g.player.isJumping, g.player.canJump, g.player.facingRight)

/-- What the phases after the enemy update leave alone. -/
def tailPart (g : Game) :
    (LevelPortal × Rectangle × Int × Int × Int × Int × Bool) ×
      (Rectangle × Vector2 × Bool × Bool × Bool) × List Platform × Nat :=
  (staticPart g, kinematics g, g.platforms, g.enemies.length)

/-- The vertical state of the player that only a landing changes during the
platform loop. -/
def vertical (g : Game) : ℚ × ℚ × ℚ × Vector2 × Bool × Bool × Int :=
  (g.player.rect.y, g.player.rect.height, g.player.rect.width, g.player.velocity,
    g.player.canJump, g.player.isJumping, g.player.health)

/-- The phases from the projectile update to the clean-up, run on the state `x`
the enemy update leaves. -/
def afterEnemies (inp : Frame) (x : Game) : Game :=
  cleanupPhase (deathPhase (cameraPhase inp (exitPhase (collectiblePhase (projectilePhase x)))))

/-! ## Concrete frames and states -/

/-- A frame with no key pressed, at 60 frames per second on a 1280-pixel-wide screen. -/
def idleFrame : Frame :=
  ⟨false, false, false, false, false, 1 / 60, 1280, fun _ => 0⟩

/-- Level 1 as `TransitionToGameplay` builds it from the initial globals when
every enemy faces right. -/
def level1Start : Game :=
  TransitionToGameplay (fun _ => 1) initialGame

/-- Level 1 with the player on the first coin, one projectile about to leave the
level and one in flight. -/
def compactionState : Game :=
  { level1Start with
    player := { level1Start.player with rect := ⟨340, 400, 80, 120⟩ },
    projectiles :=
      [ ⟨⟨1490, 100, 15, 8⟩, ⟨15, 0⟩, true, true, 1⟩,
        ⟨⟨200, 100, 15, 8⟩, ⟨15, 0⟩, true, true, 1⟩ ] }

/-- A Basic enemy as `SpawnEnemy` builds it, facing right, at the given place. -/
def basicEnemyAt (x y : ℚ) : Enemy :=
  { rect := ⟨x, y, 60, 80⟩, velocity := ⟨2, 0⟩, active := true, facingRight := true,
    health := 3, type := 0, timer := 0, currencyValue := 10,
    primaryColor := enemyPrimaryColors 0, secondaryColor := enemySecondaryColors 0 }

/-- A state with the player at (100, 500) and one Basic enemy at (300, 500), no platforms. -/
def duelState : Game :=
  { initialGame with
    gameState := GameState.PLATFORMER,
    player := { zeroPlayer with rect := ⟨100, 500, 80, 120⟩, health := 100, facingRight := true },
    enemies := [basicEnemyAt 300 500] }

/-- A player projectile that reaches the enemy of `duelState` on its next move. -/
def playerShot : Projectile :=
  ⟨⟨290, 540, 15, 8⟩, ⟨15, 0⟩, true, true, 1⟩

/-- An enemy projectile that reaches the player of `duelState` on its next move. -/
def enemyShot : Projectile :=
  ⟨⟨185, 540, 15, 8⟩, ⟨-8, 0⟩, true, false, 1⟩

/-- The level-complete screen after level 1 with a player at health 80, score 300
and currency 530 (the completion bonus included). -/
def levelCompleteState : Game :=
  { level1Start with
    gameState := GameState.LEVEL_COMPLETE,
    levelCompleted := true,
    playerScore := 300,
    playerCurrency := 530,
    player := { level1Start.player with
      rect := ⟨1180, 530, 80, 120⟩, health := 80, score := 300, currency := 530 } }

/-- Level 1 after integration, the player falling at speed 1 with its bottom edge
on the top of the ground strip: feet over the second ground platform only. -/
def groundFall : Game :=
  movePlayer idleFrame
    { level1Start with
      player := { level1Start.player with
        rect := ⟨100, 529, 80, 120⟩, velocity := ⟨0, 1 / 2⟩, health := 100 } }

/-- Level 1 after integration, the player falling at speed 1 onto the spikes at
(800, 630): its feet reach the hazard and stay above the ground strip. -/
def hazardFall : Game :=
  movePlayer idleFrame
    { level1Start with
      player := { level1Start.player with
        rect := ⟨810, 507, 80, 120⟩, velocity := ⟨0, 1 / 2⟩, health := 100 } }

/-- The hazard of level 1 (source line 271). -/
def level1Spikes : Platform :=
  ⟨⟨800, 630, 100, 20⟩, true, 0, ⟨0, 0⟩⟩

/-- A frame with only the left key held. -/
def leftFrame : Frame :=
  ⟨false, false, true, false, false, 1 / 60, 1280, fun _ => 0⟩

/-- The ground strip and one horizontal mover with the speed 1.8 of the mover of
level 3 (source line 360), back at the left end of the level and moving right
again from x = 1; the player stands on it at x = 4. -/
def carryState : Game :=
  { initialGame with
    gameState := GameState.PLATFORMER,
    platforms := groundPlatforms ++ [⟨⟨1, 250, 60, 20⟩, false, 1, ⟨9 / 5, 0⟩⟩],
    player := { zeroPlayer with
      rect := ⟨4, 130, 80, 120⟩, canJump := true, health := 100 } }

/-- Level 1 with the player on the ground in the exit portal, at health 5, and a
Basic enemy inside the player's rectangle. -/
def fatalExit : Game :=
  { level1Start with
    enemies := [basicEnemyAt 1210 570],
    player := { level1Start.player with rect := ⟨1180, 530, 80, 120⟩, health := 5 } }

/-- Level 1 with the player on the ground in the exit portal, at health 100 and
currency 30, no enemy near. -/
def safeExit : Game :=
  { level1Start with
    player := { level1Start.player with
      rect := ⟨1180, 530, 80, 120⟩, health := 100, currency := 30 } }

/-! ## Free fall -/

/-- No platform contact: the landing test of source lines 1757-1758 fails for every
platform. -/
def NoLanding (g : Game) : Prop :=
  ∀ p ∈ g.platforms, landsOn g.player p = false

instance (g : Game) : Decidable (NoLanding g) := by
  unfold NoLanding
  infer_instance

/-- No enemy contact: no active enemy, after its own update, overlaps the player. -/
def NoEnemyContact (inp : Frame) (g : Game) : Prop :=
  ∀ e ∈ g.enemies, e.active = true →
    CheckCollisionRecs g.player.rect (enemyBehavior inp g e).2.rect = false

instance (inp : Frame) (g : Game) : Decidable (NoEnemyContact inp g) := by
  unfold NoEnemyContact
  infer_instance

/-- A non-paused step with no accepted jump, no platform contact and no enemy
contact; the platforms are tested against the player after integration, the
enemies against the player after the clamp. -/
def FreeFall (inp : Frame) (g : Game) : Prop :=
  (togglePause inp g).isPaused = false ∧ (inp.keyUp && g.player.canJump) = false ∧
    NoLanding (movePlayer inp (togglePause inp g)) ∧
    NoEnemyContact inp (clampPlayer (beforeClamp inp g))

instance (inp : Frame) (g : Game) : Decidable (FreeFall inp g) := by
  unfold FreeFall
  infer_instance

/-- Consecutive `UpdatePlatformer` steps, one per frame. -/
def runFrames (frames : List Frame) (g : Game) : Game :=
  frames.foldl (fun s inp => UpdatePlatformer inp s) g

/-- Every step of the run is a free-fall step. -/
def FreeFallRun : List Frame → Game → Prop
  | [], _ => True
  | inp :: rest, g => FreeFall inp g ∧ FreeFallRun rest (UpdatePlatformer inp g)

instance decidableFreeFallRun :
    (frames : List Frame) → (g : Game) → Decidable (FreeFallRun frames g)
  | [], _ => isTrue trivial
  | inp :: rest, g =>
    @instDecidableAnd _ _ _ (decidableFreeFallRun rest (UpdatePlatformer inp g))

/-- No key is pressed or held in the frame. -/
def NoKeys (inp : Frame) : Prop :=
  inp.keyM = false ∧ inp.keyRight = false ∧ inp.keyLeft = false ∧ inp.keyUp = false ∧
    inp.keySpace = false

/-- A random source whose first draw is 1 exactly when `b0` holds and whose later
draws are 1 exactly when `b1` holds. -/
def boolDraw (b0 b1 : Bool) (n : Nat) : Int :=
  if n = 0 then (if b0 then 1 else 0) else (if b1 then 1 else 0)

/-! ## Defeat payout -/

/-- The score the active enemies of a collection are still worth. -/
def pendingScore (es : List Enemy) : Int :=
  (es.map fun e => if e.active then 100 * (e.type + 1) else 0).sum

/-- The currency the active enemies of a collection are still worth. -/
def pendingCurrency (es : List Enemy) : Int :=
  (es.map fun e => if e.active then e.currencyValue else 0).sum

/-- An enemy that is inactive before is the same enemy after. -/
def Frozen (e e2 : Enemy) : Prop :=
  e.active = false → e2 = e

instance (e e2 : Enemy) : Decidable (Frozen e e2) := by
  unfold Frozen
  infer_instance

/-- The state of `duelState` with the enemy down to its last health point. -/
def lastHitState : Game :=
  { duelState with enemies := [{ basicEnemyAt 300 500 with health := 1 }] }

/-! ## Pause and terminal check -/

/-- A frame with only the pause key pressed. -/
def pauseFrame : Frame :=
  ⟨true, false, false, false, false, 1 / 60, 1280, fun _ => 0⟩

/-- The exit check of source line 1955 succeeds in this step. -/
def exitTouched (inp : Frame) (g : Game) : Bool :=
  g.levelExit.active && CheckCollisionRecs (beforeExit inp g).player.rect g.levelExit.rect

/-! ## Level builder: what the result depends on -/

/-- The start of `CreateLevelLayout` (source lines 243-256): the four collections
cleared and the ground strip pushed. -/
def prepareLevel (g : Game) : Game :=
  pushPlatforms groundPlatforms
    { g with platforms := [], enemies := [], projectiles := [], collectibles := [] }

/-- The end of `CreateLevelLayout` (source lines 417-426) for a level of the given
width. -/
def finishLevel (width : ℚ) (g : Game) : Game :=
  { { g with levelBounds := { g.levelBounds with width := width } } with cameraOffset := ⟨0, 0⟩ }

/-- The four entity collections of two states agree. -/
def SameBuild (a b : Game) : Prop :=
  a.platforms = b.platforms ∧ a.enemies = b.enemies ∧ a.collectibles = b.collectibles ∧
    a.projectiles = b.projectiles

/-- The statements `f` and `f2` take states related by `R` to states related by `R`. -/
def Respects (R : Game → Game → Prop) (f f2 : Game → Game) : Prop :=
  ∀ a b, R a b → R (f a) (f2 b)

/-- An enemy with its facing erased: `facingRight` set and `velocity.x` replaced by
its magnitude. -/
def unfaced (e : Enemy) : Enemy :=
  { e with facingRight := true, velocity := ⟨|e.velocity.x|, e.velocity.y⟩ }

/-- A state with its enemy collection emptied. -/
def withoutEnemies (g : Game) : Game :=
  { g with enemies := [] }

/-- Two states agree but for the facing of their enemies. -/
def SameButFacing (a b : Game) : Prop :=
  withoutEnemies a = withoutEnemies b ∧ a.enemies.map unfaced = b.enemies.map unfaced

/-! ## Health cap -/

/-- No projectile in flight has a negative damage; `ShootProjectile` is only called
with the damages 1, 2 and 3. -/
def NonnegDamage (g : Game) : Prop :=
  ∀ p ∈ g.projectiles, 0 ≤ p.damage

instance (g : Game) : Decidable (NonnegDamage g) := by
  unfold NonnegDamage
  infer_instance

/-- The health of the player with the cap it is held to, and the projectiles. -/
def healthPart (g : Game) : Int × Int × List Projectile :=
  (g.player.health, g.playerMaxHealth, g.projectiles)

/-- A state with the player, at health 90, on an active Health collectible. -/
def healthPickupState : Game :=
  { duelState with
    player := { duelState.player with health := 90 },
    collectibles := [⟨⟨120, 520, 40, 40⟩, true, 20, 1⟩] }

/-! ## Score and currency -/

/-- The type and reward of an enemy are those `SpawnEnemy` gives (source lines 505-519). -/
def SpawnedEnemy (e : Enemy) : Prop :=
  (e.type = 0 ∧ e.currencyValue = 10) ∨ (e.type = 1 ∧ e.currencyValue = 15) ∨
    (e.type = 2 ∧ e.currencyValue = 25)

instance (e : Enemy) : Decidable (SpawnedEnemy e) := by
  unfold SpawnedEnemy
  infer_instance

/-- The type and value of a collectible are those `SpawnCollectible` gives (source
lines 530-539). -/
def SpawnedCollectible (c : Collectible) : Prop :=
  (c.type = 0 ∧ c.value = 5) ∨ (c.type = 1 ∧ c.value = 20) ∨ (c.type = 2 ∧ c.value = 10)

instance (c : Collectible) : Decidable (SpawnedCollectible c) := by
  unfold SpawnedCollectible
  infer_instance

/-- The score and currency of the player, with the collectibles still to pick up. -/
def pursePart (g : Game) : Int × Int × List Collectible :=
  (g.player.score, g.player.currency, g.collectibles)

/-- The type and the reward of an enemy are unchanged. -/
def SameKind (e e2 : Enemy) : Prop :=
  e2.type = e.type ∧ e2.currencyValue = e.currencyValue

/-- Every enemy pays a non-negative score and a non-negative currency. -/
def PaysNonneg (es : List Enemy) : Prop :=
  ∀ e ∈ es, 0 ≤ e.type ∧ 0 ≤ e.currencyValue

/-! ## Enemy firing interval -/

/-- One enemy updated frame after frame by the `switch` of the enemy loop, with no
contact and no hit: the globals and the enemy after the frames. -/
def runEnemy (frames : List Frame) (start : Game × Enemy) : Game × Enemy :=
  frames.foldl (fun s inp => enemyBehavior inp s.1 s.2) start

/-- A frame with no key pressed that lasts half a second. -/
def halfFrame : Frame :=
  ⟨false, false, false, false, false, 1 / 2, 1280, fun _ => 0⟩

/-- The frame times of a list of frames, added up. -/
def totalTime (frames : List Frame) : ℚ :=
  (frames.map fun f => f.frameTime).sum

/-! ## Jumping -/

/-- A frame with only the jump key pressed. -/
def jumpFrame : Frame :=
  ⟨false, false, false, true, false, 1 / 60, 1280, fun _ => 0⟩

/-- The frame with the jump key released and every other input as it is. -/
def withoutJumpKey (inp : Frame) : Frame :=
  { inp with keyUp := false }

/-! ## Shooting -/

/-- A frame with only the fire key pressed. -/
def fireFrame : Frame :=
  ⟨false, false, false, false, true, 1 / 60, 1280, fun _ => 0⟩

/-! ## Camera -/

/-- A frame with no key pressed on a 1920-pixel-wide screen. -/
def wideFrame : Frame :=
  ⟨false, false, false, false, false, 1 / 60, 1920, fun _ => 0⟩

/-! ## Selection menus (source lines 129-143, 1428-1434, 1519-1666) -/

/-- The array `hairstyles` (source line 130). -/
def hairstyles : List String := ["Short", "Medium", "Long", "Mohawk", "Bald"]

/-- The array `hairColors` (source line 131). -/
def hairColors : List String := ["Black", "Brown", "Blonde", "Red", "White"]

/-- The array `skinColors` (source line 132). -/
def skinColors : List String := ["Light", "Tan", "Dark"]

/-- The array `eyeColors` (source line 133). -/
def eyeColors : List String := ["Blue", "Green", "Brown", "Gray"]

/-- The array `faceStyles` (source line 134). -/
def faceStyles : List String := ["Round", "Square", "Oval"]

/-- The array `beardStyles` (source line 135). -/
def beardStyles : List String := ["None", "Stubble", "Full", "Goatee"]

/-- The array `fightingClasses` (source line 136). -/
def fightingClasses : List String := ["Expert Pilot", "Soldier", "Hacker"]

/-- The array `weapons` (source line 137). -/
def weapons : List String := ["Blaster Pistol", "Plasma Rifle", "Neural Disruptor"]

/-- The array `armors` (source line 138). -/
def armors : List String := ["Stealth Suit", "Combat Armor", "Power Exoskeleton"]

/-- The array `accessories` (source line 139). -/
def accessories : List String := ["Wrist Computer", "Neural Implant", "Holographic Badge"]

/-- The array `playerAppearanceNames` (source line 140). -/
def playerAppearanceNames : List String :=
  ["Standard Spacesuit", "Tactical Spacesuit", "Elite Spacesuit"]

/-- The array `resolutions` (source line 143). -/
def resolutions : List String := ["1280x720", "1920x1080", "2560x1440"]

/-- The buttons of `DrawCharacterCustomization` and `DrawSettingsMenu` that cycle a
selection index. -/
inductive Selector where
  | spacesuit
  | hairstyle
  | hairColor
  | beard
  | skin
  | eye
  | face
  | fightingClass
  | weapon
  | armor
  | accessory
  | resolution
deriving DecidableEq

/-- The array whose entry labels the button: the `text` argument of its `GuiButton`
call is `array[index]` (source lines 1428, 1522-1546, 1568, 1659-1665). -/
def optionNames : Selector → List String
  | Selector.spacesuit => playerAppearanceNames
  | Selector.hairstyle => hairstyles
  | Selector.hairColor => hairColors
  | Selector.beard => beardStyles
  | Selector.skin => skinColors
  | Selector.eye => eyeColors
  | Selector.face => faceStyles
  | Selector.fightingClass => fightingClasses
  | Selector.weapon => weapons
  | Selector.armor => armors
  | Selector.accessory => accessories
  | Selector.resolution => resolutions

/-- The global the button reads as the index into its array. -/
def selection : Selector → Game → Int
  | Selector.spacesuit, g => g.selectedPlayerAppearance
  | Selector.hairstyle, g => g.selectedHairstyle
  | Selector.hairColor, g => g.selectedHairColor
  | Selector.beard, g => g.selectedBeardStyle
  | Selector.skin, g => g.selectedSkinColor
  | Selector.eye, g => g.selectedEyeColor
  | Selector.face, g => g.selectedFaceStyle
  | Selector.fightingClass, g => g.selectedFightingClass
  | Selector.weapon, g => g.selectedWeapon
  | Selector.armor, g => g.selectedArmor
  | Selector.accessory, g => g.selectedAccessory
  | Selector.resolution, g => g.selectedResolution

/-- The resize that follows the resolution cycle (source lines 1430-1434):
`SetWindowSize` acts on the window; the globals `screenWidth` and `screenHeight`
are assigned. -/
def applyResolution (g : Game) : Game :=
  if g.selectedResolution = 0 then { g with screenWidth := 1280, screenHeight := 720 }
  else if g.selectedResolution = 1 then { g with screenWidth := 1920, screenHeight := 1080 }
  else if g.selectedResolution = 2 then { g with screenWidth := 2560, screenHeight := 1440 }
  else g

/-- What a click on the button runs (source lines 1429-1434, 1523, 1528, 1531, 1536,
1541, 1544, 1547, 1569, 1660, 1663, 1666); the C++ `%` on `int` is the truncated
remainder `Int.tmod`. -/
def cycle : Selector → Game → Game
  | Selector.spacesuit, g =>
    { g with selectedPlayerAppearance := Int.tmod (g.selectedPlayerAppearance + 1) 3 }
  | Selector.hairstyle, g => { g with selectedHairstyle := Int.tmod (g.selectedHairstyle + 1) 5 }
  | Selector.hairColor, g => { g with selectedHairColor := Int.tmod (g.selectedHairColor + 1) 5 }
  | Selector.beard, g => { g with selectedBeardStyle := Int.tmod (g.selectedBeardStyle + 1) 4 }
  | Selector.skin, g => { g with selectedSkinColor := Int.tmod (g.selectedSkinColor + 1) 3 }
  | Selector.eye, g => { g with selectedEyeColor := Int.tmod (g.selectedEyeColor + 1) 4 }
  | Selector.face, g => { g with selectedFaceStyle := Int.tmod (g.selectedFaceStyle + 1) 3 }
  | Selector.fightingClass, g =>
    { g with selectedFightingClass := Int.tmod (g.selectedFightingClass + 1) 3 }
  | Selector.weapon, g => { g with selectedWeapon := Int.tmod (g.selectedWeapon + 1) 3 }
  | Selector.armor, g => { g with selectedArmor := Int.tmod (g.selectedArmor + 1) 3 }
  | Selector.accessory, g => { g with selectedAccessory := Int.tmod (g.selectedAccessory + 1) 3 }
  | Selector.resolution, g =>
    applyResolution { g with selectedResolution := Int.tmod (g.selectedResolution + 1) 3 }

/-- A sequence of clicks, run in order. -/
def runClicks (clicks : List Selector) (g : Game) : Game :=
  clicks.foldl (fun s b => cycle b s) g

/-- Every selection index is a valid index into its array. -/
def InRange (g : Game) : Prop :=
  ∀ b : Selector, 0 ≤ selection b g ∧ selection b g < ((optionNames b).length : Int)

/-! ## Vertical movers -/

/-- A vertically moving platform: Moving type, no horizontal speed, a vertical speed
that is not zero and at most 100 in magnitude (1.5 and 2.0 in levels 2 and 3). -/
def VerticalMover (p : Platform) : Prop :=
  p.type = 1 ∧ p.velocity.x = 0 ∧ p.velocity.y ≠ 0 ∧ |p.velocity.y| ≤ 100

instance (p : Platform) : Decidable (VerticalMover p) := by
  unfold VerticalMover
  infer_instance

/-- The platform moved `n` times by its vertical velocity, the velocity kept. -/
def drift (p : Platform) (n : Nat) : Platform :=
  { p with rect := { p.rect with y := p.rect.y + (n : ℚ) * p.velocity.y } }

/-- Level 2 as `InitPlatformerLevel(2)` builds it from the initial globals when every
enemy faces right. -/
def level2Start : Game :=
  InitPlatformerLevel (fun _ => 1) 2 { initialGame with gameState := GameState.PLATFORMER }

/-- The vertical mover of level 2 (source line 304). -/
def level2Lift : Platform :=
  ⟨⟨1350, 200, 60, 20⟩, false, 1, ⟨0, 3 / 2⟩⟩

/-! ## Breakable platforms -/

/-- The rectangle of the platform overlaps the horizontal extent `[0, width]` of the
level. -/
def inExtent (q : Platform) (width : ℚ) : Prop :=
  q.rect.x < width ∧ 0 < q.rect.x + q.rect.width

instance (q : Platform) (width : ℚ) : Decidable (inExtent q width) := by
  unfold inExtent
  infer_instance

/-- Level 2 with the player falling at speed 1/2 just above the first breakable
platform, the one at (1600, 550) that is 120 wide (source line 298). -/
def breakFall : Game :=
  { level2Start with
    player := { zeroPlayer with
      rect := ⟨1620, 859 / 2, 80, 120⟩, velocity := ⟨0, 1 / 2⟩, health := 100 } }

/-- The state after the landing of `breakFall`, with the player put at the left edge of
the level, falling at speed 1/2 at the height of the platform that was moved away. -/
def breakReturn : Game :=
  { UpdatePlatformer idleFrame breakFall with
    player := { zeroPlayer with
      rect := ⟨0, 859 / 2, 80, 120⟩, velocity := ⟨0, 1 / 2⟩, health := 100 } }

/-! ## Enemy contact -/

/-- The enemy is active and, after its own update, its rectangle overlaps the player's
(source lines 1821 and 1896). -/
def touches (inp : Frame) (g : Game) (e : Enemy) : Bool :=
  e.active && CheckCollisionRecs g.player.rect (enemyBehavior inp g e).2.rect

/-- The number of enemies of the state that touch the player in the enemy loop. -/
def contacts (inp : Frame) (g : Game) : Nat :=
  g.enemies.countP (touches inp g)

/-- A non-paused step in which the platform loop, the projectile loop and the
collectible loop leave `player.health` as it is. -/
def OnlyContact (inp : Frame) (g : Game) : Prop :=
  (togglePause inp g).isPaused = false ∧
    (platformPhase (movePlayer inp (togglePause inp g))).player.health = g.player.health ∧
    (beforeExit inp g).player.health =
      (enemyPhase inp (clampPlayer (beforeClamp inp g))).player.health

instance (inp : Frame) (g : Game) : Decidable (OnlyContact inp g) := by
  unfold OnlyContact
  infer_instance

/-- Every step of the run is an `OnlyContact` step. -/
def OnlyContactRun : List Frame → Game → Prop
  | [], _ => True
  | inp :: rest, g => OnlyContact inp g ∧ OnlyContactRun rest (UpdatePlatformer inp g)

instance decidableOnlyContactRun :
    (frames : List Frame) → (g : Game) → Decidable (OnlyContactRun frames g)
  | [], _ => isTrue trivial
  | inp :: rest, g =>
    @instDecidableAnd _ _ _ (decidableOnlyContactRun rest (UpdatePlatformer inp g))

/-- The contacts of the steps of a run, added up. -/
def runContacts : List Frame → Game → Nat
  | [], _ => 0
  | inp :: rest, g =>
    contacts inp (clampPlayer (beforeClamp inp g)) + runContacts rest (UpdatePlatformer inp g)

/-- The player at (100, 500) with two active Basic enemies and one inactive Basic enemy
inside its rectangle; no platform, projectile or collectible. -/
def crowdState : Game :=
  { initialGame with
    gameState := GameState.PLATFORMER,
    player := { zeroPlayer with rect := ⟨100, 500, 80, 120⟩, health := 100, facingRight := true },
    enemies := [basicEnemyAt 120 520, basicEnemyAt 90 520,
      { basicEnemyAt 110 510 with active := false }] }

/-! ## Powerup pickup -/

/-- The Powerup collectible `SpawnCollectible(120, 520, 2)` builds: value 10. -/
def powerup : Collectible :=
  ⟨⟨120, 520, 40, 40⟩, true, 10, 2⟩

/-- A state with the player, at score 0, on an active Powerup collectible. -/
def powerupState : Game :=
  { duelState with collectibles := [powerup] }

/-! ## Hazards behind the ground -/

/-- A frame with only the right key held. -/
def rightFrame : Frame :=
  ⟨false, true, false, false, false, 1 / 60, 1280, fun _ => 0⟩

/-- Level 1 with the player standing on the ground strip just left of the spikes at
(800, 630), at health 100. -/
def groundWalk : Game :=
  { level1Start with
    player := { level1Start.player with
      rect := ⟨780, 530, 80, 120⟩, velocity := ⟨0, 0⟩, canJump := true, health := 100 } }

/-! ## Weapon stats display (source lines 1668-1684) -/

/-- The weapon stats line the equipment tab draws under the weapon name (source lines
1671-1684). -/
def weaponStatsLine (weapon : Int) : Option String :=
  if weapon = 0 then some "DMG: 5 | SPD: Fast | RNG: Medium"
  else if weapon = 1 then some "DMG: 8 | SPD: Medium | RNG: Long"
  else if weapon = 2 then some "DMG: 12 | SPD: Slow | RNG: Short"
  else none

/-- The number a stats line shows after `DMG: `. -/
def readDMG (line : String) : Int :=
  ((line.toList.drop 5).takeWhile Char.isDigit).foldl
    (fun n c => 10 * n + ((c.toNat : Int) - 48)) 0

/-- The DMG stat the equipment screen displays for the weapon. -/
def displayedDamage (weapon : Int) : Option Int :=
  (weaponStatsLine weapon).map readDMG

/-! ## Enemy invariants -/

/-- Every active enemy of the collection has `health > 0`. -/
def Alive (es : List Enemy) : Prop :=
  ∀ e ∈ es, e.active = true → 0 < e.health

/-- The health and the active flag of an enemy are unchanged. -/
def SameVitals (e e2 : Enemy) : Prop :=
  e2.health = e.health ∧ e2.active = e.active

/-! ## Landings in one step -/

/-- The number of platforms of the loop for which the landing branch (source lines
1759-1769) is taken, counted along the loop on the state each iteration sees. -/
def landings : Game → List Platform → Nat
  | _, [] => 0
  | g, p :: ps => (if landsOn g.player p then 1 else 0) + landings (platformBody g p).1 ps

/-- The number of Breakable platforms that the loop changed, old and new platforms
paired by position. -/
def brokenCount (before after : List Platform) : Nat :=
  (before.zip after).countP fun pq => decide (pq.1.type = 2 ∧ pq.2 ≠ pq.1)

/-- Level 2 with the player falling at speed 1/2 onto the hazard at (1700, 630), its
feet over the ground strip too. -/
def crowdedFall : Game :=
  { level2Start with
    player := { zeroPlayer with
      rect := ⟨1690, 1059 / 2, 80, 120⟩, velocity := ⟨0, 1 / 2⟩, health := 100 } }

/-! ## Horizontal motion -/

/-- The state with `player.velocity.x` replaced. -/
def withVelocityX (v : ℚ) (g : Game) : Game :=
  { g with player := { g.player with velocity := { g.player.velocity with x := v } } }

/-- The input direction: +1 with the right key held, else -1 with the left key held,
else 0 (source lines 1739-1741). -/
def inputDirection (inp : Frame) : ℚ :=
  if inp.keyRight then 1 else if inp.keyLeft then -1 else 0

/-- The state an enemy contact leaves `duelState` in: knocked back at +8. -/
def knockedState : Game :=
  { duelState with
    player := { duelState.player with velocity := ⟨8, -5⟩, health := 95 } }

/-! ## Enemy timers in single precision -/

/-- The timer after the frames when it is only accumulated, never reset: every
addition of a frame time is a `float` addition. -/
def timerAfter (t : ℚ) (frames : List Frame) : ℚ :=
  frames.foldl (fun t f => roundF32 (t + f.frameTime)) t

/-- The timer, accumulated frame by frame in single precision from `t`, stays at or
below 3 over the frames, so the test `enemy.timer > 3.0f` fails on each of them. -/
def QuietTimer : ℚ → List Frame → Prop
  | _, [] => True
  | t, f :: fs => roundF32 (t + f.frameTime) ≤ 3 ∧ QuietTimer (roundF32 (t + f.frameTime)) fs

instance decidableQuietTimer : (t : ℚ) → (frames : List Frame) → Decidable (QuietTimer t frames)
  | _, [] => isTrue trivial
  | t, f :: fs =>
    @instDecidableAnd _ _ _ (decidableQuietTimer (roundF32 (t + f.frameTime)) fs)

/-- A frame with no key pressed at 60 frames per second: the frame time is the
binary32 value nearest to 1/60, 0.016666668. -/
def sixtiethFrame : Frame :=
  ⟨false, false, false, false, false, 8947849 / 536870912, 1280, fun _ => 0⟩

/-- A Basic enemy at (2000, 500), far from the player at (100, 500); no platform. -/
def sentryState : Game :=
  { duelState with enemies := [basicEnemyAt 2000 500] }

/-! ## Landing on level platforms -/

/-- Level 1 after integration, the player falling at speed 1 with its bottom edge on the
top of the ground strip and its feet over two ground platforms, those at x = 100 and
x = 200. -/
def straddleFall : Game :=
  movePlayer idleFrame
    { level1Start with
      player := { level1Start.player with
        rect := ⟨150, 529, 80, 120⟩, velocity := ⟨0, 1 / 2⟩, health := 100 } }

/-! # Verification -/

/-! ## Loops -/

theorem forEach_length {α : Type} (body : Game → α → Game × α) (g : Game) (xs : List α) :
    (forEach body g xs).2.length = xs.length := by
  induction xs generalizing g with
  | nil => rfl
  | cons x xs ih => simp [forEach, ih]

theorem forEach_inv {α : Type} (body : Game → α → Game × α) (I : Game → Prop)
    (hbody : ∀ g x, I g → I (body g x).1) (g : Game) (xs : List α) (hg : I g) :
    I (forEach body g xs).1 := by
  induction xs generalizing g with
  | nil => exact hg
  | cons x xs ih => exact ih _ (hbody g x hg)

theorem forEach_append {α : Type} (body : Game → α → Game × α) (g : Game) (xs ys : List α) :
    forEach body g (xs ++ ys) =
      ((forEach body (forEach body g xs).1 ys).1,
        (forEach body g xs).2 ++ (forEach body (forEach body g xs).1 ys).2) := by
  induction xs generalizing g with
  | nil => rfl
  | cons x xs ih => simp [forEach, ih]

theorem forEach_mem {α : Type} (body : Game → α → Game × α) (P : α → Prop)
    (hbody : ∀ g x, P (body g x).2) (g : Game) (xs : List α) :
    ∀ y ∈ (forEach body g xs).2, P y := by
  induction xs generalizing g with
  | nil => intro y hy; simp [forEach] at hy
  | cons x xs ih =>
    intro y hy
    simp only [forEach, List.mem_cons] at hy
    rcases hy with rfl | hy
    · exact hbody g x
    · exact ih _ y hy

/-! ## What a step leaves alone -/

theorem movePlayer_static (inp : Frame) (g : Game) :
    staticPart (movePlayer inp g) = staticPart g := by
  simp only [movePlayer, PlaySound, staticPart]
  split_ifs <;> rfl

theorem movePlayer_lists (inp : Frame) (g : Game) :
    (movePlayer inp g).enemies = g.enemies ∧ (movePlayer inp g).platforms = g.platforms := by
  simp only [movePlayer, PlaySound]
  split_ifs <;> exact ⟨rfl, rfl⟩

theorem platformBody_static (g : Game) (p : Platform) :
    staticPart (platformBody g p).1 = staticPart g := by
  simp only [platformBody, landOn, PlaySound, staticPart]
  split_ifs <;> rfl

theorem platformBody_enemies (g : Game) (p : Platform) :
    (platformBody g p).1.enemies = g.enemies := by
  simp only [platformBody, landOn, PlaySound]
  split_ifs <;> rfl

theorem platformPhase_static (g : Game) : staticPart (platformPhase g) = staticPart g := by
  have h := forEach_inv platformBody (fun g1 => staticPart g1 = staticPart g)
    (fun g1 x h1 => (platformBody_static g1 x).trans h1)
    (clearCanJump g) g.platforms rfl
  exact h

theorem platformPhase_enemies (g : Game) : (platformPhase g).enemies = g.enemies := by
  have h := forEach_inv platformBody (fun g1 => g1.enemies = g.enemies)
    (fun g1 x h1 => (platformBody_enemies g1 x).trans h1)
    (clearCanJump g) g.platforms rfl
  exact h

theorem platformPhase_platforms_length (g : Game) :
    (platformPhase g).platforms.length = g.platforms.length :=
  forEach_length platformBody _ g.platforms

theorem shootPhase_static (inp : Frame) (g : Game) :
    staticPart (shootPhase inp g) = staticPart g := by
  simp only [shootPhase, ShootProjectile, PlaySound, staticPart]
  split_ifs <;> rfl

theorem shootPhase_lists (inp : Frame) (g : Game) :
    (shootPhase inp g).enemies = g.enemies ∧ (shootPhase inp g).platforms = g.platforms ∧
      (shootPhase inp g).player = g.player := by
  simp only [shootPhase, ShootProjectile, PlaySound]
  split_ifs <;> exact ⟨rfl, rfl, rfl⟩

theorem clampPlayer_static (g : Game) : staticPart (clampPlayer g) = staticPart g := by
  simp only [clampPlayer, staticPart]
  split_ifs <;> rfl

theorem clampPlayer_lists (g : Game) :
    (clampPlayer g).enemies = g.enemies ∧ (clampPlayer g).platforms = g.platforms := by
  simp only [clampPlayer]
  split_ifs <;> exact ⟨rfl, rfl⟩

theorem enemyFire_fst (t v : ℚ) (d : Int) (g : Game) (e : Enemy) :
    staticPart (enemyFire t v d g e).1 = staticPart g ∧
      (enemyFire t v d g e).1.platforms = g.platforms ∧
      (enemyFire t v d g e).1.player = g.player := by
  simp only [enemyFire, ShootProjectile, PlaySound, staticPart]
  split_ifs <;> exact ⟨rfl, rfl, rfl⟩

theorem enemyBehavior_fst (inp : Frame) (g : Game) (e : Enemy) :
    staticPart (enemyBehavior inp g e).1 = staticPart g ∧
      (enemyBehavior inp g e).1.platforms = g.platforms ∧
      (enemyBehavior inp g e).1.player = g.player := by
  unfold enemyBehavior
  split_ifs <;> first | exact enemyFire_fst _ _ _ _ _ | exact ⟨rfl, rfl, rfl⟩

theorem enemyContact_frame (g : Game) (e : Enemy) :
    staticPart (enemyContact g e) = staticPart g ∧
      (enemyContact g e).platforms = g.platforms ∧
      (enemyContact g e).player.rect = g.player.rect := by
  simp only [enemyContact, PlaySound, staticPart]
  split_ifs <;> exact ⟨rfl, rfl, rfl⟩

theorem enemyBody_frame (inp : Frame) (g : Game) (e : Enemy) :
    staticPart (enemyBody inp g e).1 = staticPart g ∧
      (enemyBody inp g e).1.platforms = g.platforms ∧
      (enemyBody inp g e).1.player.rect = g.player.rect := by
  unfold enemyBody
  split_ifs
  · exact ⟨rfl, rfl, rfl⟩
  · obtain ⟨h1, h2, h3⟩ := enemyBehavior_fst inp g e
    obtain ⟨k1, k2, k3⟩ := enemyContact_frame (enemyBehavior inp g e).1 (enemyBehavior inp g e).2
    exact ⟨k1.trans h1, k2.trans h2, k3.trans (congrArg PlayerData.rect h3)⟩

theorem enemyPhase_frame (inp : Frame) (g : Game) :
    staticPart (enemyPhase inp g) = staticPart g ∧
      (enemyPhase inp g).platforms = g.platforms ∧
      (enemyPhase inp g).player.rect = g.player.rect := by
  have h := forEach_inv (enemyBody inp)
    (fun g1 => staticPart g1 = staticPart g ∧ g1.platforms = g.platforms ∧
      g1.player.rect = g.player.rect)
    (fun g1 x h1 => by
      obtain ⟨a, b, c⟩ := enemyBody_frame inp g1 x
      exact ⟨a.trans h1.1, b.trans h1.2.1, c.trans h1.2.2⟩)
    g g.enemies ⟨rfl, rfl, rfl⟩
  exact h

theorem enemyPhase_enemies_length (inp : Frame) (g : Game) :
    (enemyPhase inp g).enemies.length = g.enemies.length :=
  forEach_length (enemyBody inp) g g.enemies

theorem hitEnemies_length (proj : Projectile) (g : Game) (es : List Enemy) :
    (hitEnemies proj g es).2.2.length = es.length := by
  induction es with
  | nil => rfl
  | cons e es ih =>
    simp only [hitEnemies]
    split_ifs <;> simp [ih]

theorem hitEnemies_frame (proj : Projectile) (g : Game) (es : List Enemy) :
    staticPart (hitEnemies proj g es).1 = staticPart g ∧
      kinematics (hitEnemies proj g es).1 = kinematics g ∧
      (hitEnemies proj g es).1.platforms = g.platforms ∧
      (hitEnemies proj g es).1.player.health = g.player.health := by
  induction es with
  | nil => exact ⟨rfl, rfl, rfl, rfl⟩
  | cons e es ih =>
    simp only [hitEnemies, PlaySound]
    split_ifs
    · exact ⟨rfl, rfl, rfl, rfl⟩
    · exact ⟨rfl, rfl, rfl, rfl⟩
    · exact ih

theorem projectileBody_tail (g : Game) (proj : Projectile) :
    tailPart (projectileBody g proj).1 = tailPart g := by
  obtain ⟨h1, h2, h3, _⟩ := hitEnemies_frame (advance proj) g g.enemies
  have h4 := hitEnemies_length (advance proj) g g.enemies
  simp only [projectileBody, PlaySound]
  split_ifs
  · rfl
  · rfl
  · rfl
  · rfl
  · simp only [tailPart, staticPart, kinematics] at *
    simp only [h4, Prod.mk.injEq] at *
    exact ⟨h1, h2, h3, trivial⟩
  · rfl

theorem projectilePhase_tail (g : Game) : tailPart (projectilePhase g) = tailPart g := by
  have h := forEach_inv projectileBody (fun g1 => tailPart g1 = tailPart g)
    (fun g1 x h1 => (projectileBody_tail g1 x).trans h1) g g.projectiles rfl
  exact h

theorem collectibleBody_tail (g : Game) (c : Collectible) :
    tailPart (collectibleBody g c).1 = tailPart g := by
  simp only [collectibleBody, PlaySound]
  split_ifs <;> rfl

theorem collectiblePhase_tail (g : Game) : tailPart (collectiblePhase g) = tailPart g := by
  have h := forEach_inv collectibleBody (fun g1 => tailPart g1 = tailPart g)
    (fun g1 x h1 => (collectibleBody_tail g1 x).trans h1) g g.collectibles rfl
  exact h

theorem exitPhase_tail (g : Game) :
    tailPart (exitPhase g) = tailPart g ∧ (exitPhase g).player.health = g.player.health := by
  simp only [exitPhase, TransitionToNextLevel, PlaySound]
  split_ifs <;> exact ⟨rfl, rfl⟩

theorem cameraPhase_tail (inp : Frame) (g : Game) :
    tailPart (cameraPhase inp g) = tailPart g ∧ (cameraPhase inp g).player = g.player ∧
      (cameraPhase inp g).gameState = g.gameState :=
  ⟨rfl, rfl, rfl⟩

theorem deathPhase_tail (g : Game) :
    tailPart (deathPhase g) = tailPart g ∧ (deathPhase g).player = g.player := by
  simp only [deathPhase]
  split_ifs <;> exact ⟨rfl, rfl⟩

theorem cleanupPhase_tail (g : Game) :
    tailPart (cleanupPhase g) = tailPart g ∧ (cleanupPhase g).player = g.player ∧
      (cleanupPhase g).gameState = g.gameState :=
  ⟨rfl, rfl, rfl⟩

theorem togglePause_frame (inp : Frame) (g : Game) :
    (togglePause inp g).player = g.player ∧ (togglePause inp g).enemies = g.enemies ∧
      (togglePause inp g).platforms = g.platforms ∧
      (togglePause inp g).levelBounds = g.levelBounds ∧
      (togglePause inp g).levelExit = g.levelExit ∧
      (togglePause inp g).maxLevel = g.maxLevel ∧
      (togglePause inp g).levelCompletionBonus = g.levelCompletionBonus := by
  simp only [togglePause]
  split_ifs <;> exact ⟨rfl, rfl, rfl, rfl, rfl, rfl, rfl⟩

theorem afterEnemies_tail (inp : Frame) (x : Game) : tailPart (afterEnemies inp x) = tailPart x := by
  unfold afterEnemies
  rw [(cleanupPhase_tail _).1, (deathPhase_tail _).1, (cameraPhase_tail _ _).1,
    (exitPhase_tail _).1, collectiblePhase_tail, projectilePhase_tail]

theorem UpdatePlatformer_running (inp : Frame) (g : Game)
    (hrun : (togglePause inp g).isPaused = false) :
    UpdatePlatformer inp g = afterEnemies inp (enemyPhase inp (clampPlayer (beforeClamp inp g))) := by
  simp [UpdatePlatformer, hrun, afterEnemies, beforeExit]

theorem beforeClamp_lists (inp : Frame) (g : Game) :
    (beforeClamp inp g).enemies = g.enemies ∧
      (beforeClamp inp g).platforms.length = g.platforms.length := by
  unfold beforeClamp
  refine ⟨?_, ?_⟩
  · rw [(shootPhase_lists _ _).1, platformPhase_enemies, (movePlayer_lists _ _).1,
      (togglePause_frame _ _).2.1]
  · rw [(shootPhase_lists _ _).2.1, platformPhase_platforms_length, (movePlayer_lists _ _).2,
      (togglePause_frame _ _).2.2.1]

/-- C1 (compaction correctness): after one non-paused `UpdatePlatformer` step every
projectile and every collectible left in its collection is active, and the enemy
and platform collections have the length they had before the step. -/
theorem C1_compaction (inp : Frame) (g : Game) (hrun : (togglePause inp g).isPaused = false) :
    (∀ p ∈ (UpdatePlatformer inp g).projectiles, p.active = true) ∧
      (∀ c ∈ (UpdatePlatformer inp g).collectibles, c.active = true) ∧
      (UpdatePlatformer inp g).enemies.length = g.enemies.length ∧
      (UpdatePlatformer inp g).platforms.length = g.platforms.length := by
  rw [UpdatePlatformer_running inp g hrun]
  have ht := afterEnemies_tail inp (enemyPhase inp (clampPlayer (beforeClamp inp g)))
  simp only [tailPart, Prod.mk.injEq] at ht
  obtain ⟨_, _, hpl, hen⟩ := ht
  refine ⟨?_, ?_, ?_, ?_⟩
  · intro p hp
    simp only [afterEnemies, cleanupPhase, List.mem_filter] at hp
    exact hp.2
  · intro c hc
    simp only [afterEnemies, cleanupPhase, List.mem_filter] at hc
    exact hc.2
  · rw [hen, enemyPhase_enemies_length, (clampPlayer_lists _).1, (beforeClamp_lists _ _).1]
  · rw [hpl, (enemyPhase_frame _ _).2.1, (clampPlayer_lists _).2, (beforeClamp_lists _ _).2]

theorem C1_compaction_witness :
    (togglePause idleFrame compactionState).isPaused = false ∧
      ((∀ p ∈ (UpdatePlatformer idleFrame compactionState).projectiles, p.active = true) ∧
      (∀ c ∈ (UpdatePlatformer idleFrame compactionState).collectibles, c.active = true) ∧
      (UpdatePlatformer idleFrame compactionState).enemies.length = compactionState.enemies.length ∧
      (UpdatePlatformer idleFrame compactionState).platforms.length =
        compactionState.platforms.length) :=
  ⟨by decide!, C1_compaction idleFrame compactionState (by decide!)⟩

/-! ## Projectiles and factions -/

/-- C3 (projectile faction exclusivity): processing a projectile fired by the player
leaves `player.health` as it was, and processing a projectile not fired by the
player leaves the whole enemy collection (so every enemy's health and active
flag) as it was. -/
theorem C3_faction_exclusive (g : Game) (proj : Projectile) :
    (proj.fromPlayer = true → (projectileBody g proj).1.player.health = g.player.health) ∧
      (proj.fromPlayer = false → (projectileBody g proj).1.enemies = g.enemies) := by
  obtain ⟨_, _, _, hh⟩ := hitEnemies_frame (advance proj) g g.enemies
  have hadv : (advance proj).fromPlayer = proj.fromPlayer := rfl
  constructor
  · intro hp
    simp only [projectileBody, PlaySound, hadv, hp]
    split_ifs
    all_goals first | rfl | exact hh | (exfalso; simp_all)
  · intro hp
    simp only [projectileBody, PlaySound, hadv, hp]
    split_ifs
    all_goals first | rfl | (exfalso; simp_all)

theorem C3_faction_exclusive_witness :
    (playerShot.fromPlayer = true ∧
        (projectileBody duelState playerShot).1.player.health = duelState.player.health ∧
        (projectileBody duelState playerShot).1.enemies ≠ duelState.enemies) ∧
      (enemyShot.fromPlayer = false ∧
        (projectileBody duelState enemyShot).1.enemies = duelState.enemies ∧
        (projectileBody duelState enemyShot).1.player.health = 99) :=
  ⟨⟨rfl, (C3_faction_exclusive duelState playerShot).1 rfl, by decide!⟩,
    ⟨rfl, (C3_faction_exclusive duelState enemyShot).2 rfl, by decide!⟩⟩

/-! ## Level transitions -/

theorem SpawnEnemy_frame (r : Int) (x y : ℚ) (t : Fin 3) (g : Game) :
    (SpawnEnemy r x y t g).player = g.player ∧ (SpawnEnemy r x y t g).maxLevel = g.maxLevel :=
  ⟨rfl, rfl⟩

theorem SpawnCollectible_frame (x y : ℚ) (t : Fin 3) (g : Game) :
    (SpawnCollectible x y t g).player = g.player ∧
      (SpawnCollectible x y t g).maxLevel = g.maxLevel :=
  ⟨rfl, rfl⟩

theorem pushPlatforms_frame (ps : List Platform) (g : Game) :
    (pushPlatforms ps g).player = g.player ∧ (pushPlatforms ps g).maxLevel = g.maxLevel :=
  ⟨rfl, rfl⟩

theorem setExit_frame (rect : Rectangle) (active : Bool) (targetLevel : Int) (g : Game) :
    (setExit rect active targetLevel g).player = g.player ∧
      (setExit rect active targetLevel g).maxLevel = g.maxLevel :=
  ⟨rfl, rfl⟩

theorem randomCoins_frame (draw : Nat → Int) (g : Game) :
    (randomCoins draw g).player = g.player ∧ (randomCoins draw g).maxLevel = g.maxLevel := by
  unfold randomCoins
  generalize List.range 20 = l
  induction l generalizing g with
  | nil => exact ⟨rfl, rfl⟩
  | cons i l ih => exact ih _

theorem runAll_inv (I : Game → Prop) (steps : List (Game → Game))
    (hsteps : ∀ f ∈ steps, ∀ g, I g → I (f g)) (g : Game) (hg : I g) : I (runAll steps g) := by
  unfold runAll
  induction steps generalizing g with
  | nil => exact hg
  | cons f fs ih =>
    exact ih (fun f1 h1 => hsteps f1 (List.mem_cons_of_mem _ h1)) _
      (hsteps f (List.mem_cons_self _ _) g hg)

theorem level1Layout_frame (draw : Nat → Int) (g : Game) :
    (level1Layout draw g).player = g.player ∧ (level1Layout draw g).maxLevel = g.maxLevel := by
  refine runAll_inv (fun s => s.player = g.player ∧ s.maxLevel = g.maxLevel) _ ?_ g ⟨rfl, rfl⟩
  simp only [List.forall_mem_cons, List.not_mem_nil, false_implies, implies_true, and_true,
    SpawnEnemy_frame, SpawnCollectible_frame, pushPlatforms_frame, setExit_frame, imp_self]

theorem level2Layout_frame (draw : Nat → Int) (g : Game) :
    (level2Layout draw g).player = g.player ∧ (level2Layout draw g).maxLevel = g.maxLevel := by
  refine runAll_inv (fun s => s.player = g.player ∧ s.maxLevel = g.maxLevel) _ ?_ g ⟨rfl, rfl⟩
  simp only [List.forall_mem_cons, List.not_mem_nil, false_implies, implies_true, and_true,
    SpawnEnemy_frame, SpawnCollectible_frame, pushPlatforms_frame, setExit_frame, imp_self]

theorem level3Layout_frame (draw : Nat → Int) (g : Game) :
    (level3Layout draw g).player = g.player ∧ (level3Layout draw g).maxLevel = g.maxLevel := by
  refine runAll_inv (fun s => s.player = g.player ∧ s.maxLevel = g.maxLevel) _ ?_ g ⟨rfl, rfl⟩
  simp only [List.forall_mem_cons, List.not_mem_nil, false_implies, implies_true, and_true,
    SpawnEnemy_frame, SpawnCollectible_frame, pushPlatforms_frame, setExit_frame,
    randomCoins_frame, imp_self]

theorem CreateLevelLayout_frame (draw : Nat → Int) (level : Int) (g : Game) :
    (CreateLevelLayout draw level g).player = g.player ∧
      (CreateLevelLayout draw level g).maxLevel = g.maxLevel := by
  simp only [CreateLevelLayout]
  split_ifs <;>
    simp only [level1Layout_frame, level2Layout_frame, level3Layout_frame, pushPlatforms_frame,
      and_self]

theorem setExit_levelExit (rect : Rectangle) (active : Bool) (targetLevel : Int) (g : Game) :
    (setExit rect active targetLevel g).levelExit = ⟨rect, active, targetLevel⟩ :=
  rfl

theorem CreateLevelLayout_exit3 (draw : Nat → Int) (g : Game) :
    (CreateLevelLayout draw 3 g).levelExit = ⟨⟨3500, 550, 60, 100⟩, true, 1⟩ := by
  simp [CreateLevelLayout, level3Layout, runAll, setExit_levelExit]

theorem TransitionToNextLevel_gameState (g : Game) :
    (TransitionToNextLevel g).gameState =
      if g.levelExit.targetLevel ≤ g.maxLevel then GameState.LEVEL_COMPLETE
      else GameState.MAIN_MENU := by
  simp only [TransitionToNextLevel]
  split_ifs <;> rfl

/-- C9, as the code behaves: pressing "Next Level" on the level-complete screen
does not preserve the player's progress. `gameState` is already `PLATFORMER` when
`InitPlatformerLevel` tests it, so a player at health 80, score 300 and currency 530
starts the next level at health 100 (the global `playerHealth`), score 0 and
currency 0. -/
theorem C9_next_level_resets_progress :
    levelCompleteState.gameState = GameState.LEVEL_COMPLETE ∧
      (levelCompleteState.player.health, levelCompleteState.player.score,
        levelCompleteState.player.currency) = (80, 300, 530) ∧
      ((nextLevelButton (fun _ => 1) levelCompleteState).player.health,
        (nextLevelButton (fun _ => 1) levelCompleteState).player.score,
        (nextLevelButton (fun _ => 1) levelCompleteState).player.currency) = (100, 0, 0) := by
  decide!

theorem nextLevelButton_player (draw : Nat → Int) (g : Game) :
    (nextLevelButton draw g).player.health = g.playerHealth ∧
      (nextLevelButton draw g).player.score = 0 ∧
      (nextLevelButton draw g).player.currency = 0 := by
  simp only [nextLevelButton, InitPlatformerLevel, (CreateLevelLayout_frame _ _ _).1]
  simp

theorem C10_counterexample :
    (CreateLevelLayout (fun _ => 1) 3 initialGame).levelExit.targetLevel = 1 ∧
      (CreateLevelLayout (fun _ => 1) 3 initialGame).maxLevel = 3 ∧
      (TransitionToNextLevel (CreateLevelLayout (fun _ => 1) 3 initialGame)).gameState =
        GameState.LEVEL_COMPLETE := by
  decide!

/-- C10, amended: the exit `CreateLevelLayout` builds for level 3 has `targetLevel`
1, which does not exceed `maxLevel` = 3, so `TransitionToNextLevel` on that level sets
`gameState` to `LEVEL_COMPLETE`; in general `TransitionToNextLevel` sets `MAIN_MENU`
exactly when the exit's `targetLevel` exceeds `maxLevel`. -/
theorem C10_final_exit_loops_back (draw : Nat → Int) (g : Game) (hmax : g.maxLevel = 3) :
    (CreateLevelLayout draw 3 g).levelExit.targetLevel = 1 ∧
      (CreateLevelLayout draw 3 g).levelExit.targetLevel ≤ (CreateLevelLayout draw 3 g).maxLevel ∧
      (TransitionToNextLevel (CreateLevelLayout draw 3 g)).gameState = GameState.LEVEL_COMPLETE ∧
      ∀ s : Game, (TransitionToNextLevel s).gameState = GameState.MAIN_MENU ↔
        s.levelExit.targetLevel > s.maxLevel := by
  have hexit := CreateLevelLayout_exit3 draw g
  have hm := (CreateLevelLayout_frame draw 3 g).2
  refine ⟨by rw [hexit], by rw [hexit, hm, hmax]; decide, ?_, ?_⟩
  · rw [TransitionToNextLevel_gameState, hexit, hm, hmax]
    decide
  · intro s
    rw [TransitionToNextLevel_gameState]
    split_ifs with h
    · simp only [reduceCtorEq, false_iff, not_lt]
      exact h
    · simp only [true_iff]
      exact not_le.mp h

theorem C10_final_exit_loops_back_witness :
    initialGame.maxLevel = 3 ∧
      (CreateLevelLayout (fun _ => 0) 3 initialGame).levelExit.targetLevel = 1 ∧
      (CreateLevelLayout (fun _ => 0) 3 initialGame).levelExit.targetLevel ≤
        (CreateLevelLayout (fun _ => 0) 3 initialGame).maxLevel ∧
      (TransitionToNextLevel (CreateLevelLayout (fun _ => 0) 3 initialGame)).gameState =
        GameState.LEVEL_COMPLETE ∧
      ∀ s : Game, (TransitionToNextLevel s).gameState = GameState.MAIN_MENU ↔
        s.levelExit.targetLevel > s.maxLevel :=
  ⟨rfl, C10_final_exit_loops_back (fun _ => 0) initialGame rfl⟩

/-! ## Player against platforms -/

theorem platformBody_no_landing (g : Game) (p : Platform) (hjump : g.player.canJump = false)
    (hland : landsOn g.player p = false) : (platformBody g p).1 = g := by
  simp only [platformBody, hland, hjump]
  split_ifs <;> simp_all

theorem forEach_platformBody_no_landing (g : Game) (ps : List Platform)
    (hjump : g.player.canJump = false) (hland : ∀ q ∈ ps, landsOn g.player q = false) :
    (forEach platformBody g ps).1 = g := by
  induction ps with
  | nil => rfl
  | cons q qs ih =>
    have hq := platformBody_no_landing g q hjump (hland q (List.mem_cons_self _ _))
    simp only [forEach, hq]
    exact ih (fun r hr => hland r (List.mem_cons_of_mem _ hr))

theorem platformBody_landing (g : Game) (p : Platform) (hland : landsOn g.player p = true) :
    (platformBody g p).1.player.canJump = true ∧
      (platformBody g p).1.player.rect.y = p.rect.y - g.player.rect.height ∧
      (platformBody g p).1.player.rect.height = g.player.rect.height ∧
      (platformBody g p).1.player.velocity.y = (if p.deadly then -8 else 0) ∧
      (platformBody g p).1.player.health =
        (if p.deadly then g.player.health - 10 else g.player.health) := by
  simp only [platformBody, hland, landOn, PlaySound]
  split_ifs <;> simp_all

theorem platformBody_vertical (g : Game) (p : Platform) (hv : ¬ g.player.velocity.y > 0) :
    vertical (platformBody g p).1 = vertical g := by
  have hland : landsOn g.player p = false := by simp [landsOn, hv]
  simp only [platformBody, hland, vertical, Bool.false_eq_true, if_false]
  split_ifs <;> rfl

theorem forEach_platformBody_vertical (g : Game) (ps : List Platform)
    (hv : ¬ g.player.velocity.y > 0) : vertical (forEach platformBody g ps).1 = vertical g := by
  refine forEach_inv platformBody (fun s => vertical s = vertical g) ?_ g ps rfl
  intro s q hs
  have hvel : s.player.velocity = g.player.velocity := by
    simp only [vertical, Prod.mk.injEq] at hs
    exact hs.2.2.2.1
  exact (platformBody_vertical s q (by rw [hvel]; exact hv)).trans hs

theorem platformPhase_landing (g : Game) (pre post : List Platform) (p : Platform)
    (hps : g.platforms = pre ++ p :: post)
    (hpre : ∀ q ∈ pre, CheckCollisionRecs (playerFeet g.player) q.rect = false)
    (hp : CheckCollisionRecs (playerFeet g.player) p.rect = true)
    (hv : g.player.velocity.y > 0) :
    (platformPhase g).player.canJump = true ∧
      (platformPhase g).player.rect.y = p.rect.y - g.player.rect.height ∧
      (platformPhase g).player.rect.height = g.player.rect.height ∧
      (platformPhase g).player.velocity.y = (if p.deadly then -8 else 0) ∧
      (platformPhase g).player.health =
        (if p.deadly then g.player.health - 10 else g.player.health) := by
  have hfeet : playerFeet (clearCanJump g).player = playerFeet g.player := rfl
  have hvel : (clearCanJump g).player.velocity = g.player.velocity := rfl
  have hland : landsOn (clearCanJump g).player p = true := by
    simp [landsOn, hfeet, hvel, hp, hv]
  have hnone : ∀ q ∈ pre, landsOn (clearCanJump g).player q = false := by
    intro q hq
    simp [landsOn, hfeet, hpre q hq]
  obtain ⟨h1, h2, h3, h4, h5⟩ := platformBody_landing (clearCanJump g) p hland
  have hstop : ¬ (platformBody (clearCanJump g) p).1.player.velocity.y > 0 := by
    rw [h4]
    split_ifs <;> norm_num
  have hvert := forEach_platformBody_vertical _ post hstop
  have hphase : (platformPhase g).player =
      (forEach platformBody (platformBody (clearCanJump g) p).1 post).1.player := by
    simp only [platformPhase, hps, forEach_append]
    rw [forEach_platformBody_no_landing (clearCanJump g) pre rfl hnone]
    rfl
  simp only [vertical, Prod.mk.injEq] at hvert
  obtain ⟨v1, v2, _, v4, v5, _, v7⟩ := hvert
  rw [hphase]
  refine ⟨v5.trans h1, v1.trans h2, v2.trans h3, ?_, v7.trans h5⟩
  rw [v4]
  exact h4

theorem C4_counterexample :
    level1Spikes ∈ hazardFall.platforms ∧
      CheckCollisionRecs (playerFeet hazardFall.player) level1Spikes.rect = true ∧
      hazardFall.player.velocity.y > 0 ∧
      (platformPhase hazardFall).player.velocity.y = -8 ∧
      (platformPhase hazardFall).player.velocity.y ≠ 0 := by
  decide!

theorem first_overlapped (feet : Rectangle) (ps : List Platform) (p : Platform) (hp : p ∈ ps)
    (hover : CheckCollisionRecs feet p.rect = true) :
    ∃ (pre : List Platform) (q : Platform) (post : List Platform),
      ps = pre ++ q :: post ∧ (∀ x ∈ pre, CheckCollisionRecs feet x.rect = false) ∧
        CheckCollisionRecs feet q.rect = true ∧ q ∈ ps := by
  induction ps with
  | nil => simp at hp
  | cons a ps ih =>
    cases ha : CheckCollisionRecs feet a.rect
    · have hpa : p ∈ ps := by
        rcases List.mem_cons.mp hp with h | h
        · rw [h, ha] at hover
          exact absurd hover (by decide)
        · exact h
      obtain ⟨pre, q, post, h1, h2, h3, h4⟩ := ih hpa
      refine ⟨a :: pre, q, post, by rw [h1]; rfl, ?_, h3, List.mem_cons_of_mem _ h4⟩
      intro x hx
      rcases List.mem_cons.mp hx with h | h
      · rw [h]
        exact ha
      · exact h2 x h
    · exact ⟨[], a, ps, rfl, fun x hx => by simp at hx, ha, List.mem_cons_self _ _⟩

/-- C4, amended (landing invariant): let `g` be the state after integration, with
`player.velocity.y > 0`, and let `p` be a platform the player's feet rectangle
overlaps, every platform the feet overlap having the top edge and the deadly flag of
`p`. After the player-vs-platform resolution `player.canJump` is true, the player's
bottom edge `rect.y + rect.height` equals `p.rect.y`, and `player.velocity.y` is 0,
unless `p` is deadly, in which case it is -8. -/
theorem C4_landing_invariant (g : Game) (p : Platform) (hp : p ∈ g.platforms)
    (hover : CheckCollisionRecs (playerFeet g.player) p.rect = true)
    (hv : g.player.velocity.y > 0)
    (hsame : ∀ q ∈ g.platforms, CheckCollisionRecs (playerFeet g.player) q.rect = true →
      q.rect.y = p.rect.y ∧ q.deadly = p.deadly) :
    (platformPhase g).player.velocity.y = (if p.deadly then -8 else 0) ∧
      (platformPhase g).player.canJump = true ∧
      (platformPhase g).player.rect.y + (platformPhase g).player.rect.height = p.rect.y := by
  obtain ⟨pre, q, post, hps, hpre, hq, hmem⟩ :=
    first_overlapped (playerFeet g.player) g.platforms p hp hover
  obtain ⟨hy, hd⟩ := hsame q hmem hq
  obtain ⟨h1, h2, h3, h4, _⟩ := platformPhase_landing g pre post q hps hpre hq hv
  refine ⟨?_, h1, ?_⟩
  · rw [h4, hd]
  · rw [h2, h3, hy]
    ring

theorem C4_landing_invariant_witness :
    ((⟨⟨200, 650, 100, 30⟩, false, 0, ⟨0, 0⟩⟩ : Platform) ∈ straddleFall.platforms ∧
      CheckCollisionRecs (playerFeet straddleFall.player) ⟨200, 650, 100, 30⟩ = true ∧
      straddleFall.player.velocity.y > 0 ∧
      (∀ q ∈ straddleFall.platforms,
        CheckCollisionRecs (playerFeet straddleFall.player) q.rect = true →
          q.rect.y = 650 ∧ q.deadly = false)) ∧
      (straddleFall.platforms.countP fun q =>
        CheckCollisionRecs (playerFeet straddleFall.player) q.rect) = 2 ∧
      ((platformPhase straddleFall).player.velocity.y = 0 ∧
        (platformPhase straddleFall).player.canJump = true ∧
        (platformPhase straddleFall).player.rect.y +
          (platformPhase straddleFall).player.rect.height = 650) :=
  ⟨by decide!, by decide!,
    C4_landing_invariant straddleFall ⟨⟨200, 650, 100, 30⟩, false, 0, ⟨0, 0⟩⟩
      (by decide!) (by decide!) (by decide!) (by decide!)⟩

/-- C5 (hazard contact): when the player lands on a deadly platform, that is, the
first platform its feet overlap after integration is deadly and `velocity.y > 0`,
the platform resolution reduces `player.health` by exactly 10 and sets
`player.velocity.y` to exactly -8, whatever the incoming speed. -/
theorem C5_hazard_contact (g : Game) (pre post : List Platform) (p : Platform)
    (hps : g.platforms = pre ++ p :: post)
    (hpre : ∀ q ∈ pre, CheckCollisionRecs (playerFeet g.player) q.rect = false)
    (hp : CheckCollisionRecs (playerFeet g.player) p.rect = true)
    (hv : g.player.velocity.y > 0) (hdeadly : p.deadly = true) :
    (platformPhase g).player.health = g.player.health - 10 ∧
      (platformPhase g).player.velocity.y = -8 := by
  obtain ⟨_, _, _, h4, h5⟩ := platformPhase_landing g pre post p hps hpre hp hv
  rw [h4, h5, hdeadly]
  simp

theorem C5_hazard_contact_witness :
    (hazardFall.platforms = hazardFall.platforms.take 46 ++ level1Spikes :: [] ∧
      (∀ q ∈ hazardFall.platforms.take 46,
        CheckCollisionRecs (playerFeet hazardFall.player) q.rect = false) ∧
      CheckCollisionRecs (playerFeet hazardFall.player) level1Spikes.rect = true ∧
      hazardFall.player.velocity.y > 0 ∧ level1Spikes.deadly = true) ∧
      (platformPhase hazardFall).player.health = hazardFall.player.health - 10 ∧
      (platformPhase hazardFall).player.velocity.y = -8 :=
  ⟨by decide!,
    C5_hazard_contact hazardFall (hazardFall.platforms.take 46) [] level1Spikes
      (by decide!) (by decide!) (by decide!) (by decide!) rfl⟩

/-! ## Bounds clamp -/

theorem platformBody_size (g : Game) (p : Platform) :
    (platformBody g p).1.player.rect.width = g.player.rect.width ∧
      (platformBody g p).1.player.rect.height = g.player.rect.height := by
  simp only [platformBody, landOn, PlaySound]
  split_ifs <;> exact ⟨rfl, rfl⟩

theorem platformPhase_size (g : Game) :
    (platformPhase g).player.rect.width = g.player.rect.width ∧
      (platformPhase g).player.rect.height = g.player.rect.height := by
  have h := forEach_inv platformBody
    (fun s => s.player.rect.width = g.player.rect.width ∧
      s.player.rect.height = g.player.rect.height)
    (fun s q hs => ⟨(platformBody_size s q).1.trans hs.1, (platformBody_size s q).2.trans hs.2⟩)
    (clearCanJump g) g.platforms ⟨rfl, rfl⟩
  exact h

theorem movePlayer_size (inp : Frame) (g : Game) :
    (movePlayer inp g).player.rect.width = g.player.rect.width ∧
      (movePlayer inp g).player.rect.height = g.player.rect.height := by
  simp only [movePlayer, PlaySound]
  split_ifs <;> exact ⟨rfl, rfl⟩

theorem togglePause_static (inp : Frame) (g : Game) :
    (togglePause inp g).levelBounds = g.levelBounds ∧
      (togglePause inp g).levelExit = g.levelExit ∧
      (togglePause inp g).maxLevel = g.maxLevel ∧
      (togglePause inp g).levelCompletionBonus = g.levelCompletionBonus ∧
      (togglePause inp g).playerMaxHealth = g.playerMaxHealth ∧
      (togglePause inp g).selectedWeapon = g.selectedWeapon := by
  simp only [togglePause]
  split_ifs <;> exact ⟨rfl, rfl, rfl, rfl, rfl, rfl⟩

theorem beforeClamp_static (inp : Frame) (g : Game) :
    staticPart (beforeClamp inp g) = staticPart (togglePause inp g) := by
  unfold beforeClamp
  rw [shootPhase_static, platformPhase_static, movePlayer_static]

theorem beforeClamp_size (inp : Frame) (g : Game) :
    (beforeClamp inp g).player.rect.width = g.player.rect.width ∧
      (beforeClamp inp g).levelBounds.width = g.levelBounds.width := by
  have hs := beforeClamp_static inp g
  simp only [staticPart, Prod.mk.injEq] at hs
  refine ⟨?_, ?_⟩
  · unfold beforeClamp
    rw [(shootPhase_lists _ _).2.2, (platformPhase_size _).1, (movePlayer_size _ _).1,
      (togglePause_frame _ _).1]
  · rw [hs.2.1, (togglePause_static _ _).1]

theorem UpdatePlatformer_rect (inp : Frame) (g : Game)
    (hrun : (togglePause inp g).isPaused = false) :
    (UpdatePlatformer inp g).player.rect = (clampPlayer (beforeClamp inp g)).player.rect := by
  rw [UpdatePlatformer_running inp g hrun]
  have ht := afterEnemies_tail inp (enemyPhase inp (clampPlayer (beforeClamp inp g)))
  simp only [tailPart, kinematics, Prod.mk.injEq] at ht
  rw [ht.2.1.1, (enemyPhase_frame _ _).2.2]

theorem clampPlayer_x (g : Game) (hw : g.player.rect.width ≤ g.levelBounds.width) :
    (0 ≤ (clampPlayer g).player.rect.x ∧
        (clampPlayer g).player.rect.x ≤ g.levelBounds.width - g.player.rect.width) ∧
      (g.player.rect.x < 0 → (clampPlayer g).player.rect.x = 0) ∧
      (g.player.rect.x > g.levelBounds.width - g.player.rect.width →
        (clampPlayer g).player.rect.x = g.levelBounds.width - g.player.rect.width) ∧
      (0 ≤ g.player.rect.x → g.player.rect.x ≤ g.levelBounds.width - g.player.rect.width →
        (clampPlayer g).player.rect.x = g.player.rect.x) := by
  simp only [clampPlayer]
  split_ifs with h1 h2 h2 <;> simp only [] at * <;>
    refine ⟨⟨?_, ?_⟩, ?_, ?_, ?_⟩ <;> intros <;> first | trivial | linarith

theorem C6_counterexample :
    (togglePause leftFrame carryState).isPaused = false ∧
      carryState.levelBounds.width ≥ carryState.player.rect.width ∧
      (movePlayer leftFrame (togglePause leftFrame carryState)).player.rect.x = -1 ∧
      (UpdatePlatformer leftFrame carryState).player.rect.x = 4 / 5 ∧
      (UpdatePlatformer leftFrame carryState).player.rect.x ≠ 0 := by
  decide!

/-- C6, amended (bounds clamp): for every state with
`levelBounds.width >= player.rect.width`, after a non-paused `UpdatePlatformer` step
`0 <= player.rect.x <= levelBounds.width - player.rect.width`. With `x0` the x the
clamp receives, that is the x after integration and after the carry of a moving
platform, `x0 < 0` ends at exactly 0, `x0` above the upper bound ends at exactly
`levelBounds.width - player.rect.width`, and an `x0` inside the interval is the
final x. -/
theorem C6_bounds_clamp (inp : Frame) (g : Game)
    (hrun : (togglePause inp g).isPaused = false)
    (hw : g.levelBounds.width ≥ g.player.rect.width) :
    (0 ≤ (UpdatePlatformer inp g).player.rect.x ∧
        (UpdatePlatformer inp g).player.rect.x ≤ g.levelBounds.width - g.player.rect.width) ∧
      ((beforeClamp inp g).player.rect.x < 0 → (UpdatePlatformer inp g).player.rect.x = 0) ∧
      ((beforeClamp inp g).player.rect.x > g.levelBounds.width - g.player.rect.width →
        (UpdatePlatformer inp g).player.rect.x = g.levelBounds.width - g.player.rect.width) ∧
      (0 ≤ (beforeClamp inp g).player.rect.x →
        (beforeClamp inp g).player.rect.x ≤ g.levelBounds.width - g.player.rect.width →
        (UpdatePlatformer inp g).player.rect.x = (beforeClamp inp g).player.rect.x) := by
  obtain ⟨hpw, hlw⟩ := beforeClamp_size inp g
  have h := clampPlayer_x (beforeClamp inp g) (by rw [hpw, hlw]; exact hw)
  rw [hpw, hlw] at h
  rw [UpdatePlatformer_rect inp g hrun]
  exact h

theorem C6_bounds_clamp_witness :
    ((togglePause leftFrame carryState).isPaused = false ∧
      carryState.levelBounds.width ≥ carryState.player.rect.width) ∧
      (0 ≤ (UpdatePlatformer leftFrame carryState).player.rect.x ∧
        (UpdatePlatformer leftFrame carryState).player.rect.x ≤
          carryState.levelBounds.width - carryState.player.rect.width) ∧
      ((beforeClamp leftFrame carryState).player.rect.x < 0 →
        (UpdatePlatformer leftFrame carryState).player.rect.x = 0) ∧
      ((beforeClamp leftFrame carryState).player.rect.x >
          carryState.levelBounds.width - carryState.player.rect.width →
        (UpdatePlatformer leftFrame carryState).player.rect.x =
          carryState.levelBounds.width - carryState.player.rect.width) ∧
      (0 ≤ (beforeClamp leftFrame carryState).player.rect.x →
        (beforeClamp leftFrame carryState).player.rect.x ≤
          carryState.levelBounds.width - carryState.player.rect.width →
        (UpdatePlatformer leftFrame carryState).player.rect.x =
          (beforeClamp leftFrame carryState).player.rect.x) :=
  ⟨by decide!, C6_bounds_clamp leftFrame carryState (by decide!) (by decide!)⟩

/-! ## Level exit -/

theorem beforeExit_static (inp : Frame) (g : Game) :
    staticPart (beforeExit inp g) = staticPart (togglePause inp g) := by
  have h1 := collectiblePhase_tail (projectilePhase (enemyPhase inp (clampPlayer (beforeClamp inp g))))
  have h2 := projectilePhase_tail (enemyPhase inp (clampPlayer (beforeClamp inp g)))
  simp only [tailPart, Prod.mk.injEq] at h1 h2
  unfold beforeExit
  rw [h1.1, h2.1, (enemyPhase_frame _ _).1, clampPlayer_static, beforeClamp_static]

theorem beforeExit_levelExit (inp : Frame) (g : Game) :
    (beforeExit inp g).levelExit = g.levelExit ∧ (beforeExit inp g).maxLevel = g.maxLevel ∧
      (beforeExit inp g).levelCompletionBonus = g.levelCompletionBonus := by
  have h := beforeExit_static inp g
  simp only [staticPart, Prod.mk.injEq] at h
  obtain ⟨_, h2, h3, h4, _⟩ := togglePause_static inp g
  exact ⟨h.1.trans h2, h.2.2.1.trans h3, h.2.2.2.1.trans h4⟩

theorem exitPhase_rect (inp : Frame) (x : Game) :
    (cleanupPhase (deathPhase (cameraPhase inp (exitPhase x)))).player.rect = x.player.rect := by
  have h1 := (exitPhase_tail x).1
  simp only [tailPart, kinematics, Prod.mk.injEq] at h1
  rw [(cleanupPhase_tail _).2.1, (deathPhase_tail _).2, (cameraPhase_tail _ _).2.1]
  exact h1.2.1.1

theorem exitPhase_taken (x : Game) (hactive : x.levelExit.active = true)
    (hover : CheckCollisionRecs x.player.rect x.levelExit.rect = true)
    (htarget : x.levelExit.targetLevel ≤ x.maxLevel) :
    (exitPhase x).gameState = GameState.LEVEL_COMPLETE ∧
      (exitPhase x).player.currency = x.player.currency + x.levelCompletionBonus := by
  simp only [exitPhase, hactive, hover, TransitionToNextLevel, PlaySound, Bool.and_self, if_true,
    htarget]
  exact ⟨trivial, trivial⟩

theorem deathPhase_alive (x : Game) (halive : x.player.health > 0) :
    (deathPhase x).gameState = x.gameState := by
  simp only [deathPhase, not_le.mpr halive, if_false]

theorem runMain_idle (frames : List Frame) (g : Game)
    (hstate : g.gameState = GameState.LEVEL_COMPLETE) : runMain frames g = g := by
  unfold runMain
  induction frames with
  | nil => rfl
  | cons inp rest ih =>
    have hstep : mainUpdate inp g = g := by simp only [mainUpdate, hstate]
    simp only [List.foldl_cons, hstep]
    exact ih

theorem C8_counterexample :
    (togglePause idleFrame fatalExit).isPaused = false ∧
      fatalExit.levelExit.active = true ∧
      CheckCollisionRecs (UpdatePlatformer idleFrame fatalExit).player.rect
        fatalExit.levelExit.rect = true ∧
      fatalExit.levelExit.targetLevel ≤ fatalExit.maxLevel ∧
      (UpdatePlatformer idleFrame fatalExit).player.health = 0 ∧
      (UpdatePlatformer idleFrame fatalExit).gameState = GameState.MAIN_MENU ∧
      (UpdatePlatformer idleFrame fatalExit).gameState ≠ GameState.LEVEL_COMPLETE := by
  decide!

/-- C8, amended (level transition): for every non-paused step in which the player's
rectangle overlaps the active exit, `levelExit.targetLevel <= maxLevel` and
`player.health` is still above 0 at the end of the step, the game state after the
step is `LEVEL_COMPLETE`, `player.currency` is the currency the exit check found
plus `levelCompletionBonus`, added once, and no later frame of the main loop adds
to it while the level-complete screen is up. -/
theorem C8_exit_completes_level (inp : Frame) (g : Game)
    (hrun : (togglePause inp g).isPaused = false)
    (hactive : g.levelExit.active = true)
    (hover : CheckCollisionRecs (UpdatePlatformer inp g).player.rect g.levelExit.rect = true)
    (htarget : g.levelExit.targetLevel ≤ g.maxLevel)
    (halive : (UpdatePlatformer inp g).player.health > 0) :
    (UpdatePlatformer inp g).gameState = GameState.LEVEL_COMPLETE ∧
      (UpdatePlatformer inp g).player.currency =
        (beforeExit inp g).player.currency + g.levelCompletionBonus ∧
      ∀ frames : List Frame,
        (runMain frames (UpdatePlatformer inp g)).player.currency =
          (UpdatePlatformer inp g).player.currency := by
  have hstep : UpdatePlatformer inp g =
      cleanupPhase (deathPhase (cameraPhase inp (exitPhase (beforeExit inp g)))) := by
    simp [UpdatePlatformer, hrun]
  obtain ⟨hexit, hmax, hbonus⟩ := beforeExit_levelExit inp g
  rw [hstep] at hover halive ⊢
  rw [exitPhase_rect] at hover
  have htaken := exitPhase_taken (beforeExit inp g) (by rw [hexit]; exact hactive)
    (by rw [hexit]; exact hover) (by rw [hexit, hmax]; exact htarget)
  rw [(cleanupPhase_tail _).2.1, (deathPhase_tail _).2, (cameraPhase_tail _ _).2.1] at halive
  have hstate : (cleanupPhase (deathPhase (cameraPhase inp (exitPhase (beforeExit inp g))))).gameState =
      GameState.LEVEL_COMPLETE := by
    rw [(cleanupPhase_tail _).2.2, deathPhase_alive _ (by
      rw [(cameraPhase_tail _ _).2.1]; exact halive), (cameraPhase_tail _ _).2.2]
    exact htaken.1
  refine ⟨hstate, ?_, ?_⟩
  · rw [(cleanupPhase_tail _).2.1, (deathPhase_tail _).2, (cameraPhase_tail _ _).2.1, htaken.2,
      hbonus]
  · intro frames
    rw [runMain_idle frames _ hstate]

theorem C8_exit_completes_level_witness :
    ((togglePause idleFrame safeExit).isPaused = false ∧
      safeExit.levelExit.active = true ∧
      CheckCollisionRecs (UpdatePlatformer idleFrame safeExit).player.rect
        safeExit.levelExit.rect = true ∧
      safeExit.levelExit.targetLevel ≤ safeExit.maxLevel ∧
      (UpdatePlatformer idleFrame safeExit).player.health > 0) ∧
      (UpdatePlatformer idleFrame safeExit).gameState = GameState.LEVEL_COMPLETE ∧
      (UpdatePlatformer idleFrame safeExit).player.currency =
        (beforeExit idleFrame safeExit).player.currency + safeExit.levelCompletionBonus ∧
      ∀ frames : List Frame,
        (runMain frames (UpdatePlatformer idleFrame safeExit)).player.currency =
          (UpdatePlatformer idleFrame safeExit).player.currency :=
  ⟨by decide!,
    C8_exit_completes_level idleFrame safeExit (by decide!) (by decide!) (by decide!)
      (by decide!) (by decide!)⟩

/-! ## Gravity and integration -/

theorem platformPhase_no_landing (g : Game) (h : NoLanding g) :
    (platformPhase g).player = (clearCanJump g).player := by
  have hnone : ∀ q ∈ g.platforms, landsOn (clearCanJump g).player q = false := h
  simp only [platformPhase]
  rw [forEach_platformBody_no_landing (clearCanJump g) g.platforms rfl hnone]

theorem enemyFire_snd (t v : ℚ) (d : Int) (g : Game) (e : Enemy) :
    (enemyFire t v d g e).2 = (if e.timer > t then { e with timer := 0 } else e) := by
  simp only [enemyFire]
  split_ifs <;> rfl

theorem enemyBehavior_snd_congr (inp : Frame) (s g : Game) (e : Enemy)
    (hp : s.platforms = g.platforms) (hb : s.levelBounds = g.levelBounds) :
    (enemyBehavior inp s e).2 = (enemyBehavior inp g e).2 := by
  unfold enemyBehavior
  split_ifs <;> simp only [enemyFire_snd, groundPhysics, hp, hb]

theorem enemyBody_no_contact (inp : Frame) (s : Game) (e : Enemy)
    (h : e.active = true → CheckCollisionRecs s.player.rect (enemyBehavior inp s e).2.rect = false) :
    (enemyBody inp s e).1.player = s.player := by
  unfold enemyBody
  split_ifs with ha
  · rfl
  · have hact : e.active = true := by simpa using ha
    have hpl := (enemyBehavior_fst inp s e).2.2
    have hc := h hact
    rw [← hpl] at hc
    simp only [enemyContact, hc, Bool.false_eq_true, if_false]
    exact hpl

theorem enemyPhase_no_contact (inp : Frame) (g : Game) (h : NoEnemyContact inp g) :
    (enemyPhase inp g).player = g.player := by
  have key : ∀ (es : List Enemy) (s : Game), (∀ e ∈ es, e ∈ g.enemies) →
      s.player = g.player → s.platforms = g.platforms → s.levelBounds = g.levelBounds →
      (forEach (enemyBody inp) s es).1.player = g.player := by
    intro es
    induction es with
    | nil => intro s _ hs _ _; exact hs
    | cons e es ih =>
      intro s hmem hs hp hb
      simp only [forEach]
      have hstep := enemyBody_no_contact inp s e (by
        intro ha
        rw [hs, enemyBehavior_snd_congr inp s g e hp hb]
        exact h e (hmem e (List.mem_cons_self _ _)) ha)
      obtain ⟨f1, f2, _⟩ := enemyBody_frame inp s e
      simp only [staticPart, Prod.mk.injEq] at f1
      exact ih _ (fun x hx => hmem x (List.mem_cons_of_mem _ hx)) (hstep.trans hs)
        (f2.trans hp) (f1.2.1.trans hb)
  exact key g.enemies g (fun _ h => h) rfl rfl rfl

theorem movePlayer_fall (inp : Frame) (g : Game) (hjump : (inp.keyUp && g.player.canJump) = false) :
    (movePlayer inp g).player.velocity.y = g.player.velocity.y + 1 / 2 ∧
      (movePlayer inp g).player.rect.y = g.player.rect.y + (g.player.velocity.y + 1 / 2) := by
  simp only [movePlayer, GRAVITY, PlaySound]
  split_ifs <;> simp_all

theorem clampPlayer_vertical (g : Game) :
    (clampPlayer g).player.velocity = g.player.velocity ∧
      (clampPlayer g).player.rect.y = g.player.rect.y := by
  simp only [clampPlayer]
  split_ifs <;> exact ⟨rfl, rfl⟩

theorem UpdatePlatformer_free_fall (inp : Frame) (g : Game) (h : FreeFall inp g) :
    (UpdatePlatformer inp g).player.velocity.y = g.player.velocity.y + 1 / 2 ∧
      (UpdatePlatformer inp g).player.rect.y =
        g.player.rect.y + (g.player.velocity.y + 1 / 2) := by
  obtain ⟨hrun, hjump, hland, hcontact⟩ := h
  rw [UpdatePlatformer_running inp g hrun]
  have ht := afterEnemies_tail inp (enemyPhase inp (clampPlayer (beforeClamp inp g)))
  simp only [tailPart, kinematics, Prod.mk.injEq] at ht
  have hpl : (beforeClamp inp g).player = (clearCanJump (movePlayer inp (togglePause inp g))).player := by
    unfold beforeClamp
    rw [(shootPhase_lists _ _).2.2, platformPhase_no_landing _ hland]
  have hmove := movePlayer_fall inp (togglePause inp g)
    (by rw [(togglePause_frame inp g).1]; exact hjump)
  rw [(togglePause_frame inp g).1] at hmove
  obtain ⟨c1, c2⟩ := clampPlayer_vertical (beforeClamp inp g)
  rw [ht.2.1.1, ht.2.1.2.1, enemyPhase_no_contact inp _ hcontact, c1, c2, hpl]
  exact hmove


theorem runFrames_free_fall (frames : List Frame) (g : Game) (h : FreeFallRun frames g) :
    (runFrames frames g).player.velocity.y =
        g.player.velocity.y + (frames.length : ℚ) / 2 ∧
      (runFrames frames g).player.rect.y =
        g.player.rect.y + (frames.length : ℚ) * g.player.velocity.y +
          (frames.length : ℚ) * ((frames.length : ℚ) + 1) / 4 := by
  induction frames generalizing g with
  | nil => simp [runFrames]
  | cons inp rest ih =>
    obtain ⟨h1, h2⟩ := h
    obtain ⟨hv, hy⟩ := UpdatePlatformer_free_fall inp g h1
    obtain ⟨iv, iy⟩ := ih (UpdatePlatformer inp g) h2
    simp only [runFrames, List.foldl_cons, List.length_cons, Nat.cast_add, Nat.cast_one] at *
    rw [iv, iy, hv, hy]
    constructor <;> ring

theorem frame_keys (inp : Frame) (h : NoKeys inp) (g : Game) :
    togglePause inp g = g ∧ movePlayer inp g = movePlayer idleFrame g ∧
      beforeClamp inp g = beforeClamp idleFrame g := by
  obtain ⟨m, r, l, u, sp, dt, sw, sn⟩ := inp
  obtain ⟨h1, h2, h3, h4, h5⟩ := h
  simp only at h1 h2 h3 h4 h5
  subst h1 h2 h3 h4 h5
  exact ⟨rfl, rfl, rfl⟩

theorem enemyFire_rect (t v : ℚ) (d : Int) (g : Game) (e : Enemy) :
    (enemyFire t v d g e).2.rect = e.rect := by
  simp only [enemyFire]
  split_ifs <;> rfl

theorem enemyBehavior_rect_ground (inp inp2 : Frame) (g : Game) (e : Enemy) (h : e.type ≠ 1) :
    (enemyBehavior inp g e).2.rect = (enemyBehavior inp2 g e).2.rect := by
  unfold enemyBehavior
  split_ifs <;> simp only [enemyFire_rect]

theorem FreeFall_no_keys (inp : Frame) (hk : NoKeys inp) (g : Game)
    (hty : ∀ e ∈ g.enemies, e.type ≠ 1) (h : FreeFall idleFrame g) : FreeFall inp g := by
  obtain ⟨k1, k2, k3⟩ := frame_keys inp hk g
  obtain ⟨h1, _, h3, h4⟩ := h
  have k0 : togglePause idleFrame g = g := rfl
  rw [k0] at h1 h3
  refine ⟨by rw [k1]; exact h1, by rw [hk.2.2.2.1]; rfl, by rw [k1, k2]; exact h3, ?_⟩
  rw [k3]
  intro e he ha
  have hmem : e ∈ g.enemies := by
    rw [(clampPlayer_lists _).1, (beforeClamp_lists _ _).1] at he
    exact he
  rw [enemyBehavior_rect_ground inp idleFrame _ e (hty e hmem)]
  exact h4 e he ha

theorem SpawnEnemy_congr (r r2 : Int) (h : (r == 1) = (r2 == 1)) (x y : ℚ) (t : Fin 3) :
    SpawnEnemy r x y t = SpawnEnemy r2 x y t := by
  funext g
  simp only [SpawnEnemy, h]

theorem level1Layout_congr (draw draw2 : Nat → Int) (h0 : (draw 0 == 1) = (draw2 0 == 1))
    (h1 : (draw 1 == 1) = (draw2 1 == 1)) : level1Layout draw = level1Layout draw2 := by
  funext g
  simp only [level1Layout, SpawnEnemy_congr (draw 0) (draw2 0) h0,
    SpawnEnemy_congr (draw 1) (draw2 1) h1]

theorem level1_start_draws (draw : Nat → Int) :
    TransitionToGameplay draw initialGame =
      TransitionToGameplay (boolDraw (draw 0 == 1) (draw 1 == 1)) initialGame := by
  have h := level1Layout_congr draw (boolDraw (draw 0 == 1) (draw 1 == 1))
    (by cases hd : draw 0 == 1 <;> rfl) (by cases hd : draw 1 == 1 <;> rfl)
  have hc : CreateLevelLayout draw 1 =
      CreateLevelLayout (boolDraw (draw 0 == 1) (draw 1 == 1)) 1 := by
    funext g
    simp only [CreateLevelLayout, h, if_true]
  unfold TransitionToGameplay InitPlatformerLevel
  rw [hc]

theorem level1_start_free_fall (b0 b1 : Bool) :
    FreeFall idleFrame (TransitionToGameplay (boolDraw b0 b1) initialGame) ∧
    (∀ e ∈ (TransitionToGameplay (boolDraw b0 b1) initialGame).enemies, e.type ≠ 1) ∧
    (TransitionToGameplay (boolDraw b0 b1) initialGame).player.rect = ⟨100, 300, 80, 120⟩ ∧
    (TransitionToGameplay (boolDraw b0 b1) initialGame).player.velocity = ⟨0, 0⟩ := by
  cases b0 <;> cases b1 <;> decide!


/-- C7 (determinism of physics): in every non-paused step with no accepted jump, no
platform contact and no enemy contact, `player.velocity.y` becomes the previous value
plus 0.5 and `player.rect.y` the previous value plus the updated `velocity.y`; so
after n such frames from rest `velocity.y = 0.5 * n` and `rect.y` has grown by
`0.25 * n * (n + 1)`; and from the level-1 initial state, whatever the random facing
of the enemies, a frame with no key gives `velocity.y = 0.5` and `rect.y = 300.5`
with no collision. -/
theorem C7_gravity_integration :
    (∀ (inp : Frame) (g : Game), FreeFall inp g →
      (UpdatePlatformer inp g).player.velocity.y = g.player.velocity.y + 1 / 2 ∧
        (UpdatePlatformer inp g).player.rect.y =
          g.player.rect.y + (UpdatePlatformer inp g).player.velocity.y) ∧
      (∀ (frames : List Frame) (g : Game), FreeFallRun frames g → g.player.velocity.y = 0 →
        (runFrames frames g).player.velocity.y = 1 / 2 * (frames.length : ℚ) ∧
          (runFrames frames g).player.rect.y =
            g.player.rect.y + 1 / 4 * (frames.length : ℚ) * ((frames.length : ℚ) + 1)) ∧
      (∀ (draw : Nat → Int) (inp : Frame), NoKeys inp →
        (TransitionToGameplay draw initialGame).player.rect = ⟨100, 300, 80, 120⟩ ∧
          (TransitionToGameplay draw initialGame).player.velocity = ⟨0, 0⟩ ∧
          FreeFall inp (TransitionToGameplay draw initialGame) ∧
          (UpdatePlatformer inp (TransitionToGameplay draw initialGame)).player.velocity.y =
            1 / 2 ∧
          (UpdatePlatformer inp (TransitionToGameplay draw initialGame)).player.rect.y =
            300 + 1 / 2) := by
  refine ⟨?_, ?_, ?_⟩
  · intro inp g h
    obtain ⟨hv, hy⟩ := UpdatePlatformer_free_fall inp g h
    exact ⟨hv, by rw [hy, hv]⟩
  · intro frames g h hv
    obtain ⟨h1, h2⟩ := runFrames_free_fall frames g h
    rw [h1, h2, hv]
    constructor <;> ring
  · intro draw inp hk
    rw [level1_start_draws draw]
    obtain ⟨hf, hty, hr, hvel⟩ := level1_start_free_fall (draw 0 == 1) (draw 1 == 1)
    have hfall := FreeFall_no_keys inp hk _ hty hf
    obtain ⟨hv, hy⟩ := UpdatePlatformer_free_fall inp _ hfall
    refine ⟨hr, hvel, hfall, ?_, ?_⟩
    · rw [hv, hvel]
      norm_num
    · rw [hy, hr, hvel]
      norm_num

theorem C7_gravity_integration_witness :
    (FreeFallRun (List.replicate 10 idleFrame) level1Start ∧
      level1Start.player.velocity.y = 0) ∧
      ((runFrames (List.replicate 10 idleFrame) level1Start).player.velocity.y =
          1 / 2 * ((List.replicate 10 idleFrame).length : ℚ) ∧
        (runFrames (List.replicate 10 idleFrame) level1Start).player.rect.y =
          level1Start.player.rect.y + 1 / 4 * ((List.replicate 10 idleFrame).length : ℚ) *
            (((List.replicate 10 idleFrame).length : ℚ) + 1)) ∧
      (runFrames (List.replicate 10 idleFrame) level1Start).player.velocity.y = 5 ∧
      (runFrames (List.replicate 10 idleFrame) level1Start).player.rect.y = 300 + 55 / 2 :=
  have hrun : FreeFallRun (List.replicate 10 idleFrame) level1Start ∧
      level1Start.player.velocity.y = 0 := by decide!
  ⟨hrun,
    C7_gravity_integration.2.1 (List.replicate 10 idleFrame) level1Start hrun.1 hrun.2,
    by decide!⟩

/-! ## Defeat payout -/

theorem hitEnemies_skip (proj : Projectile) (g : Game) (pre rest : List Enemy)
    (hpre : ∀ q ∈ pre, (q.active && CheckCollisionRecs proj.rect q.rect) = false) :
    hitEnemies proj g (pre ++ rest) =
      ((hitEnemies proj g rest).1, (hitEnemies proj g rest).2.1,
        pre ++ (hitEnemies proj g rest).2.2) := by
  induction pre with
  | nil => rfl
  | cons q qs ih =>
    have hq := hpre q (List.mem_cons_self _ _)
    have hi := ih (fun r hr => hpre r (List.mem_cons_of_mem _ hr))
    simp only [List.cons_append, hitEnemies, hq, Bool.false_eq_true, if_false, List.append_eq] at hi ⊢
    rw [hi]

theorem hitEnemies_kill (proj : Projectile) (g : Game) (e : Enemy) (post : List Enemy)
    (hactive : e.active = true) (hhit : CheckCollisionRecs proj.rect e.rect = true)
    (hdead : e.health - proj.damage ≤ 0) :
    (hitEnemies proj g (e :: post)).1.player.score = g.player.score + 100 * (e.type + 1) ∧
      (hitEnemies proj g (e :: post)).1.player.currency = g.player.currency + e.currencyValue ∧
      (hitEnemies proj g (e :: post)).2.1.active = false ∧
      (hitEnemies proj g (e :: post)).2.2 =
        { e with health := e.health - proj.damage, active := false } :: post := by
  simp only [hitEnemies, hactive, hhit, Bool.and_self, if_true, hdead, PlaySound]
  exact ⟨trivial, trivial, trivial, trivial⟩

theorem hitEnemies_conserve (proj : Projectile) (g : Game) (es : List Enemy) :
    (hitEnemies proj g es).1.player.score + pendingScore (hitEnemies proj g es).2.2 =
        g.player.score + pendingScore es ∧
      (hitEnemies proj g es).1.player.currency + pendingCurrency (hitEnemies proj g es).2.2 =
        g.player.currency + pendingCurrency es := by
  induction es with
  | nil => exact ⟨rfl, rfl⟩
  | cons e es ih =>
    simp only [hitEnemies, PlaySound]
    split_ifs with h1 h2
    · have ha : e.active = true := by
        simp only [Bool.and_eq_true] at h1
        exact h1.1
      simp only [pendingScore, pendingCurrency, List.map_cons, List.sum_cons, ha, if_true,
        Bool.false_eq_true, if_false]
      constructor <;> ring
    · simp only [pendingScore, pendingCurrency, List.map_cons, List.sum_cons]
      exact ⟨trivial, trivial⟩
    · obtain ⟨i1, i2⟩ := ih
      simp only [pendingScore, pendingCurrency, List.map_cons, List.sum_cons] at *
      constructor <;> linarith

theorem projectileBody_conserve (g : Game) (proj : Projectile) :
    (projectileBody g proj).1.player.score + pendingScore (projectileBody g proj).1.enemies =
        g.player.score + pendingScore g.enemies ∧
      (projectileBody g proj).1.player.currency +
          pendingCurrency (projectileBody g proj).1.enemies =
        g.player.currency + pendingCurrency g.enemies := by
  have h := hitEnemies_conserve (advance proj) g g.enemies
  simp only [projectileBody, PlaySound]
  split_ifs
  all_goals first | exact ⟨rfl, rfl⟩ | exact h

theorem projectilePhase_conserve (g : Game) :
    (projectilePhase g).player.score + pendingScore (projectilePhase g).enemies =
        g.player.score + pendingScore g.enemies ∧
      (projectilePhase g).player.currency + pendingCurrency (projectilePhase g).enemies =
        g.player.currency + pendingCurrency g.enemies := by
  have h := forEach_inv projectileBody
    (fun s => s.player.score + pendingScore s.enemies = g.player.score + pendingScore g.enemies ∧
      s.player.currency + pendingCurrency s.enemies =
        g.player.currency + pendingCurrency g.enemies)
    (fun s x hs => ⟨(projectileBody_conserve s x).1.trans hs.1,
      (projectileBody_conserve s x).2.trans hs.2⟩) g g.projectiles ⟨rfl, rfl⟩
  exact h


theorem frozen_refl (es : List Enemy) : List.Forall₂ Frozen es es := by
  induction es with
  | nil => exact List.Forall₂.nil
  | cons e es ih => exact List.Forall₂.cons (fun _ => rfl) ih

theorem frozen_trans {as bs cs : List Enemy} (h1 : List.Forall₂ Frozen as bs)
    (h2 : List.Forall₂ Frozen bs cs) : List.Forall₂ Frozen as cs := by
  induction h1 generalizing cs with
  | nil => cases h2; exact List.Forall₂.nil
  | cons hab _ ih =>
    cases h2 with
    | cons hbc hrest =>
      refine List.Forall₂.cons (fun ha => ?_) (ih hrest)
      have hb := hab ha
      rw [← hb]
      exact hbc (by rw [hb]; exact ha)

theorem forEach_forall₂ {α : Type} (body : Game → α → Game × α) (R : α → α → Prop)
    (hbody : ∀ s x, R x (body s x).2) (g : Game) (xs : List α) :
    List.Forall₂ R xs (forEach body g xs).2 := by
  induction xs generalizing g with
  | nil => exact List.Forall₂.nil
  | cons x xs ih => exact List.Forall₂.cons (hbody g x) (ih _)

theorem enemyBody_frozen (inp : Frame) (s : Game) (e : Enemy) :
    Frozen e (enemyBody inp s e).2 := by
  intro ha
  simp [enemyBody, ha]

theorem hitEnemies_frozen (proj : Projectile) (g : Game) (es : List Enemy) :
    List.Forall₂ Frozen es (hitEnemies proj g es).2.2 := by
  induction es with
  | nil => exact List.Forall₂.nil
  | cons e es ih =>
    simp only [hitEnemies]
    split_ifs with h1 h2
    · refine List.Forall₂.cons (fun ha => ?_) (frozen_refl es)
      simp [ha] at h1
    · refine List.Forall₂.cons (fun ha => ?_) (frozen_refl es)
      simp [ha] at h1
    · exact List.Forall₂.cons (fun _ => rfl) ih

theorem projectileBody_frozen (g : Game) (proj : Projectile) :
    List.Forall₂ Frozen g.enemies (projectileBody g proj).1.enemies := by
  have h := hitEnemies_frozen (advance proj) g g.enemies
  simp only [projectileBody, PlaySound]
  split_ifs
  all_goals first | exact frozen_refl _ | exact h

theorem projectilePhase_frozen (g : Game) :
    List.Forall₂ Frozen g.enemies (projectilePhase g).enemies := by
  have h := forEach_inv projectileBody (fun s => List.Forall₂ Frozen g.enemies s.enemies)
    (fun s x hs => frozen_trans hs (projectileBody_frozen s x)) g g.projectiles (frozen_refl _)
  exact h

theorem collectibleBody_enemies (g : Game) (c : Collectible) :
    (collectibleBody g c).1.enemies = g.enemies := by
  simp only [collectibleBody, PlaySound]
  split_ifs <;> rfl

theorem afterProjectiles_enemies (inp : Frame) (x : Game) :
    (cleanupPhase (deathPhase (cameraPhase inp (exitPhase (collectiblePhase x))))).enemies =
      x.enemies := by
  have h1 : (collectiblePhase x).enemies = x.enemies :=
    forEach_inv collectibleBody (fun s => s.enemies = x.enemies)
      (fun s c hs => (collectibleBody_enemies s c).trans hs) x x.collectibles rfl
  have h2 : ∀ y : Game, (exitPhase y).enemies = y.enemies := by
    intro y
    simp only [exitPhase, TransitionToNextLevel, PlaySound]
    split_ifs <;> rfl
  have h3 : ∀ y : Game, (deathPhase y).enemies = y.enemies := by
    intro y
    simp only [deathPhase]
    split_ifs <;> rfl
  show (deathPhase (cameraPhase inp (exitPhase (collectiblePhase x)))).enemies = x.enemies
  rw [h3]
  show (exitPhase (collectiblePhase x)).enemies = x.enemies
  rw [h2, h1]

theorem enemyPhase_frozen (inp : Frame) (x : Game) :
    List.Forall₂ Frozen x.enemies (enemyPhase inp x).enemies :=
  forEach_forall₂ (enemyBody inp) Frozen (enemyBody_frozen inp) x x.enemies

theorem UpdatePlatformer_frozen (inp : Frame) (g : Game) :
    List.Forall₂ Frozen g.enemies (UpdatePlatformer inp g).enemies := by
  by_cases hrun : (togglePause inp g).isPaused = false
  · rw [UpdatePlatformer_running inp g hrun]
    unfold afterEnemies
    rw [afterProjectiles_enemies]
    refine frozen_trans ?_ (projectilePhase_frozen _)
    have h := enemyPhase_frozen inp (clampPlayer (beforeClamp inp g))
    rw [(clampPlayer_lists _).1, (beforeClamp_lists _ _).1] at h
    exact h
  · have hp : (togglePause inp g).isPaused = true := by simpa using hrun
    simp only [UpdatePlatformer, hp, if_true]
    rw [(togglePause_frame inp g).2.1]
    exact frozen_refl _

theorem SpawnEnemy_reward (r : Int) (x y : ℚ) (t : Fin 3) (s : Game) :
    ∃ e : Enemy, (SpawnEnemy r x y t s).enemies = s.enemies ++ [e] ∧ e.type = (t : Int) ∧
      e.active = true ∧ e.health > 0 ∧
      e.currencyValue = (if e.type = 0 then 10 else if e.type = 1 then 15 else 25) := by
  fin_cases t <;> simp [SpawnEnemy]

/-- C2 (defeat payout): when a player-fired projectile reaches the enemy loop and the
first active enemy it overlaps is left with health <= 0, `player.score` grows by
exactly `100 * (enemy.type + 1)`, `player.currency` by exactly that enemy's
`currencyValue`, and the enemy is deactivated; `SpawnEnemy` gives the types 0, 1, 2
the values 10, 15, 25; over the whole projectile phase the score (currency) plus
what the still active enemies are worth is conserved, so every enemy pays once, when
it is deactivated; and no `UpdatePlatformer` step changes an inactive enemy, so an
inactive enemy is never paid for again, in this step or a later one. -/
theorem C2_defeat_payout (g : Game) (proj : Projectile) (pre post : List Enemy) (e : Enemy)
    (hact : proj.active = true) (hfrom : proj.fromPlayer = true)
    (hin : ¬ ((advance proj).rect.x < 0 ∨ (advance proj).rect.x > g.levelBounds.width))
    (hplat : CheckCollisionWithPlatforms (advance proj).rect g = false)
    (hes : g.enemies = pre ++ e :: post)
    (hpre : ∀ q ∈ pre, (q.active && CheckCollisionRecs (advance proj).rect q.rect) = false)
    (hactive : e.active = true)
    (hhit : CheckCollisionRecs (advance proj).rect e.rect = true)
    (hdead : e.health - proj.damage ≤ 0) :
    ((projectileBody g proj).1.player.score = g.player.score + 100 * (e.type + 1) ∧
        (projectileBody g proj).1.player.currency = g.player.currency + e.currencyValue ∧
        (projectileBody g proj).1.enemies =
          pre ++ { e with health := e.health - proj.damage, active := false } :: post) ∧
      (∀ (r : Int) (x y : ℚ) (t : Fin 3) (s : Game), ∃ e0 : Enemy,
        (SpawnEnemy r x y t s).enemies = s.enemies ++ [e0] ∧ e0.type = (t : Int) ∧
          e0.active = true ∧ e0.health > 0 ∧
          e0.currencyValue = (if e0.type = 0 then 10 else if e0.type = 1 then 15 else 25)) ∧
      (∀ s : Game,
        (projectilePhase s).player.score + pendingScore (projectilePhase s).enemies =
            s.player.score + pendingScore s.enemies ∧
          (projectilePhase s).player.currency + pendingCurrency (projectilePhase s).enemies =
            s.player.currency + pendingCurrency s.enemies) ∧
      (∀ (inp : Frame) (s : Game),
        List.Forall₂ Frozen s.enemies (UpdatePlatformer inp s).enemies) := by
  refine ⟨?_, SpawnEnemy_reward, projectilePhase_conserve, UpdatePlatformer_frozen⟩
  have hdmg : (advance proj).damage = proj.damage := rfl
  have hskip := hitEnemies_skip (advance proj) g pre (e :: post) hpre
  obtain ⟨k1, k2, _, k4⟩ := hitEnemies_kill (advance proj) g e post hactive hhit
    (by rw [hdmg]; exact hdead)
  have hfp : (advance proj).fromPlayer = true := hfrom
  simp only [projectileBody, hact, Bool.not_true, Bool.false_eq_true, if_false, hin, hplat, hfp,
    Bool.false_and, if_true, hes, hskip]
  rw [hdmg] at k4
  exact ⟨k1, k2, by rw [k4]⟩

theorem C2_defeat_payout_witness :
    (playerShot.active = true ∧ playerShot.fromPlayer = true ∧
      ¬ ((advance playerShot).rect.x < 0 ∨
        (advance playerShot).rect.x > lastHitState.levelBounds.width) ∧
      CheckCollisionWithPlatforms (advance playerShot).rect lastHitState = false ∧
      lastHitState.enemies = [] ++ { basicEnemyAt 300 500 with health := 1 } :: [] ∧
      ({ basicEnemyAt 300 500 with health := 1 } : Enemy).active = true ∧
      CheckCollisionRecs (advance playerShot).rect
        ({ basicEnemyAt 300 500 with health := 1 } : Enemy).rect = true ∧
      ({ basicEnemyAt 300 500 with health := 1 } : Enemy).health - playerShot.damage ≤ 0) ∧
      ((projectileBody lastHitState playerShot).1.player.score =
          lastHitState.player.score + 100 ∧
        (projectileBody lastHitState playerShot).1.player.currency =
          lastHitState.player.currency + 10 ∧
        (projectileBody (projectileBody lastHitState playerShot).1 playerShot).1.player.score =
          lastHitState.player.score + 100) :=
  have h := C2_defeat_payout lastHitState playerShot [] []
    { basicEnemyAt 300 500 with health := 1 }
    (by decide!) (by decide!) (by decide!) (by decide!) (by decide!)
    (by decide!) (by decide!) (by decide!) (by decide!)
  ⟨by decide!, h.1.1, h.1.2.1, by decide!⟩

/-! ## Pause and terminal check -/

/-- C11 (pause): if the pause flag is true after the pause toggle has been applied,
`UpdatePlatformer` returns the state it received with `isPaused` true and nothing
else changed: player, platforms, enemies with their timers, projectiles,
collectibles, exit, camera offset, score and currency globals and `gameState` are
the same before and after the call. -/
theorem C11_paused_step_freezes (inp : Frame) (g : Game)
    (hpaused : (togglePause inp g).isPaused = true) :
    UpdatePlatformer inp g = { g with isPaused := true } := by
  have h1 : UpdatePlatformer inp g = togglePause inp g := by
    simp only [UpdatePlatformer, hpaused, if_true]
  rw [h1]
  simp only [togglePause] at hpaused ⊢
  split_ifs at hpaused ⊢ with hk
  · have hp : (!g.isPaused) = true := hpaused
    rw [hp]
  · cases g
    simp only at hpaused
    subst hpaused
    rfl

theorem C11_paused_step_freezes_witness :
    (togglePause pauseFrame compactionState).isPaused = true ∧
      UpdatePlatformer pauseFrame compactionState = { compactionState with isPaused := true } :=
  ⟨by decide!, C11_paused_step_freezes pauseFrame compactionState (by decide!)⟩

theorem movePlayer_gameState (inp : Frame) (g : Game) :
    (movePlayer inp g).gameState = g.gameState := by
  simp only [movePlayer, PlaySound]
  split_ifs <;> rfl

theorem platformBody_gameState (g : Game) (p : Platform) :
    (platformBody g p).1.gameState = g.gameState := by
  simp only [platformBody, landOn, PlaySound]
  split_ifs <;> rfl

theorem platformPhase_gameState (g : Game) : (platformPhase g).gameState = g.gameState := by
  have h := forEach_inv platformBody (fun s => s.gameState = g.gameState)
    (fun s x hs => (platformBody_gameState s x).trans hs) (clearCanJump g) g.platforms rfl
  exact h

theorem shootPhase_gameState (inp : Frame) (g : Game) :
    (shootPhase inp g).gameState = g.gameState := by
  simp only [shootPhase, ShootProjectile, PlaySound]
  split_ifs <;> rfl

theorem clampPlayer_gameState (g : Game) : (clampPlayer g).gameState = g.gameState := by
  simp only [clampPlayer]
  split_ifs <;> rfl

theorem enemyFire_gameState (t v : ℚ) (d : Int) (g : Game) (e : Enemy) :
    (enemyFire t v d g e).1.gameState = g.gameState := by
  simp only [enemyFire, ShootProjectile, PlaySound]
  split_ifs <;> rfl

theorem enemyBody_gameState (inp : Frame) (g : Game) (e : Enemy) :
    (enemyBody inp g e).1.gameState = g.gameState := by
  have hb : (enemyBehavior inp g e).1.gameState = g.gameState := by
    unfold enemyBehavior
    split_ifs <;> first | exact enemyFire_gameState _ _ _ _ _ | rfl
  have hc : ∀ s : Game, ∀ x : Enemy, (enemyContact s x).gameState = s.gameState := by
    intro s x
    simp only [enemyContact, PlaySound]
    split_ifs <;> rfl
  unfold enemyBody
  split_ifs
  · rfl
  · exact (hc _ _).trans hb

theorem enemyPhase_gameState (inp : Frame) (g : Game) :
    (enemyPhase inp g).gameState = g.gameState := by
  have h := forEach_inv (enemyBody inp) (fun s => s.gameState = g.gameState)
    (fun s x hs => (enemyBody_gameState inp s x).trans hs) g g.enemies rfl
  exact h

theorem hitEnemies_gameState (proj : Projectile) (g : Game) (es : List Enemy) :
    (hitEnemies proj g es).1.gameState = g.gameState := by
  induction es with
  | nil => rfl
  | cons e es ih =>
    simp only [hitEnemies, PlaySound]
    split_ifs
    · rfl
    · rfl
    · exact ih

theorem projectileBody_gameState (g : Game) (proj : Projectile) :
    (projectileBody g proj).1.gameState = g.gameState := by
  have h := hitEnemies_gameState (advance proj) g g.enemies
  simp only [projectileBody, PlaySound]
  split_ifs
  all_goals first | rfl | exact h

theorem projectilePhase_gameState (g : Game) : (projectilePhase g).gameState = g.gameState := by
  have h := forEach_inv projectileBody (fun s => s.gameState = g.gameState)
    (fun s x hs => (projectileBody_gameState s x).trans hs) g g.projectiles rfl
  exact h

theorem collectibleBody_gameState (g : Game) (c : Collectible) :
    (collectibleBody g c).1.gameState = g.gameState := by
  simp only [collectibleBody, PlaySound]
  split_ifs <;> rfl

theorem collectiblePhase_gameState (g : Game) : (collectiblePhase g).gameState = g.gameState := by
  have h := forEach_inv collectibleBody (fun s => s.gameState = g.gameState)
    (fun s x hs => (collectibleBody_gameState s x).trans hs) g g.collectibles rfl
  exact h

theorem togglePause_gameState (inp : Frame) (g : Game) :
    (togglePause inp g).gameState = g.gameState := by
  simp only [togglePause]
  split_ifs <;> rfl

theorem beforeExit_gameState (inp : Frame) (g : Game) :
    (beforeExit inp g).gameState = g.gameState := by
  unfold beforeExit beforeClamp
  rw [collectiblePhase_gameState, projectilePhase_gameState, enemyPhase_gameState,
    clampPlayer_gameState, shootPhase_gameState, platformPhase_gameState, movePlayer_gameState,
    togglePause_gameState]

theorem UpdatePlatformer_unfold (inp : Frame) (g : Game)
    (hrun : (togglePause inp g).isPaused = false) :
    UpdatePlatformer inp g =
      cleanupPhase (deathPhase (cameraPhase inp (exitPhase (beforeExit inp g)))) := by
  simp [UpdatePlatformer, hrun]

/-- C12 (terminal check): after every non-paused `UpdatePlatformer` step, a
`player.health <= 0` at the end of the step implies `gameState = MAIN_MENU`, also
when the exit was touched in the same step; and if `player.health > 0` at the end
of the step and the exit check did not succeed, `gameState` is what it was before
the step. -/
theorem C12_terminal_check (inp : Frame) (g : Game)
    (hrun : (togglePause inp g).isPaused = false) :
    ((UpdatePlatformer inp g).player.health ≤ 0 →
        (UpdatePlatformer inp g).gameState = GameState.MAIN_MENU) ∧
      ((UpdatePlatformer inp g).player.health > 0 → exitTouched inp g = false →
        (UpdatePlatformer inp g).gameState = g.gameState) := by
  rw [UpdatePlatformer_unfold inp g hrun]
  rw [(cleanupPhase_tail _).2.1, (deathPhase_tail _).2, (cameraPhase_tail _ _).2.1,
    (cleanupPhase_tail _).2.2]
  constructor
  · intro hdead
    have : (cameraPhase inp (exitPhase (beforeExit inp g))).player.health ≤ 0 := by
      rw [(cameraPhase_tail _ _).2.1]; exact hdead
    simp only [deathPhase, this, if_true]
  · intro halive hno
    rw [deathPhase_alive _ (by rw [(cameraPhase_tail _ _).2.1]; exact halive),
      (cameraPhase_tail _ _).2.2]
    have hex : exitPhase (beforeExit inp g) = beforeExit inp g := by
      simp only [exitTouched] at hno
      simp only [exitPhase, (beforeExit_levelExit inp g).1, hno, Bool.false_eq_true, if_false]
    rw [hex, beforeExit_gameState]

theorem C12_terminal_check_witness :
    ((togglePause idleFrame fatalExit).isPaused = false ∧
        (UpdatePlatformer idleFrame fatalExit).player.health ≤ 0 ∧
        exitTouched idleFrame fatalExit = true ∧
        (UpdatePlatformer idleFrame fatalExit).gameState = GameState.MAIN_MENU) ∧
      ((togglePause idleFrame level1Start).isPaused = false ∧
        (UpdatePlatformer idleFrame level1Start).player.health > 0 ∧
        exitTouched idleFrame level1Start = false ∧
        (UpdatePlatformer idleFrame level1Start).gameState = level1Start.gameState) :=
  ⟨⟨by decide!, by decide!, by decide!,
      (C12_terminal_check idleFrame fatalExit (by decide!)).1 (by decide!)⟩,
    ⟨by decide!, by decide!, by decide!,
      (C12_terminal_check idleFrame level1Start (by decide!)).2 (by decide!) (by decide!)⟩⟩

/-! ## Level builder: what the result depends on -/

theorem CreateLevelLayout_one (draw : Nat → Int) (g : Game) :
    CreateLevelLayout draw 1 g = finishLevel 1500 (level1Layout draw (prepareLevel g)) := by
  simp only [CreateLevelLayout, if_true]
  rfl

theorem CreateLevelLayout_two (draw : Nat → Int) (g : Game) :
    CreateLevelLayout draw 2 g = finishLevel 2500 (level2Layout draw (prepareLevel g)) := by
  have h21 : ¬ ((2 : Int) = 1) := by decide
  simp only [CreateLevelLayout, h21, if_false, if_true]
  rfl

theorem CreateLevelLayout_three (draw : Nat → Int) (g : Game) :
    CreateLevelLayout draw 3 g = finishLevel 4000 (level3Layout draw (prepareLevel g)) := by
  have h31 : ¬ ((3 : Int) = 1) := by decide
  have h32 : ¬ ((3 : Int) = 2) := by decide
  simp only [CreateLevelLayout, h31, h32, if_false, if_true]
  rfl


theorem runAll_rel (R : Game → Game → Prop) (steps steps2 : List (Game → Game))
    (hsteps : List.Forall₂ (Respects R) steps steps2) (a b : Game) (hab : R a b) :
    R (runAll steps a) (runAll steps2 b) := by
  unfold runAll
  induction hsteps generalizing a b with
  | nil => exact hab
  | cons hf _ ih => exact ih _ _ (hf a b hab)

theorem SpawnEnemy_same (r : Int) (x y : ℚ) (t : Fin 3) :
    Respects SameBuild (SpawnEnemy r x y t) (SpawnEnemy r x y t) := by
  rintro a b ⟨h1, h2, h3, h4⟩
  simp only [SameBuild, SpawnEnemy, h1, h2, h3, h4, and_self]

theorem SpawnCollectible_same (x y : ℚ) (t : Fin 3) :
    Respects SameBuild (SpawnCollectible x y t) (SpawnCollectible x y t) := by
  rintro a b ⟨h1, h2, h3, h4⟩
  simp only [SameBuild, SpawnCollectible, h1, h2, h3, h4, and_self]

theorem pushPlatforms_same (ps : List Platform) :
    Respects SameBuild (pushPlatforms ps) (pushPlatforms ps) := by
  rintro a b ⟨h1, h2, h3, h4⟩
  simp only [SameBuild, pushPlatforms, h1, h2, h3, h4, and_self]

theorem setExit_same (rect : Rectangle) (active : Bool) (targetLevel : Int) :
    Respects SameBuild (setExit rect active targetLevel) (setExit rect active targetLevel) := by
  rintro a b h
  exact h

theorem randomCoins_same (draw : Nat → Int) :
    Respects SameBuild (randomCoins draw) (randomCoins draw) := by
  intro a b hab
  unfold randomCoins
  generalize List.range 20 = l
  induction l generalizing a b with
  | nil => exact hab
  | cons i l ih => exact ih _ _ (SpawnCollectible_same _ _ _ a b hab)

theorem level1Layout_same (draw : Nat → Int) :
    Respects SameBuild (level1Layout draw) (level1Layout draw) := by
  intro a b hab
  refine runAll_rel SameBuild _ _ ?_ a b hab
  simp only [List.forall₂_cons, List.Forall₂.nil, SpawnEnemy_same, SpawnCollectible_same,
    pushPlatforms_same, setExit_same, and_self]

theorem level2Layout_same (draw : Nat → Int) :
    Respects SameBuild (level2Layout draw) (level2Layout draw) := by
  intro a b hab
  refine runAll_rel SameBuild _ _ ?_ a b hab
  simp only [List.forall₂_cons, List.Forall₂.nil, SpawnEnemy_same, SpawnCollectible_same,
    pushPlatforms_same, setExit_same, and_self]

theorem level3Layout_same (draw : Nat → Int) :
    Respects SameBuild (level3Layout draw) (level3Layout draw) := by
  intro a b hab
  refine runAll_rel SameBuild _ _ ?_ a b hab
  simp only [List.forall₂_cons, List.Forall₂.nil, SpawnEnemy_same, SpawnCollectible_same,
    pushPlatforms_same, setExit_same, randomCoins_same, and_self]

theorem prepareLevel_same (g1 g2 : Game) : SameBuild (prepareLevel g1) (prepareLevel g2) :=
  ⟨rfl, rfl, rfl, rfl⟩

theorem finishLevel_same (w : ℚ) : Respects SameBuild (finishLevel w) (finishLevel w) := by
  rintro a b h
  exact h


theorem level1Layout_exit (draw : Nat → Int) (g : Game) :
    (level1Layout draw g).levelExit = ⟨⟨1200, 550, 60, 100⟩, true, 2⟩ := by
  simp [level1Layout, runAll, setExit_levelExit]

theorem level2Layout_exit (draw : Nat → Int) (g : Game) :
    (level2Layout draw g).levelExit = ⟨⟨2200, 550, 60, 100⟩, true, 3⟩ := by
  simp [level2Layout, runAll, setExit_levelExit]

theorem level3Layout_exit (draw : Nat → Int) (g : Game) :
    (level3Layout draw g).levelExit = ⟨⟨3500, 550, 60, 100⟩, true, 1⟩ := by
  simp [level3Layout, runAll, setExit_levelExit]

theorem finishLevel_fields (w : ℚ) (s : Game) :
    (finishLevel w s).levelExit = s.levelExit ∧ (finishLevel w s).projectiles = s.projectiles ∧
      (finishLevel w s).levelBounds.width = w ∧ (finishLevel w s).cameraOffset = ⟨0, 0⟩ :=
  ⟨rfl, rfl, rfl, rfl⟩

theorem SpawnEnemy_projectiles (r : Int) (x y : ℚ) (t : Fin 3) (g : Game) :
    (SpawnEnemy r x y t g).projectiles = g.projectiles :=
  rfl

theorem SpawnCollectible_projectiles (x y : ℚ) (t : Fin 3) (g : Game) :
    (SpawnCollectible x y t g).projectiles = g.projectiles :=
  rfl

theorem pushPlatforms_projectiles (ps : List Platform) (g : Game) :
    (pushPlatforms ps g).projectiles = g.projectiles :=
  rfl

theorem setExit_projectiles (rect : Rectangle) (active : Bool) (targetLevel : Int) (g : Game) :
    (setExit rect active targetLevel g).projectiles = g.projectiles :=
  rfl

theorem randomCoins_projectiles (draw : Nat → Int) (g : Game) :
    (randomCoins draw g).projectiles = g.projectiles := by
  unfold randomCoins
  generalize List.range 20 = l
  induction l generalizing g with
  | nil => rfl
  | cons i l ih => exact ih _

theorem level1Layout_projectiles (draw : Nat → Int) (g : Game) :
    (level1Layout draw g).projectiles = g.projectiles := by
  refine runAll_inv (fun s => s.projectiles = g.projectiles) _ ?_ g rfl
  simp only [List.forall_mem_cons, List.not_mem_nil, false_implies, implies_true, and_true,
    SpawnEnemy_projectiles, SpawnCollectible_projectiles, pushPlatforms_projectiles,
    setExit_projectiles, imp_self]

theorem level2Layout_projectiles (draw : Nat → Int) (g : Game) :
    (level2Layout draw g).projectiles = g.projectiles := by
  refine runAll_inv (fun s => s.projectiles = g.projectiles) _ ?_ g rfl
  simp only [List.forall_mem_cons, List.not_mem_nil, false_implies, implies_true, and_true,
    SpawnEnemy_projectiles, SpawnCollectible_projectiles, pushPlatforms_projectiles,
    setExit_projectiles, imp_self]

theorem level3Layout_projectiles (draw : Nat → Int) (g : Game) :
    (level3Layout draw g).projectiles = g.projectiles := by
  refine runAll_inv (fun s => s.projectiles = g.projectiles) _ ?_ g rfl
  simp only [List.forall_mem_cons, List.not_mem_nil, false_implies, implies_true, and_true,
    SpawnEnemy_projectiles, SpawnCollectible_projectiles, pushPlatforms_projectiles,
    setExit_projectiles, randomCoins_projectiles, imp_self]

theorem prepareLevel_projectiles (g : Game) : (prepareLevel g).projectiles = [] :=
  rfl

/-- C13 (no leak from the previous level): for every level index in 1..3, every
random source and every two prior states, `CreateLevelLayout` yields the same
platforms, enemies, collectibles, exit and level width, a camera offset at the
origin and an empty projectile collection: nothing of the previous four
collections or of the previous exit survives the call. -/
theorem C13_builder_forgets_prior_state (draw : Nat → Int) (level : Int) (g1 g2 : Game)
    (hlevel : level = 1 ∨ level = 2 ∨ level = 3) :
    (CreateLevelLayout draw level g1).platforms = (CreateLevelLayout draw level g2).platforms ∧
      (CreateLevelLayout draw level g1).enemies = (CreateLevelLayout draw level g2).enemies ∧
      (CreateLevelLayout draw level g1).collectibles =
        (CreateLevelLayout draw level g2).collectibles ∧
      (CreateLevelLayout draw level g1).levelExit = (CreateLevelLayout draw level g2).levelExit ∧
      (CreateLevelLayout draw level g1).levelBounds.width =
        (CreateLevelLayout draw level g2).levelBounds.width ∧
      (CreateLevelLayout draw level g1).cameraOffset = ⟨0, 0⟩ ∧
      (CreateLevelLayout draw level g2).cameraOffset = ⟨0, 0⟩ ∧
      (CreateLevelLayout draw level g1).projectiles = [] ∧
      (CreateLevelLayout draw level g2).projectiles = [] := by
  rcases hlevel with h | h | h <;> subst h
  · obtain ⟨h1, h2, h3, _⟩ :=
      finishLevel_same 1500 _ _ (level1Layout_same draw _ _ (prepareLevel_same g1 g2))
    simp only [CreateLevelLayout_one]
    refine ⟨h1, h2, h3, ?_, ?_, ?_, ?_, ?_, ?_⟩ <;>
      simp only [finishLevel_fields, level1Layout_exit, level1Layout_projectiles,
        prepareLevel_projectiles]
  · obtain ⟨h1, h2, h3, _⟩ :=
      finishLevel_same 2500 _ _ (level2Layout_same draw _ _ (prepareLevel_same g1 g2))
    simp only [CreateLevelLayout_two]
    refine ⟨h1, h2, h3, ?_, ?_, ?_, ?_, ?_, ?_⟩ <;>
      simp only [finishLevel_fields, level2Layout_exit, level2Layout_projectiles,
        prepareLevel_projectiles]
  · obtain ⟨h1, h2, h3, _⟩ :=
      finishLevel_same 4000 _ _ (level3Layout_same draw _ _ (prepareLevel_same g1 g2))
    simp only [CreateLevelLayout_three]
    refine ⟨h1, h2, h3, ?_, ?_, ?_, ?_, ?_, ?_⟩ <;>
      simp only [finishLevel_fields, level3Layout_exit, level3Layout_projectiles,
        prepareLevel_projectiles]

theorem C13_builder_forgets_prior_state_witness :
    ((2 : Int) = 1 ∨ (2 : Int) = 2 ∨ (2 : Int) = 3) ∧
      (CreateLevelLayout (fun _ => 1) 2 initialGame).platforms =
        (CreateLevelLayout (fun _ => 1) 2 compactionState).platforms ∧
      (CreateLevelLayout (fun _ => 1) 2 initialGame).enemies =
        (CreateLevelLayout (fun _ => 1) 2 compactionState).enemies ∧
      (CreateLevelLayout (fun _ => 1) 2 initialGame).collectibles =
        (CreateLevelLayout (fun _ => 1) 2 compactionState).collectibles ∧
      (CreateLevelLayout (fun _ => 1) 2 initialGame).levelExit =
        (CreateLevelLayout (fun _ => 1) 2 compactionState).levelExit ∧
      (CreateLevelLayout (fun _ => 1) 2 initialGame).levelBounds.width =
        (CreateLevelLayout (fun _ => 1) 2 compactionState).levelBounds.width ∧
      (CreateLevelLayout (fun _ => 1) 2 initialGame).cameraOffset = ⟨0, 0⟩ ∧
      (CreateLevelLayout (fun _ => 1) 2 compactionState).cameraOffset = ⟨0, 0⟩ ∧
      (CreateLevelLayout (fun _ => 1) 2 initialGame).projectiles = [] ∧
      (CreateLevelLayout (fun _ => 1) 2 compactionState).projectiles = [] :=
  ⟨by decide, C13_builder_forgets_prior_state (fun _ => 1) 2 initialGame compactionState (by decide)⟩


theorem SpawnEnemy_facing (r r2 : Int) (x y : ℚ) (t : Fin 3) :
    Respects SameButFacing (SpawnEnemy r x y t) (SpawnEnemy r2 x y t) := by
  rintro a b ⟨h1, h2⟩
  refine ⟨h1, ?_⟩
  have hu : ∀ c c2 : Bool,
      (|if c = true then (2 : ℚ) else -2| = |if c2 = true then (2 : ℚ) else -2|) ∧
      (|if c = true then (3 : ℚ) else -3| = |if c2 = true then (3 : ℚ) else -3|) ∧
      (|if c = true then (1 : ℚ) else -1| = |if c2 = true then (1 : ℚ) else -1|) := by
    intro c c2
    cases c <;> cases c2 <;> simp
  fin_cases t <;>
    simp only [SpawnEnemy, List.map_append, h2, List.map_cons, List.map_nil, unfaced,
      (hu (r == 1) (r2 == 1)).1, (hu (r == 1) (r2 == 1)).2.1, (hu (r == 1) (r2 == 1)).2.2]

theorem SpawnCollectible_facing (x y : ℚ) (t : Fin 3) :
    Respects SameButFacing (SpawnCollectible x y t) (SpawnCollectible x y t) := by
  rintro a b ⟨h1, h2⟩
  refine ⟨?_, h2⟩
  have hc : ∀ s : Game, withoutEnemies (SpawnCollectible x y t s) =
      SpawnCollectible x y t (withoutEnemies s) := fun _ => rfl
  rw [hc, hc, h1]

theorem pushPlatforms_facing (ps : List Platform) :
    Respects SameButFacing (pushPlatforms ps) (pushPlatforms ps) := by
  rintro a b ⟨h1, h2⟩
  refine ⟨?_, h2⟩
  have hc : ∀ s : Game, withoutEnemies (pushPlatforms ps s) =
      pushPlatforms ps (withoutEnemies s) := fun _ => rfl
  rw [hc, hc, h1]

theorem setExit_facing (rect : Rectangle) (active : Bool) (targetLevel : Int) :
    Respects SameButFacing (setExit rect active targetLevel)
      (setExit rect active targetLevel) := by
  rintro a b ⟨h1, h2⟩
  refine ⟨?_, h2⟩
  have hc : ∀ s : Game, withoutEnemies (setExit rect active targetLevel s) =
      setExit rect active targetLevel (withoutEnemies s) := fun _ => rfl
  rw [hc, hc, h1]

theorem finishLevel_facing (w : ℚ) :
    Respects SameButFacing (finishLevel w) (finishLevel w) := by
  rintro a b ⟨h1, h2⟩
  refine ⟨?_, h2⟩
  have hc : ∀ s : Game, withoutEnemies (finishLevel w s) = finishLevel w (withoutEnemies s) :=
    fun _ => rfl
  rw [hc, hc, h1]

theorem level1Layout_facing (d1 d2 : Nat → Int) :
    Respects SameButFacing (level1Layout d1) (level1Layout d2) := by
  intro a b hab
  refine runAll_rel SameButFacing _ _ ?_ a b hab
  simp only [List.forall₂_cons, List.Forall₂.nil, SpawnEnemy_facing, SpawnCollectible_facing,
    pushPlatforms_facing, setExit_facing, and_self]

theorem level2Layout_facing (d1 d2 : Nat → Int) :
    Respects SameButFacing (level2Layout d1) (level2Layout d2) := by
  intro a b hab
  refine runAll_rel SameButFacing _ _ ?_ a b hab
  simp only [List.forall₂_cons, List.Forall₂.nil, SpawnEnemy_facing, SpawnCollectible_facing,
    pushPlatforms_facing, setExit_facing, and_self]

theorem level2Layout_congr (draw draw2 : Nat → Int)
    (h : ∀ n, (draw n == 1) = (draw2 n == 1)) : level2Layout draw = level2Layout draw2 := by
  funext g
  simp only [level2Layout, SpawnEnemy_congr (draw 0) (draw2 0) (h 0),
    SpawnEnemy_congr (draw 1) (draw2 1) (h 1), SpawnEnemy_congr (draw 2) (draw2 2) (h 2),
    SpawnEnemy_congr (draw 3) (draw2 3) (h 3), SpawnEnemy_congr (draw 4) (draw2 4) (h 4)]

/-- C14, the dependence on the random source: in level 1 the two enemies face right and
move at +2 when every draw is 1, and face left and move at -2 when every draw is 0, so
the enemy collections of the two builds differ. -/
theorem C14_counterexample :
    ((1 : Int) = 1 ∨ (1 : Int) = 2) ∧
      ((CreateLevelLayout (fun _ => 1) 1 initialGame).enemies.map fun e => e.facingRight) =
        [true, true] ∧
      ((CreateLevelLayout (fun _ => 0) 1 initialGame).enemies.map fun e => e.facingRight) =
        [false, false] ∧
      ((CreateLevelLayout (fun _ => 1) 1 initialGame).enemies.map fun e => e.velocity.x) =
        [2, 2] ∧
      ((CreateLevelLayout (fun _ => 0) 1 initialGame).enemies.map fun e => e.velocity.x) =
        [-2, -2] ∧
      (CreateLevelLayout (fun _ => 1) 1 initialGame).enemies ≠
        (CreateLevelLayout (fun _ => 0) 1 initialGame).enemies := by
  decide!

/-- C14, amended (determinism of levels 1 and 2): for levels 1 and 2 and every two
random sources, `CreateLevelLayout` builds the same state apart from the enemy
collection (so the same platforms, collectibles, exit and level width), and the
same enemies once the facing (`facingRight` and the sign of `velocity.x`) is
erased; when the two sources give every enemy the same facing the two states are
equal. -/
theorem C14_builder_deterministic_but_facing (d1 d2 : Nat → Int) (level : Int) (g : Game)
    (hlevel : level = 1 ∨ level = 2) :
    (CreateLevelLayout d1 level g).platforms = (CreateLevelLayout d2 level g).platforms ∧
      (CreateLevelLayout d1 level g).collectibles = (CreateLevelLayout d2 level g).collectibles ∧
      (CreateLevelLayout d1 level g).levelExit = (CreateLevelLayout d2 level g).levelExit ∧
      (CreateLevelLayout d1 level g).levelBounds = (CreateLevelLayout d2 level g).levelBounds ∧
      withoutEnemies (CreateLevelLayout d1 level g) =
        withoutEnemies (CreateLevelLayout d2 level g) ∧
      (CreateLevelLayout d1 level g).enemies.map unfaced =
        (CreateLevelLayout d2 level g).enemies.map unfaced ∧
      ((∀ n, (d1 n == 1) = (d2 n == 1)) →
        CreateLevelLayout d1 level g = CreateLevelLayout d2 level g) := by
  have main : SameButFacing (CreateLevelLayout d1 level g) (CreateLevelLayout d2 level g) := by
    rcases hlevel with h | h <;> subst h
    · rw [CreateLevelLayout_one, CreateLevelLayout_one]
      exact finishLevel_facing 1500 _ _ (level1Layout_facing d1 d2 _ _ ⟨rfl, rfl⟩)
    · rw [CreateLevelLayout_two, CreateLevelLayout_two]
      exact finishLevel_facing 2500 _ _ (level2Layout_facing d1 d2 _ _ ⟨rfl, rfl⟩)
  obtain ⟨hw, he⟩ := main
  have hfield : ∀ {β : Type} (f : Game → β), (∀ s, f (withoutEnemies s) = f s) →
      f (CreateLevelLayout d1 level g) = f (CreateLevelLayout d2 level g) := by
    intro β f hf
    rw [← hf (CreateLevelLayout d1 level g), ← hf (CreateLevelLayout d2 level g), hw]
  refine ⟨hfield Game.platforms (fun _ => rfl), hfield Game.collectibles (fun _ => rfl),
    hfield Game.levelExit (fun _ => rfl), hfield Game.levelBounds (fun _ => rfl), hw, he, ?_⟩
  intro hd
  rcases hlevel with h | h <;> subst h
  · rw [CreateLevelLayout_one, CreateLevelLayout_one, level1Layout_congr d1 d2 (hd 0) (hd 1)]
  · rw [CreateLevelLayout_two, CreateLevelLayout_two, level2Layout_congr d1 d2 hd]

theorem C14_builder_deterministic_but_facing_witness :
    ((2 : Int) = 1 ∨ (2 : Int) = 2) ∧
      ((CreateLevelLayout (fun _ => 1) 2 initialGame).platforms =
          (CreateLevelLayout (fun _ => 0) 2 initialGame).platforms ∧
        (CreateLevelLayout (fun _ => 1) 2 initialGame).collectibles =
          (CreateLevelLayout (fun _ => 0) 2 initialGame).collectibles ∧
        (CreateLevelLayout (fun _ => 1) 2 initialGame).levelExit =
          (CreateLevelLayout (fun _ => 0) 2 initialGame).levelExit ∧
        (CreateLevelLayout (fun _ => 1) 2 initialGame).levelBounds =
          (CreateLevelLayout (fun _ => 0) 2 initialGame).levelBounds ∧
        withoutEnemies (CreateLevelLayout (fun _ => 1) 2 initialGame) =
          withoutEnemies (CreateLevelLayout (fun _ => 0) 2 initialGame) ∧
        (CreateLevelLayout (fun _ => 1) 2 initialGame).enemies.map unfaced =
          (CreateLevelLayout (fun _ => 0) 2 initialGame).enemies.map unfaced ∧
        ((∀ n, (((fun _ => 1) : Nat → Int) n == 1) = (((fun _ => 0) : Nat → Int) n == 1)) →
          CreateLevelLayout (fun _ => 1) 2 initialGame =
            CreateLevelLayout (fun _ => 0) 2 initialGame)) :=
  ⟨by decide, C14_builder_deterministic_but_facing (fun _ => 1) (fun _ => 0) 2 initialGame
    (by decide)⟩

/-! ## Health cap -/

theorem forEach_inv_mem {α : Type} (body : Game → α → Game × α) (I : Game → Prop)
    (xs : List α) (hbody : ∀ s x, x ∈ xs → I s → I (body s x).1) (g : Game) (hg : I g) :
    I (forEach body g xs).1 := by
  induction xs generalizing g with
  | nil => exact hg
  | cons x xs ih =>
    exact ih (fun s y hy => hbody s y (List.mem_cons_of_mem _ hy)) _
      (hbody g x (List.mem_cons_self _ _) hg)

theorem forall₂_transfer {α : Type} {R : α → α → Prop} {P : α → Prop} {xs ys : List α}
    (h : List.Forall₂ R xs ys) (hR : ∀ x y, R x y → P x → P y) (hxs : ∀ x ∈ xs, P x) :
    ∀ y ∈ ys, P y := by
  induction h with
  | nil => intro y hy; simp at hy
  | cons hxy _ ih =>
    intro y hy
    rcases List.mem_cons.mp hy with rfl | hy
    · exact hR _ _ hxy (hxs _ (List.mem_cons_self _ _))
    · exact ih (fun x hx => hxs x (List.mem_cons_of_mem _ hx)) y hy

theorem movePlayer_healthPart (inp : Frame) (g : Game) :
    healthPart (movePlayer inp g) = healthPart g := by
  simp only [movePlayer, PlaySound, healthPart]
  split_ifs <;> rfl

theorem platformBody_health (g : Game) (p : Platform) :
    (platformBody g p).1.player.health ≤ g.player.health ∧
      (platformBody g p).1.playerMaxHealth = g.playerMaxHealth ∧
      (platformBody g p).1.projectiles = g.projectiles := by
  simp only [platformBody, landOn, PlaySound]
  split_ifs <;> refine ⟨?_, rfl, rfl⟩ <;> simp

theorem platformPhase_health (g : Game) :
    (platformPhase g).player.health ≤ g.player.health ∧
      (platformPhase g).playerMaxHealth = g.playerMaxHealth ∧
      (platformPhase g).projectiles = g.projectiles := by
  have h := forEach_inv platformBody
    (fun s => s.player.health ≤ g.player.health ∧ s.playerMaxHealth = g.playerMaxHealth ∧
      s.projectiles = g.projectiles)
    (fun s x hs => by
      obtain ⟨a, b, c⟩ := platformBody_health s x
      exact ⟨le_trans a hs.1, b.trans hs.2.1, c.trans hs.2.2⟩)
    (clearCanJump g) g.platforms ⟨le_refl _, rfl, rfl⟩
  exact h

theorem shootPhase_health (inp : Frame) (g : Game) (h : NonnegDamage g) :
    (shootPhase inp g).player.health = g.player.health ∧
      (shootPhase inp g).playerMaxHealth = g.playerMaxHealth ∧
      NonnegDamage (shootPhase inp g) := by
  simp only [shootPhase, ShootProjectile, PlaySound, NonnegDamage]
  split_ifs <;> refine ⟨rfl, rfl, ?_⟩ <;> intro p hp <;>
    first
      | exact h p hp
      | (simp only [List.mem_append, List.mem_singleton] at hp
         rcases hp with hp | rfl
         · exact h p hp
         · simp)

theorem clampPlayer_healthPart (g : Game) : healthPart (clampPlayer g) = healthPart g := by
  simp only [clampPlayer, healthPart]
  split_ifs <;> rfl

theorem enemyFire_health (t v : ℚ) (d : Int) (hd : 0 ≤ d) (g : Game) (e : Enemy)
    (h : NonnegDamage g) :
    (enemyFire t v d g e).1.player.health = g.player.health ∧
      (enemyFire t v d g e).1.playerMaxHealth = g.playerMaxHealth ∧
      NonnegDamage (enemyFire t v d g e).1 := by
  simp only [enemyFire, ShootProjectile, PlaySound, NonnegDamage]
  split_ifs <;> refine ⟨rfl, rfl, ?_⟩ <;> intro p hp <;>
    first
      | exact h p hp
      | (simp only [List.mem_append, List.mem_singleton] at hp
         rcases hp with hp | rfl
         · exact h p hp
         · exact hd)

theorem enemyBody_health (inp : Frame) (g : Game) (e : Enemy) (h : NonnegDamage g) :
    (enemyBody inp g e).1.player.health ≤ g.player.health ∧
      (enemyBody inp g e).1.playerMaxHealth = g.playerMaxHealth ∧
      NonnegDamage (enemyBody inp g e).1 := by
  have hb : (enemyBehavior inp g e).1.player.health = g.player.health ∧
      (enemyBehavior inp g e).1.playerMaxHealth = g.playerMaxHealth ∧
      NonnegDamage (enemyBehavior inp g e).1 := by
    unfold enemyBehavior
    split_ifs
    · exact enemyFire_health _ _ 1 (by decide) g _ h
    · exact enemyFire_health _ _ 1 (by decide) g _ h
    · exact enemyFire_health _ _ 2 (by decide) g _ h
    · exact ⟨rfl, rfl, h⟩
  have hc : ∀ s : Game, ∀ x : Enemy, (enemyContact s x).player.health ≤ s.player.health ∧
      (enemyContact s x).playerMaxHealth = s.playerMaxHealth ∧
      (enemyContact s x).projectiles = s.projectiles := by
    intro s x
    simp only [enemyContact, PlaySound]
    split_ifs <;> refine ⟨?_, rfl, rfl⟩ <;> simp
  unfold enemyBody
  split_ifs
  · exact ⟨le_refl _, rfl, h⟩
  · obtain ⟨c1, c2, c3⟩ := hc (enemyBehavior inp g e).1 (enemyBehavior inp g e).2
    refine ⟨le_trans c1 (le_of_eq hb.1), c2.trans hb.2.1, ?_⟩
    intro p hp
    rw [c3] at hp
    exact hb.2.2 p hp

theorem enemyPhase_health (inp : Frame) (g : Game) (h : NonnegDamage g) :
    (enemyPhase inp g).player.health ≤ g.player.health ∧
      (enemyPhase inp g).playerMaxHealth = g.playerMaxHealth ∧
      NonnegDamage (enemyPhase inp g) := by
  have hh := forEach_inv (enemyBody inp)
    (fun s => s.player.health ≤ g.player.health ∧ s.playerMaxHealth = g.playerMaxHealth ∧
      NonnegDamage s)
    (fun s x hs => by
      obtain ⟨a, b, c⟩ := enemyBody_health inp s x hs.2.2
      exact ⟨le_trans a hs.1, b.trans hs.2.1, c⟩)
    g g.enemies ⟨le_refl _, rfl, h⟩
  exact hh

theorem projectileBody_health (g : Game) (proj : Projectile) (hd : 0 ≤ proj.damage) :
    (projectileBody g proj).1.player.health ≤ g.player.health ∧
      (projectileBody g proj).1.playerMaxHealth = g.playerMaxHealth ∧
      (projectileBody g proj).2.damage = proj.damage := by
  obtain ⟨hs, _, _, hh⟩ := hitEnemies_frame (advance proj) g g.enemies
  have hdmg : (hitEnemies (advance proj) g g.enemies).2.1.damage = proj.damage := by
    generalize g.enemies = es
    induction es with
    | nil => rfl
    | cons e es ih =>
      simp only [hitEnemies]
      split_ifs
      · rfl
      · rfl
      · exact ih
  simp only [staticPart, Prod.mk.injEq] at hs
  have hadv : (advance proj).damage = proj.damage := rfl
  simp only [projectileBody, PlaySound]
  split_ifs
  · exact ⟨le_refl _, rfl, rfl⟩
  · exact ⟨le_refl _, rfl, rfl⟩
  · exact ⟨le_refl _, rfl, rfl⟩
  · refine ⟨?_, rfl, rfl⟩
    simp only [hadv]
    linarith
  · exact ⟨le_of_eq hh, hs.2.2.2.2.1, hdmg⟩
  · exact ⟨le_refl _, rfl, rfl⟩

theorem projectilePhase_health (g : Game) (h : NonnegDamage g) :
    (projectilePhase g).player.health ≤ g.player.health ∧
      (projectilePhase g).playerMaxHealth = g.playerMaxHealth ∧
      NonnegDamage (projectilePhase g) := by
  have h1 := forEach_inv_mem projectileBody
    (fun s => s.player.health ≤ g.player.health ∧ s.playerMaxHealth = g.playerMaxHealth)
    g.projectiles
    (fun s x hx hs => by
      obtain ⟨a, b, _⟩ := projectileBody_health s x (h x hx)
      exact ⟨le_trans a hs.1, b.trans hs.2⟩)
    g ⟨le_refl _, rfl⟩
  refine ⟨h1.1, h1.2, ?_⟩
  have h2 : ∀ (xs : List Projectile) (s : Game), (∀ x ∈ xs, 0 ≤ x.damage) →
      ∀ y ∈ (forEach projectileBody s xs).2, 0 ≤ y.damage := by
    intro xs
    induction xs with
    | nil => intro s _ y hy; simp [forEach] at hy
    | cons x xs ih =>
      intro s hxs y hy
      simp only [forEach, List.mem_cons] at hy
      rcases hy with rfl | hy
      · rw [(projectileBody_health s x (hxs x (List.mem_cons_self _ _))).2.2]
        exact hxs x (List.mem_cons_self _ _)
      · exact ih _ (fun z hz => hxs z (List.mem_cons_of_mem _ hz)) y hy
  exact h2 g.projectiles g h


theorem collectibleBody_health (g : Game) (c : Collectible)
    (hcap : g.player.health ≤ g.playerMaxHealth) :
    (collectibleBody g c).1.player.health ≤ (collectibleBody g c).1.playerMaxHealth ∧
      (collectibleBody g c).1.playerMaxHealth = g.playerMaxHealth ∧
      (collectibleBody g c).1.projectiles = g.projectiles := by
  simp only [collectibleBody, PlaySound]
  split_ifs <;> refine ⟨?_, rfl, rfl⟩ <;> first | exact hcap | exact min_le_right _ _

theorem collectiblePhase_health (g : Game) (hcap : g.player.health ≤ g.playerMaxHealth) :
    (collectiblePhase g).player.health ≤ (collectiblePhase g).playerMaxHealth ∧
      (collectiblePhase g).playerMaxHealth = g.playerMaxHealth ∧
      (collectiblePhase g).projectiles = g.projectiles := by
  have h := forEach_inv collectibleBody
    (fun s => s.player.health ≤ s.playerMaxHealth ∧ s.playerMaxHealth = g.playerMaxHealth ∧
      s.projectiles = g.projectiles)
    (fun s x hs => by
      obtain ⟨a, b, c⟩ := collectibleBody_health s x hs.1
      exact ⟨a, b.trans hs.2.1, c.trans hs.2.2⟩)
    g g.collectibles ⟨hcap, rfl, rfl⟩
  exact h

theorem exitPhase_healthPart (g : Game) : healthPart (exitPhase g) = healthPart g := by
  simp only [exitPhase, TransitionToNextLevel, PlaySound, healthPart]
  split_ifs <;> rfl

theorem deathPhase_healthPart (g : Game) : healthPart (deathPhase g) = healthPart g := by
  simp only [deathPhase, healthPart]
  split_ifs <;> rfl

theorem togglePause_healthPart (inp : Frame) (g : Game) :
    healthPart (togglePause inp g) = healthPart g := by
  simp only [togglePause, healthPart]
  split_ifs <;> rfl

theorem UpdatePlatformer_health_cap (inp : Frame) (g : Game) (hd : NonnegDamage g)
    (hcap : g.player.health ≤ g.playerMaxHealth) :
    (UpdatePlatformer inp g).player.health ≤ (UpdatePlatformer inp g).playerMaxHealth ∧
      (UpdatePlatformer inp g).playerMaxHealth = g.playerMaxHealth ∧
      NonnegDamage (UpdatePlatformer inp g) := by
  have ht := togglePause_healthPart inp g
  simp only [healthPart, Prod.mk.injEq] at ht
  by_cases hrun : (togglePause inp g).isPaused = false
  · rw [UpdatePlatformer_unfold inp g hrun]
    have hm := movePlayer_healthPart inp (togglePause inp g)
    simp only [healthPart, Prod.mk.injEq] at hm
    obtain ⟨p1, p2, p3⟩ := platformPhase_health (movePlayer inp (togglePause inp g))
    have hd1 : NonnegDamage (platformPhase (movePlayer inp (togglePause inp g))) := by
      intro p hp
      rw [p3, hm.2.2, ht.2.2] at hp
      exact hd p hp
    obtain ⟨s1, s2, s3⟩ := shootPhase_health inp _ hd1
    have hc := clampPlayer_healthPart (beforeClamp inp g)
    simp only [healthPart, Prod.mk.injEq] at hc
    have hd2 : NonnegDamage (clampPlayer (beforeClamp inp g)) := by
      intro p hp
      rw [hc.2.2] at hp
      exact s3 p hp
    obtain ⟨e1, e2, e3⟩ := enemyPhase_health inp _ hd2
    obtain ⟨q1, q2, q3⟩ := projectilePhase_health _ e3
    have hmax : (projectilePhase (enemyPhase inp (clampPlayer (beforeClamp inp g)))).playerMaxHealth =
        g.playerMaxHealth := by
      rw [q2, e2, hc.2.1]
      show (shootPhase inp _).playerMaxHealth = _
      rw [s2, p2, hm.2.1, ht.2.1]
    have hhealth : (projectilePhase (enemyPhase inp (clampPlayer (beforeClamp inp g)))).player.health ≤
        g.player.health := by
      refine le_trans q1 (le_trans e1 ?_)
      rw [hc.1]
      show (shootPhase inp _).player.health ≤ _
      rw [s1]
      refine le_trans p1 ?_
      rw [hm.1, ht.1]
    obtain ⟨c1, c2, c3⟩ := collectiblePhase_health _ (by rw [hmax]; exact le_trans hhealth hcap)
    have hx := exitPhase_healthPart (collectiblePhase (projectilePhase (enemyPhase inp
      (clampPlayer (beforeClamp inp g)))))
    have hdp := deathPhase_healthPart (cameraPhase inp (exitPhase (collectiblePhase
      (projectilePhase (enemyPhase inp (clampPlayer (beforeClamp inp g)))))))
    have hcam : healthPart (cameraPhase inp (exitPhase (collectiblePhase
        (projectilePhase (enemyPhase inp (clampPlayer (beforeClamp inp g))))))) =
        healthPart (exitPhase (collectiblePhase (projectilePhase (enemyPhase inp
          (clampPlayer (beforeClamp inp g)))))) := rfl
    simp only [healthPart, Prod.mk.injEq] at hx hdp hcam
    have hcl : ∀ x : Game, (cleanupPhase x).player.health = x.player.health ∧
        (cleanupPhase x).playerMaxHealth = x.playerMaxHealth ∧
        ∀ p ∈ (cleanupPhase x).projectiles, p ∈ x.projectiles := by
      intro x
      refine ⟨rfl, rfl, ?_⟩
      intro p hp
      simp only [cleanupPhase, List.mem_filter] at hp
      exact hp.1
    simp only [beforeExit]
    refine ⟨?_, ?_, ?_⟩
    · rw [(hcl _).1, (hcl _).2.1, hdp.1, hdp.2.1, hcam.1, hcam.2.1, hx.1, hx.2.1]
      exact c1
    · rw [(hcl _).2.1, hdp.2.1, hcam.2.1, hx.2.1]
      exact c2.trans hmax
    · intro p hp
      have hp1 := (hcl _).2.2 p hp
      rw [hdp.2.2, hcam.2.2, hx.2.2, c3] at hp1
      exact q3 p hp1
  · have hp : (togglePause inp g).isPaused = true := by simpa using hrun
    simp only [UpdatePlatformer, hp, if_true]
    refine ⟨by rw [ht.1, ht.2.1]; exact hcap, ht.2.1, ?_⟩
    intro p hpm
    rw [ht.2.2] at hpm
    exact hd p hpm

theorem runFrames_health_cap (frames : List Frame) (g : Game) (hd : NonnegDamage g)
    (hcap : g.player.health ≤ g.playerMaxHealth) :
    (runFrames frames g).player.health ≤ (runFrames frames g).playerMaxHealth := by
  induction frames generalizing g with
  | nil => exact hcap
  | cons inp rest ih =>
    obtain ⟨h1, _, h3⟩ := UpdatePlatformer_health_cap inp g hd hcap
    exact ih _ h3 h1

theorem InitPlatformerLevel_projectiles (draw : Nat → Int) (level : Int) (g : Game)
    (hlevel : level = 1 ∨ level = 2 ∨ level = 3) :
    (InitPlatformerLevel draw level g).projectiles = [] := by
  have h : ∀ s : Game, (CreateLevelLayout draw level s).projectiles = [] := by
    intro s
    rcases hlevel with h | h | h <;> subst h
    · simp only [CreateLevelLayout_one, finishLevel_fields, level1Layout_projectiles,
        prepareLevel_projectiles]
    · simp only [CreateLevelLayout_two, finishLevel_fields, level2Layout_projectiles,
        prepareLevel_projectiles]
    · simp only [CreateLevelLayout_three, finishLevel_fields, level3Layout_projectiles,
        prepareLevel_projectiles]
  simp only [InitPlatformerLevel]
  exact h _

/-- C15 (health pickup): when the player overlaps an active Health collectible (type
1) with value v, the pickup sets `player.health` to
`min (health + v) playerMaxHealth` and deactivates the collectible; and in every
state whose projectiles have a non-negative damage, as all projectiles
`ShootProjectile` creates have, `player.health <= playerMaxHealth` before an
`UpdatePlatformer` step implies it after the step, hence after every run of steps
from a level start, where the projectile collection is empty. -/
theorem C15_health_pickup_capped (g : Game) (c : Collectible) (hactive : c.active = true)
    (hover : CheckCollisionRecs g.player.rect c.rect = true) (htype : c.type = 1) :
    ((collectibleBody g c).1.player.health = min (g.player.health + c.value) g.playerMaxHealth ∧
        (collectibleBody g c).2.active = false) ∧
      (∀ (inp : Frame) (s : Game), NonnegDamage s → s.player.health ≤ s.playerMaxHealth →
        (UpdatePlatformer inp s).player.health ≤ (UpdatePlatformer inp s).playerMaxHealth ∧
          NonnegDamage (UpdatePlatformer inp s)) ∧
      (∀ (frames : List Frame) (s : Game), NonnegDamage s →
        s.player.health ≤ s.playerMaxHealth →
        (runFrames frames s).player.health ≤ (runFrames frames s).playerMaxHealth) ∧
      (∀ (draw : Nat → Int) (level : Int) (s : Game), level = 1 ∨ level = 2 ∨ level = 3 →
        NonnegDamage (InitPlatformerLevel draw level s)) := by
  refine ⟨?_, ?_, runFrames_health_cap, ?_⟩
  · have h1 : ¬ ((1 : Int) = 0) := by decide
    simp only [collectibleBody, hactive, hover, htype, PlaySound, Bool.not_true,
      Bool.false_eq_true, if_false, if_true, h1]
    exact ⟨trivial, trivial⟩
  · intro inp s hd hcap
    obtain ⟨a, _, b⟩ := UpdatePlatformer_health_cap inp s hd hcap
    exact ⟨a, b⟩
  · intro draw level s hlevel p hp
    rw [InitPlatformerLevel_projectiles draw level s hlevel] at hp
    simp at hp

theorem C15_health_pickup_capped_witness :
    ((⟨⟨120, 520, 40, 40⟩, true, 20, 1⟩ : Collectible).active = true ∧
      CheckCollisionRecs healthPickupState.player.rect ⟨120, 520, 40, 40⟩ = true ∧
      (⟨⟨120, 520, 40, 40⟩, true, 20, 1⟩ : Collectible).type = 1) ∧
      (collectibleBody healthPickupState ⟨⟨120, 520, 40, 40⟩, true, 20, 1⟩).1.player.health =
        min (healthPickupState.player.health + 20) healthPickupState.playerMaxHealth ∧
      (collectibleBody healthPickupState ⟨⟨120, 520, 40, 40⟩, true, 20, 1⟩).2.active = false ∧
      (UpdatePlatformer idleFrame healthPickupState).player.health = 100 :=
  ⟨by decide!,
    (C15_health_pickup_capped healthPickupState ⟨⟨120, 520, 40, 40⟩, true, 20, 1⟩
      (by decide!) (by decide!) (by decide!)).1.1,
    (C15_health_pickup_capped healthPickupState ⟨⟨120, 520, 40, 40⟩, true, 20, 1⟩
      (by decide!) (by decide!) (by decide!)).1.2,
    by decide!⟩

/-! ## Score and currency never decrease (C16) -/

theorem movePlayer_pursePart (inp : Frame) (g : Game) :
    pursePart (movePlayer inp g) = pursePart g := by
  simp only [movePlayer, PlaySound, pursePart]
  split_ifs <;> rfl

theorem platformBody_pursePart (g : Game) (p : Platform) :
    pursePart (platformBody g p).1 = pursePart g := by
  simp only [platformBody, landOn, PlaySound, pursePart]
  split_ifs <;> rfl

theorem platformPhase_pursePart (g : Game) : pursePart (platformPhase g) = pursePart g := by
  have h := forEach_inv platformBody (fun s => pursePart s = pursePart g)
    (fun s x hs => (platformBody_pursePart s x).trans hs) (clearCanJump g) g.platforms rfl
  exact h

theorem shootPhase_pursePart (inp : Frame) (g : Game) :
    pursePart (shootPhase inp g) = pursePart g := by
  simp only [shootPhase, ShootProjectile, PlaySound, pursePart]
  split_ifs <;> rfl

theorem clampPlayer_pursePart (g : Game) : pursePart (clampPlayer g) = pursePart g := by
  simp only [clampPlayer, pursePart]
  split_ifs <;> rfl

theorem enemyBody_pursePart (inp : Frame) (g : Game) (e : Enemy) :
    pursePart (enemyBody inp g e).1 = pursePart g := by
  have hf : ∀ (t v : ℚ) (d : Int) (s : Game) (x : Enemy),
      pursePart (enemyFire t v d s x).1 = pursePart s := by
    intro t v d s x
    simp only [enemyFire, ShootProjectile, PlaySound, pursePart]
    split_ifs <;> rfl
  have hb : pursePart (enemyBehavior inp g e).1 = pursePart g := by
    unfold enemyBehavior
    split_ifs <;> first | exact hf _ _ _ _ _ | rfl
  have hc : ∀ s : Game, ∀ x : Enemy, pursePart (enemyContact s x) = pursePart s := by
    intro s x
    simp only [enemyContact, PlaySound, pursePart]
    split_ifs <;> rfl
  unfold enemyBody
  split_ifs
  · rfl
  · exact (hc _ _).trans hb

theorem enemyPhase_pursePart (inp : Frame) (g : Game) :
    pursePart (enemyPhase inp g) = pursePart g := by
  have h := forEach_inv (enemyBody inp) (fun s => pursePart s = pursePart g)
    (fun s x hs => (enemyBody_pursePart inp s x).trans hs) g g.enemies rfl
  exact h

theorem foldl_enemyLand_kind (ps : List Platform) (e : Enemy) :
    SameKind e (ps.foldl enemyLand e) := by
  induction ps generalizing e with
  | nil => exact ⟨rfl, rfl⟩
  | cons p ps ih =>
    have hstep : SameKind e (enemyLand e p) := by
      simp only [enemyLand]
      split_ifs <;> exact ⟨rfl, rfl⟩
    obtain ⟨a, b⟩ := ih (enemyLand e p)
    exact ⟨a.trans hstep.1, b.trans hstep.2⟩

theorem enemyBody_kind (inp : Frame) (s : Game) (e : Enemy) :
    SameKind e (enemyBody inp s e).2 := by
  have hp : ∀ (w : ℚ) (x : Enemy), SameKind x (patrol w x) := by
    intro w x
    simp only [patrol]
    split_ifs <;> exact ⟨rfl, rfl⟩
  have hg : ∀ x : Enemy, SameKind x (groundPhysics s x) := by
    intro x
    exact foldl_enemyLand_kind s.platforms _
  have hfl : ∀ (w : ℚ) (x : Enemy), SameKind x (flyingMotion inp w x) := by
    intro w x
    simp only [flyingMotion]
    split_ifs <;> exact ⟨rfl, rfl⟩
  have hf : ∀ (t v : ℚ) (d : Int) (x : Enemy), SameKind x (enemyFire t v d s x).2 := by
    intro t v d x
    simp only [enemyFire]
    split_ifs <;> exact ⟨rfl, rfl⟩
  have hground : ∀ (t v : ℚ) (d : Int), SameKind e
      (enemyFire t v d s
        { groundPhysics s (patrol s.levelBounds.width e) with
          timer := roundF32
            ((groundPhysics s (patrol s.levelBounds.width e)).timer + inp.frameTime) }).2 := by
    intro t v d
    obtain ⟨a1, a2⟩ := hp s.levelBounds.width e
    obtain ⟨b1, b2⟩ := hg (patrol s.levelBounds.width e)
    obtain ⟨c1, c2⟩ := hf t v d
      { groundPhysics s (patrol s.levelBounds.width e) with
        timer := roundF32
            ((groundPhysics s (patrol s.levelBounds.width e)).timer + inp.frameTime) }
    exact ⟨c1.trans (b1.trans a1), c2.trans (b2.trans a2)⟩
  unfold enemyBody
  split_ifs
  · exact ⟨rfl, rfl⟩
  · show SameKind e (enemyBehavior inp s e).2
    unfold enemyBehavior
    split_ifs
    · exact hground 3 8 1
    · obtain ⟨a1, a2⟩ := hfl s.levelBounds.width e
      obtain ⟨c1, c2⟩ := hf 2 8 1 (flyingMotion inp s.levelBounds.width e)
      exact ⟨c1.trans a1, c2.trans a2⟩
    · exact hground 4 6 2
    · exact ⟨rfl, rfl⟩

theorem enemyPhase_kind (inp : Frame) (g : Game) :
    List.Forall₂ SameKind g.enemies (enemyPhase inp g).enemies :=
  forEach_forall₂ (enemyBody inp) SameKind (enemyBody_kind inp) g g.enemies

theorem hitEnemies_purse (proj : Projectile) (g : Game) (es : List Enemy) (h : PaysNonneg es) :
    g.player.score ≤ (hitEnemies proj g es).1.player.score ∧
      g.player.currency ≤ (hitEnemies proj g es).1.player.currency ∧
      (hitEnemies proj g es).1.collectibles = g.collectibles ∧
      PaysNonneg (hitEnemies proj g es).2.2 := by
  induction es with
  | nil => exact ⟨le_refl _, le_refl _, rfl, h⟩
  | cons e es ih =>
    have he := h e (List.mem_cons_self _ _)
    have hrest : PaysNonneg es := fun x hx => h x (List.mem_cons_of_mem _ hx)
    simp only [hitEnemies, PlaySound]
    split_ifs
    · refine ⟨?_, ?_, rfl, ?_⟩
      · simp only []
        linarith [he.1]
      · simp only []
        linarith [he.2]
      · intro x hx
        rcases List.mem_cons.mp hx with rfl | hx
        · exact he
        · exact hrest x hx
    · refine ⟨le_refl _, le_refl _, rfl, ?_⟩
      intro x hx
      rcases List.mem_cons.mp hx with rfl | hx
      · exact he
      · exact hrest x hx
    · obtain ⟨a, b, c, d⟩ := ih hrest
      refine ⟨a, b, c, ?_⟩
      intro x hx
      rcases List.mem_cons.mp hx with rfl | hx
      · exact he
      · exact d x hx

theorem projectileBody_purse (g : Game) (proj : Projectile) (h : PaysNonneg g.enemies) :
    g.player.score ≤ (projectileBody g proj).1.player.score ∧
      g.player.currency ≤ (projectileBody g proj).1.player.currency ∧
      (projectileBody g proj).1.collectibles = g.collectibles ∧
      PaysNonneg (projectileBody g proj).1.enemies := by
  have hh := hitEnemies_purse (advance proj) g g.enemies h
  simp only [projectileBody, PlaySound]
  split_ifs
  all_goals first | exact ⟨le_refl _, le_refl _, rfl, h⟩ | exact hh

theorem projectilePhase_purse (g : Game) (h : PaysNonneg g.enemies) :
    g.player.score ≤ (projectilePhase g).player.score ∧
      g.player.currency ≤ (projectilePhase g).player.currency ∧
      (projectilePhase g).collectibles = g.collectibles := by
  have hh := forEach_inv projectileBody
    (fun s => g.player.score ≤ s.player.score ∧ g.player.currency ≤ s.player.currency ∧
      s.collectibles = g.collectibles ∧ PaysNonneg s.enemies)
    (fun s x hs => by
      obtain ⟨a, b, c, d⟩ := projectileBody_purse s x hs.2.2.2
      exact ⟨le_trans hs.1 a, le_trans hs.2.1 b, c.trans hs.2.2.1, d⟩)
    g g.projectiles ⟨le_refl _, le_refl _, rfl, h⟩
  exact ⟨hh.1, hh.2.1, hh.2.2.1⟩

theorem collectibleBody_purse (g : Game) (c : Collectible) (hc : SpawnedCollectible c) :
    g.player.score ≤ (collectibleBody g c).1.player.score ∧
      g.player.currency ≤ (collectibleBody g c).1.player.currency := by
  simp only [collectibleBody, PlaySound]
  split_ifs with h1 h2 h3 h4 h5
  all_goals first
    | exact ⟨le_refl _, le_refl _⟩
    | (refine ⟨?_, ?_⟩ <;> simp only [] <;>
        rcases hc with ⟨ht, hv⟩ | ⟨ht, hv⟩ | ⟨ht, hv⟩ <;> simp_all)

theorem collectiblePhase_purse (g : Game) (hc : ∀ c ∈ g.collectibles, SpawnedCollectible c) :
    g.player.score ≤ (collectiblePhase g).player.score ∧
      g.player.currency ≤ (collectiblePhase g).player.currency := by
  have hh := forEach_inv_mem collectibleBody
    (fun s => g.player.score ≤ s.player.score ∧ g.player.currency ≤ s.player.currency)
    g.collectibles
    (fun s x hx hs => by
      obtain ⟨a, b⟩ := collectibleBody_purse s x (hc x hx)
      exact ⟨le_trans hs.1 a, le_trans hs.2 b⟩)
    g ⟨le_refl _, le_refl _⟩
  exact hh

theorem exitPhase_purse (g : Game) (hb : 0 ≤ g.levelCompletionBonus) :
    g.player.score ≤ (exitPhase g).player.score ∧
      g.player.currency ≤ (exitPhase g).player.currency := by
  simp only [exitPhase, TransitionToNextLevel, PlaySound]
  split_ifs <;> refine ⟨?_, ?_⟩ <;> first | exact le_refl _ | (simp only []; linarith)

theorem togglePause_pursePart (inp : Frame) (g : Game) :
    pursePart (togglePause inp g) = pursePart g := by
  simp only [togglePause, pursePart]
  split_ifs <;> rfl

theorem SpawnedEnemy_pays (e : Enemy) (h : SpawnedEnemy e) : 0 ≤ e.type ∧ 0 ≤ e.currencyValue := by
  rcases h with ⟨a, b⟩ | ⟨a, b⟩ | ⟨a, b⟩ <;> rw [a, b] <;> decide

/-- C16 (score and currency never decrease in a step): for every state whose enemies
carry a type and a currency reward that `SpawnEnemy` gives and whose collectibles carry
a type and a value that `SpawnCollectible` gives, the completion bonus being
non-negative (the global is 500 and no statement assigns it), one `UpdatePlatformer`
step, for any input, leaves `player.score` and `player.currency` at least as large as
they were. -/
theorem C16_score_currency_monotone (inp : Frame) (g : Game)
    (henemies : ∀ e ∈ g.enemies, SpawnedEnemy e)
    (hcollectibles : ∀ c ∈ g.collectibles, SpawnedCollectible c)
    (hbonus : 0 ≤ g.levelCompletionBonus) :
    g.player.score ≤ (UpdatePlatformer inp g).player.score ∧
      g.player.currency ≤ (UpdatePlatformer inp g).player.currency := by
  by_cases hrun : (togglePause inp g).isPaused = false
  · rw [UpdatePlatformer_unfold inp g hrun]
    rw [(cleanupPhase_tail _).2.1, (deathPhase_tail _).2, (cameraPhase_tail _ _).2.1]
    have hearly : pursePart (enemyPhase inp (clampPlayer (beforeClamp inp g))) = pursePart g := by
      unfold beforeClamp
      rw [enemyPhase_pursePart, clampPlayer_pursePart, shootPhase_pursePart,
        platformPhase_pursePart, movePlayer_pursePart, togglePause_pursePart]
    simp only [pursePart, Prod.mk.injEq] at hearly
    obtain ⟨e1, e2, e3⟩ := hearly
    have hkind := enemyPhase_kind inp (clampPlayer (beforeClamp inp g))
    rw [(clampPlayer_lists _).1, (beforeClamp_lists _ _).1] at hkind
    have hpays : PaysNonneg (enemyPhase inp (clampPlayer (beforeClamp inp g))).enemies :=
      forall₂_transfer hkind
        (fun x y hxy hx => by rw [hxy.1, hxy.2]; exact hx)
        (fun e he => SpawnedEnemy_pays e (henemies e he))
    obtain ⟨p1, p2, p3⟩ := projectilePhase_purse _ hpays
    obtain ⟨c1, c2⟩ := collectiblePhase_purse
      (projectilePhase (enemyPhase inp (clampPlayer (beforeClamp inp g))))
      (by rw [p3, e3]; exact hcollectibles)
    obtain ⟨x1, x2⟩ := exitPhase_purse (beforeExit inp g)
      (by rw [(beforeExit_levelExit inp g).2.2]; exact hbonus)
    unfold beforeExit at x1 x2 ⊢
    rw [e1] at p1
    rw [e2] at p2
    exact ⟨le_trans p1 (le_trans c1 x1), le_trans p2 (le_trans c2 x2)⟩
  · have hp : (togglePause inp g).isPaused = true := by simpa using hrun
    have ht := togglePause_pursePart inp g
    simp only [pursePart, Prod.mk.injEq] at ht
    simp only [UpdatePlatformer, hp, if_true]
    exact ⟨le_of_eq ht.1.symm, le_of_eq ht.2.1.symm⟩

theorem C16_score_currency_monotone_witness :
    ((∀ e ∈ compactionState.enemies, SpawnedEnemy e) ∧
      (∀ c ∈ compactionState.collectibles, SpawnedCollectible c) ∧
      0 ≤ compactionState.levelCompletionBonus) ∧
      (compactionState.player.score ≤ (UpdatePlatformer idleFrame compactionState).player.score ∧
        compactionState.player.currency ≤
          (UpdatePlatformer idleFrame compactionState).player.currency) ∧
      (UpdatePlatformer idleFrame compactionState).player.currency = 5 :=
  ⟨by decide!,
    C16_score_currency_monotone idleFrame compactionState (by decide!) (by decide!) (by decide!),
    by decide!⟩

/-! ## The firing interval of a Basic enemy (C17) -/

theorem foldl_enemyLand_timer (ps : List Platform) (e : Enemy) :
    (ps.foldl enemyLand e).timer = e.timer ∧ (ps.foldl enemyLand e).type = e.type ∧
      (ps.foldl enemyLand e).facingRight = e.facingRight := by
  induction ps generalizing e with
  | nil => exact ⟨rfl, rfl, rfl⟩
  | cons p ps ih =>
    have hstep : (enemyLand e p).timer = e.timer ∧ (enemyLand e p).type = e.type ∧
        (enemyLand e p).facingRight = e.facingRight := by
      simp only [enemyLand]
      split_ifs <;> exact ⟨rfl, rfl, rfl⟩
    obtain ⟨a, b, c⟩ := ih (enemyLand e p)
    exact ⟨a.trans hstep.1, b.trans hstep.2.1, c.trans hstep.2.2⟩

theorem patrol_timer (w : ℚ) (e : Enemy) :
    (patrol w e).timer = e.timer ∧ (patrol w e).type = e.type := by
  simp only [patrol]
  split_ifs <;> exact ⟨rfl, rfl⟩

theorem enemyBehavior_basic (inp : Frame) (s : Game) (e : Enemy) (htype : e.type = 0) :
    (enemyBehavior inp s e).2.type = 0 ∧
      (roundF32 (e.timer + inp.frameTime) > 3 →
        (enemyBehavior inp s e).2.timer = 0 ∧
          ∃ p : Projectile, (enemyBehavior inp s e).1.projectiles = s.projectiles ++ [p] ∧
            p.fromPlayer = false ∧ p.active = true ∧ p.damage = 1 ∧
            p.velocity = ⟨if (enemyBehavior inp s e).2.facingRight then 8 else -8, 0⟩) ∧
      (¬ roundF32 (e.timer + inp.frameTime) > 3 →
        (enemyBehavior inp s e).2.timer = roundF32 (e.timer + inp.frameTime) ∧
          (enemyBehavior inp s e).1.projectiles = s.projectiles) := by
  obtain ⟨a1, a2⟩ := patrol_timer s.levelBounds.width e
  obtain ⟨b1, b2, _⟩ := foldl_enemyLand_timer s.platforms
    { patrol s.levelBounds.width e with
      velocity := { (patrol s.levelBounds.width e).velocity with
        y := (patrol s.levelBounds.width e).velocity.y + GRAVITY } ,
      rect := { (patrol s.levelBounds.width e).rect with
        y := (patrol s.levelBounds.width e).rect.y +
          ((patrol s.levelBounds.width e).velocity.y + GRAVITY) } }
  have htime : (groundPhysics s (patrol s.levelBounds.width e)).timer = e.timer :=
    b1.trans a1
  have hty : (groundPhysics s (patrol s.levelBounds.width e)).type = 0 :=
    (b2.trans a2).trans htype
  simp only [enemyBehavior, htype, if_true, enemyFire, htime, ShootProjectile, PlaySound]
  refine ⟨?_, ?_, ?_⟩
  · split_ifs <;> exact hty
  · intro hfire
    simp only [hfire, if_true]
    exact ⟨trivial, _, rfl, rfl, rfl, rfl, by split_ifs <;> rfl⟩
  · intro hno
    simp only [hno, if_false]
    exact ⟨trivial, trivial⟩

theorem runEnemy_cons (inp : Frame) (frames : List Frame) (start : Game × Enemy) :
    runEnemy (inp :: frames) start = runEnemy frames (enemyBehavior inp start.1 start.2) :=
  rfl

theorem runEnemy_append (frames : List Frame) (last : Frame) (start : Game × Enemy) :
    runEnemy (frames ++ [last]) start =
      enemyBehavior last (runEnemy frames start).1 (runEnemy frames start).2 := by
  simp only [runEnemy, List.foldl_append, List.foldl_cons, List.foldl_nil]

theorem timerAfter_cons (t : ℚ) (f : Frame) (fs : List Frame) :
    timerAfter t (f :: fs) = timerAfter (roundF32 (t + f.frameTime)) fs :=
  rfl

/-- While the timer, accumulated in single precision, stays at or below 3 a Basic enemy
spawns nothing and its timer is the accumulated value. -/
theorem runEnemy_quiet (frames : List Frame) (g : Game) (e : Enemy) (htype : e.type = 0)
    (hquiet : QuietTimer e.timer frames) :
    (runEnemy frames (g, e)).2.type = 0 ∧
      (runEnemy frames (g, e)).2.timer = timerAfter e.timer frames ∧
      (runEnemy frames (g, e)).1.projectiles = g.projectiles := by
  induction frames generalizing g e with
  | nil => exact ⟨htype, rfl, rfl⟩
  | cons f fs ih =>
    obtain ⟨hle, hrest⟩ := hquiet
    obtain ⟨hty, -, hstay⟩ := enemyBehavior_basic f g e htype
    obtain ⟨htimer, hproj⟩ := hstay (not_lt.mpr hle)
    obtain ⟨a, b, c⟩ := ih (enemyBehavior f g e).1 (enemyBehavior f g e).2 hty
      (by rw [htimer]; exact hrest)
    rw [runEnemy_cons, timerAfter_cons]
    refine ⟨a, ?_, ?_⟩
    · rw [b, htimer]
    · rw [c, hproj]

/-- C17, the boundary the claim gets wrong: the Basic enemy of level 1 at (500, 600),
timer 0, updated over six frames of half a second each, which accumulate to exactly
3 seconds (every sum is exact in single precision), has spawned no projectile and its
timer is 3, not 0; the same holds in six
whole `UpdatePlatformer` steps of level 1, where the player and the enemies never
meet. -/
theorem C17_counterexample :
    totalTime (List.replicate 6 halfFrame) = 3 ∧
      basicEnemyAt 500 600 ∈ level1Start.enemies ∧
      (runEnemy (List.replicate 6 halfFrame) (level1Start, basicEnemyAt 500 600)).1.projectiles
        = [] ∧
      (runEnemy (List.replicate 6 halfFrame) (level1Start, basicEnemyAt 500 600)).2.timer = 3 ∧
      (runFrames (List.replicate 6 halfFrame) level1Start).projectiles = [] ∧
      (runFrames (List.replicate 6 halfFrame) level1Start).player.health = 100 ∧
      (runFrames (List.replicate 6 halfFrame) level1Start).enemies.map (fun e => e.timer)
        = [3, 3] := by
  decide!

/-- C17 (amended, the firing interval of a Basic enemy): a Basic enemy (type 0) with
timer 0 is updated by the enemy switch over frames, with no contact and no hit; its
timer is a `float`, so every frame time is added in single precision. As long as the
timer so accumulated is at most 3 on every frame, the enemy has spawned no projectile
and its timer is the accumulated value. On the first frame on which the accumulated
timer exceeds 3, that update adds exactly one projectile to the collection, owned by
the enemy side (`fromPlayer` false), active, of damage 1, flying at 8 per frame toward
the facing of the enemy, and the timer is 0 afterwards. -/
theorem C17_basic_enemy_fires_past_three_seconds (g : Game) (e : Enemy)
    (frames : List Frame) (last : Frame) (htype : e.type = 0) (htimer : e.timer = 0)
    (hquiet : QuietTimer 0 frames) :
    (runEnemy frames (g, e)).1.projectiles = g.projectiles ∧
      (runEnemy frames (g, e)).2.timer = timerAfter 0 frames ∧
      (roundF32 (timerAfter 0 frames + last.frameTime) > 3 →
        (runEnemy (frames ++ [last]) (g, e)).2.timer = 0 ∧
          ∃ p : Projectile,
            (runEnemy (frames ++ [last]) (g, e)).1.projectiles = g.projectiles ++ [p] ∧
              p.fromPlayer = false ∧ p.active = true ∧ p.damage = 1 ∧
              p.velocity =
                ⟨if (runEnemy (frames ++ [last]) (g, e)).2.facingRight then 8 else -8, 0⟩) := by
  obtain ⟨hty, htime, hproj⟩ := runEnemy_quiet frames g e htype (by rw [htimer]; exact hquiet)
  rw [htimer] at htime
  refine ⟨hproj, htime, ?_⟩
  intro hpast
  obtain ⟨-, hfire, -⟩ := enemyBehavior_basic last (runEnemy frames (g, e)).1
    (runEnemy frames (g, e)).2 hty
  rw [htime] at hfire
  obtain ⟨hzero, p, hp, h1, h2, h3, h4⟩ := hfire hpast
  rw [runEnemy_append]
  rw [hproj] at hp
  exact ⟨hzero, p, hp, h1, h2, h3, h4⟩

theorem C17_basic_enemy_fires_past_three_seconds_witness :
    ((basicEnemyAt 2000 500).type = 0 ∧ (basicEnemyAt 2000 500).timer = 0 ∧
      QuietTimer 0 (List.replicate 180 sixtiethFrame) ∧
      roundF32 (timerAfter 0 (List.replicate 180 sixtiethFrame) + sixtiethFrame.frameTime) > 3) ∧
      ((runEnemy (List.replicate 180 sixtiethFrame ++ [sixtiethFrame])
          (sentryState, basicEnemyAt 2000 500)).2.timer = 0 ∧
        (runEnemy (List.replicate 180 sixtiethFrame ++ [sixtiethFrame])
          (sentryState, basicEnemyAt 2000 500)).1.projectiles.length = 1) ∧
      (totalTime (List.replicate 180 sixtiethFrame) > 3 ∧
        timerAfter 0 (List.replicate 180 sixtiethFrame) = 12582903 / 4194304 ∧
        timerAfter 0 (List.replicate 180 sixtiethFrame) < 3) ∧
      ((runFrames (List.replicate 180 sixtiethFrame) sentryState).projectiles = [] ∧
        (runFrames (List.replicate 180 sixtiethFrame) sentryState).enemies.map (fun e => e.timer)
          = [12582903 / 4194304] ∧
        (runFrames (List.replicate 181 sixtiethFrame) sentryState).projectiles.length = 1 ∧
        (runFrames (List.replicate 181 sixtiethFrame) sentryState).enemies.map (fun e => e.timer)
          = [0]) :=
  have h := C17_basic_enemy_fires_past_three_seconds sentryState (basicEnemyAt 2000 500)
    (List.replicate 180 sixtiethFrame) sixtiethFrame (by decide!) (by decide!) (by decide!)
  ⟨by decide!, ⟨(h.2.2 (by decide!)).1, by decide!⟩, by decide!, by decide!⟩

/-! ## A jump needs canJump (C18) -/

theorem movePlayer_jump (inp : Frame) (g : Game) (hkey : inp.keyUp = true)
    (hcan : g.player.canJump = true) :
    (movePlayer inp g).player.velocity.y = JUMP_FORCE ∧
      (movePlayer inp g).player.rect.y = g.player.rect.y + JUMP_FORCE ∧
      (movePlayer inp g).player.isJumping = true ∧
      (movePlayer inp g).player.canJump = false := by
  simp only [movePlayer, PlaySound]
  split_ifs <;> simp_all

theorem movePlayer_key (inp : Frame) (g : Game) (hcan : g.player.canJump = false) :
    movePlayer inp g = movePlayer (withoutJumpKey inp) g := by
  simp only [movePlayer, PlaySound, withoutJumpKey]
  split_ifs <;> simp_all

theorem clampPlayer_flags (g : Game) :
    (clampPlayer g).player.isJumping = g.player.isJumping ∧
      (clampPlayer g).player.canJump = g.player.canJump := by
  simp only [clampPlayer]
  split_ifs <;> exact ⟨rfl, rfl⟩

theorem enemyContact_flags (g : Game) (e : Enemy) :
    (enemyContact g e).player.isJumping = g.player.isJumping ∧
      (enemyContact g e).player.canJump = g.player.canJump := by
  simp only [enemyContact, PlaySound]
  split_ifs <;> exact ⟨rfl, rfl⟩

theorem enemyBody_flags (inp : Frame) (g : Game) (e : Enemy) :
    (enemyBody inp g e).1.player.isJumping = g.player.isJumping ∧
      (enemyBody inp g e).1.player.canJump = g.player.canJump := by
  have h := (enemyBehavior_fst inp g e).2.2
  obtain ⟨a, b⟩ := enemyContact_flags (enemyBehavior inp g e).1 (enemyBehavior inp g e).2
  unfold enemyBody
  split_ifs
  · exact ⟨rfl, rfl⟩
  · exact ⟨a.trans (congrArg PlayerData.isJumping h), b.trans (congrArg PlayerData.canJump h)⟩

theorem enemyPhase_flags (inp : Frame) (g : Game) :
    (enemyPhase inp g).player.isJumping = g.player.isJumping ∧
      (enemyPhase inp g).player.canJump = g.player.canJump := by
  have h := forEach_inv (enemyBody inp)
    (fun g1 => g1.player.isJumping = g.player.isJumping ∧ g1.player.canJump = g.player.canJump)
    (fun g1 x h1 => by
      obtain ⟨a, b⟩ := enemyBody_flags inp g1 x
      exact ⟨a.trans h1.1, b.trans h1.2⟩)
    g g.enemies ⟨rfl, rfl⟩
  exact h

/-- After a non-paused step the jump flags are those the platform loop left and the
height is the one it left. -/
theorem UpdatePlatformer_flags (inp : Frame) (g : Game)
    (hrun : (togglePause inp g).isPaused = false) :
    (UpdatePlatformer inp g).player.isJumping =
        (platformPhase (movePlayer inp (togglePause inp g))).player.isJumping ∧
      (UpdatePlatformer inp g).player.canJump =
        (platformPhase (movePlayer inp (togglePause inp g))).player.canJump ∧
      (UpdatePlatformer inp g).player.rect.y =
        (platformPhase (movePlayer inp (togglePause inp g))).player.rect.y := by
  rw [UpdatePlatformer_running inp g hrun]
  have ht := afterEnemies_tail inp (enemyPhase inp (clampPlayer (beforeClamp inp g)))
  simp only [tailPart, kinematics, Prod.mk.injEq] at ht
  obtain ⟨e1, e2⟩ := enemyPhase_flags inp (clampPlayer (beforeClamp inp g))
  obtain ⟨c1, c2⟩ := clampPlayer_flags (beforeClamp inp g)
  have hpl : (beforeClamp inp g).player =
      (platformPhase (movePlayer inp (togglePause inp g))).player := by
    unfold beforeClamp
    rw [(shootPhase_lists _ _).2.2]
  rw [ht.2.1.2.2.1, ht.2.1.2.2.2.1, ht.2.1.1, (enemyPhase_frame _ _).2.2, e1, e2, c1, c2,
    (clampPlayer_vertical _).2, hpl]
  exact ⟨rfl, rfl, rfl⟩

theorem UpdatePlatformer_key (inp : Frame) (g : Game) (hcan : g.player.canJump = false) :
    UpdatePlatformer inp g = UpdatePlatformer (withoutJumpKey inp) g := by
  have h1 : togglePause (withoutJumpKey inp) g = togglePause inp g := rfl
  have h2 : ∀ x, shootPhase (withoutJumpKey inp) x = shootPhase inp x := fun _ => rfl
  have h3 : ∀ x, enemyPhase (withoutJumpKey inp) x = enemyPhase inp x := fun _ => rfl
  have h4 : ∀ x, cameraPhase (withoutJumpKey inp) x = cameraPhase inp x := fun _ => rfl
  have h5 : movePlayer inp (togglePause inp g) =
      movePlayer (withoutJumpKey inp) (togglePause inp g) :=
    movePlayer_key inp _ (by rw [(togglePause_frame inp g).1]; exact hcan)
  simp only [UpdatePlatformer, beforeExit, beforeClamp, h1, h2, h3, h4, h5]

theorem platformPhase_rising (g : Game) (hv : ¬ g.player.velocity.y > 0) :
    vertical (platformPhase g) = vertical (clearCanJump g) :=
  forEach_platformBody_vertical (clearCanJump g) g.platforms hv

/-- C18 (a jump needs `canJump`): in a non-paused `UpdatePlatformer` step,
(1) with the jump key pressed and `player.canJump` true at the start of the step, the
vertical velocity the integration uses is `JUMP_FORCE` = -12 with no gravity on top,
so the player ends the step 12 higher, `isJumping` is true and `canJump` is false at
the end of the step; (2) with `canJump` false at the start, the step is the one the
same input with the jump key released gives, and the velocity the integration uses is
the previous `velocity.y` + 0.5; (3) when the landing test fails for every platform,
`canJump` is false at the end of the step, so no jump is accepted before a landing. -/
theorem C18_jump_needs_canJump (inp : Frame) (g : Game)
    (hrun : (togglePause inp g).isPaused = false) :
    (JUMP_FORCE = -12 ∧ GRAVITY = 1 / 2) ∧
      (inp.keyUp = true → g.player.canJump = true →
        (movePlayer inp (togglePause inp g)).player.velocity.y = JUMP_FORCE ∧
          (UpdatePlatformer inp g).player.rect.y = g.player.rect.y + JUMP_FORCE ∧
          (UpdatePlatformer inp g).player.isJumping = true ∧
          (UpdatePlatformer inp g).player.canJump = false) ∧
      (g.player.canJump = false →
        UpdatePlatformer inp g = UpdatePlatformer (withoutJumpKey inp) g ∧
          (movePlayer inp (togglePause inp g)).player.velocity.y =
            g.player.velocity.y + GRAVITY ∧
          (movePlayer inp (togglePause inp g)).player.rect.y =
            g.player.rect.y + (g.player.velocity.y + GRAVITY)) ∧
      (NoLanding (movePlayer inp (togglePause inp g)) →
        (UpdatePlatformer inp g).player.canJump = false) := by
  obtain ⟨f1, f2, f3⟩ := UpdatePlatformer_flags inp g hrun
  have hpl := (togglePause_frame inp g).1
  refine ⟨⟨rfl, rfl⟩, ?_, ?_, ?_⟩
  · intro hkey hcan
    obtain ⟨m1, m2, m3, m4⟩ := movePlayer_jump inp (togglePause inp g) hkey
      (by rw [hpl]; exact hcan)
    have hv : ¬ (movePlayer inp (togglePause inp g)).player.velocity.y > 0 := by
      rw [m1]
      norm_num [JUMP_FORCE]
    have hvert := platformPhase_rising _ hv
    simp only [vertical, clearCanJump, Prod.mk.injEq] at hvert
    obtain ⟨v1, -, -, -, v5, v6, -⟩ := hvert
    rw [hpl] at m2
    exact ⟨m1, by rw [f3, v1, m2], by rw [f1, v6, m3], by rw [f2, v5]⟩
  · intro hcan
    have hfall := movePlayer_fall inp (togglePause inp g)
      (by rw [hpl, hcan, Bool.and_false])
    rw [hpl] at hfall
    exact ⟨UpdatePlatformer_key inp g hcan, hfall.1, hfall.2⟩
  · intro hland
    rw [f2, platformPhase_no_landing _ hland]
    rfl

theorem C18_jump_needs_canJump_witness :
    (togglePause jumpFrame carryState).isPaused = false ∧
      (jumpFrame.keyUp = true ∧ carryState.player.canJump = true) ∧
      ((UpdatePlatformer jumpFrame carryState).player.rect.y = carryState.player.rect.y + JUMP_FORCE ∧
        (UpdatePlatformer jumpFrame carryState).player.isJumping = true ∧
        (UpdatePlatformer jumpFrame carryState).player.canJump = false) ∧
      (UpdatePlatformer jumpFrame carryState).player.rect.y = 118 ∧
      (UpdatePlatformer idleFrame carryState).player.canJump = true :=
  ⟨by decide!, by decide!,
    ((C18_jump_needs_canJump jumpFrame carryState (by decide!)).2.1 (by decide!) (by decide!)).2,
    by decide!, by decide!⟩

/-! ## The projectile of a fire input (C19) -/

theorem shootPhase_fire (inp : Frame) (g : Game) (hfire : inp.keySpace = true) :
    (shootPhase inp g).projectiles = g.projectiles ++
      [⟨⟨if g.player.facingRight then g.player.rect.x + g.player.rect.width
            else g.player.rect.x,
          g.player.rect.y + g.player.rect.height / 2, 15, 8⟩,
        ⟨if g.selectedWeapon = 0 then (if g.player.facingRight then 15 else -15)
          else if g.selectedWeapon = 1 then (if g.player.facingRight then 12 else -12)
          else if g.selectedWeapon = 2 then (if g.player.facingRight then 8 else -8)
          else (if g.player.facingRight then 10 else -10), 0⟩,
        true, true,
        if g.selectedWeapon = 0 then 1 else if g.selectedWeapon = 1 then 2 else 3⟩] := by
  simp only [shootPhase, hfire, if_true, ShootProjectile, PlaySound]

/-- The speed and damage of the projectile a fire input spawns, by weapon. -/
theorem shootPhase_table (inp : Frame) (g : Game) (p : Projectile)
    (hfire : inp.keySpace = true)
    (hweapon : g.selectedWeapon = 0 ∨ g.selectedWeapon = 1 ∨ g.selectedWeapon = 2)
    (hp : (shootPhase inp g).projectiles = g.projectiles ++ [p]) :
    (g.selectedWeapon = 0 → |p.velocity.x| = 15 ∧ p.damage = 1) ∧
      (g.selectedWeapon = 1 → |p.velocity.x| = 12 ∧ p.damage = 2) ∧
      (g.selectedWeapon = 2 → |p.velocity.x| = 8 ∧ p.damage = 3) := by
  rw [shootPhase_fire inp g hfire] at hp
  have hq := List.append_cancel_left hp
  simp only [List.cons.injEq, and_true] at hq
  subst hq
  rcases hweapon with h | h | h <;> rw [h] <;> refine ⟨?_, ?_, ?_⟩ <;> intro h2 <;>
    first
    | (exfalso; revert h2; decide)
    | (simp only []; split_ifs <;> first | omega | norm_num)

/-- C19 (the projectile of a fire input): with the fire key pressed and a weapon in
0..2 selected, the shooting block of `UpdatePlatformer` appends exactly one projectile:
player-owned, active, 15 by 8, at the leading edge of the player (`rect.x + rect.width`
facing right, `rect.x` facing left) and at half its height, flying horizontally toward
the facing. Its speed magnitude and damage are (15, 1), (12, 2), (8, 3) for weapons
0, 1, 2, whatever the rest of the state; and for any other firing with a weapon in
0..2, the same weapon gives the same speed and damage and a higher weapon gives a
strictly smaller speed and a strictly larger damage. -/
theorem C19_fire_spawns_weapon_projectile (inp : Frame) (g : Game)
    (hfire : inp.keySpace = true)
    (hweapon : g.selectedWeapon = 0 ∨ g.selectedWeapon = 1 ∨ g.selectedWeapon = 2) :
    ∃ p : Projectile,
      (shootPhase inp g).projectiles = g.projectiles ++ [p] ∧
        p.fromPlayer = true ∧ p.active = true ∧
        p.rect = ⟨if g.player.facingRight then g.player.rect.x + g.player.rect.width
                    else g.player.rect.x,
                  g.player.rect.y + g.player.rect.height / 2, 15, 8⟩ ∧
        p.velocity.y = 0 ∧ (0 < p.velocity.x ↔ g.player.facingRight = true) ∧
        (g.selectedWeapon = 0 → |p.velocity.x| = 15 ∧ p.damage = 1) ∧
        (g.selectedWeapon = 1 → |p.velocity.x| = 12 ∧ p.damage = 2) ∧
        (g.selectedWeapon = 2 → |p.velocity.x| = 8 ∧ p.damage = 3) ∧
        ∀ (inp2 : Frame) (g2 : Game) (p2 : Projectile), inp2.keySpace = true →
          (g2.selectedWeapon = 0 ∨ g2.selectedWeapon = 1 ∨ g2.selectedWeapon = 2) →
          (shootPhase inp2 g2).projectiles = g2.projectiles ++ [p2] →
          (g2.selectedWeapon = g.selectedWeapon →
            |p2.velocity.x| = |p.velocity.x| ∧ p2.damage = p.damage) ∧
          (g.selectedWeapon < g2.selectedWeapon →
            |p2.velocity.x| < |p.velocity.x| ∧ p.damage < p2.damage) := by
  have hp := shootPhase_fire inp g hfire
  obtain ⟨t0, t1, t2⟩ := shootPhase_table inp g _ hfire hweapon hp
  refine ⟨_, hp, rfl, rfl, rfl, rfl, ?_, t0, t1, t2, ?_⟩
  · simp only []
    rcases hweapon with h | h | h <;> rw [h] <;>
      cases g.player.facingRight <;> simp
  · intro inp2 g2 p2 hfire2 hweapon2 hp2
    obtain ⟨u0, u1, u2⟩ := shootPhase_table inp2 g2 p2 hfire2 hweapon2 hp2
    refine ⟨?_, ?_⟩
    · intro hsame
      rw [hsame] at u0 u1 u2
      rcases hweapon with h | h | h
      · exact ⟨(u0 h).1.trans (t0 h).1.symm, (u0 h).2.trans (t0 h).2.symm⟩
      · exact ⟨(u1 h).1.trans (t1 h).1.symm, (u1 h).2.trans (t1 h).2.symm⟩
      · exact ⟨(u2 h).1.trans (t2 h).1.symm, (u2 h).2.trans (t2 h).2.symm⟩
    · intro hlt
      rcases hweapon with h | h | h <;> rcases hweapon2 with k | k | k <;>
        first
        | (exfalso; omega)
        | (rw [(t0 h).1, (t0 h).2, (u1 k).1, (u1 k).2]; norm_num)
        | (rw [(t0 h).1, (t0 h).2, (u2 k).1, (u2 k).2]; norm_num)
        | (rw [(t1 h).1, (t1 h).2, (u2 k).1, (u2 k).2]; norm_num)

theorem C19_fire_spawns_weapon_projectile_witness :
    (fireFrame.keySpace = true ∧ level1Start.selectedWeapon = 0) ∧
      (∃ p : Projectile,
        (shootPhase fireFrame level1Start).projectiles = level1Start.projectiles ++ [p] ∧
          p.fromPlayer = true) ∧
      (shootPhase fireFrame level1Start).projectiles =
        [⟨⟨180, 360, 15, 8⟩, ⟨15, 0⟩, true, true, 1⟩] ∧
      (beforeClamp fireFrame level1Start).projectiles =
        [⟨⟨180, 721 / 2, 15, 8⟩, ⟨15, 0⟩, true, true, 1⟩] :=
  ⟨by decide!,
    (C19_fire_spawns_weapon_projectile fireFrame level1Start (by decide!)
      (Or.inl (by decide!))).imp fun _ h => ⟨h.1, h.2.1⟩,
    by decide!, by decide!⟩

/-! ## The camera clamp (C20) -/

theorem camera_clamp (t L : ℚ) (hL : 0 ≤ L) :
    0 ≤ (if (if t < 0 then 0 else t) > L then L else (if t < 0 then 0 else t)) ∧
      (if (if t < 0 then 0 else t) > L then L else (if t < 0 then 0 else t)) ≤ L ∧
      (if (if t < 0 then 0 else t) > L then L else (if t < 0 then 0 else t)) =
        max 0 (min t L) := by
  simp only [max_def, min_def]
  split_ifs <;> refine ⟨?_, ?_, ?_⟩ <;> linarith

theorem UpdatePlatformer_camera (inp : Frame) (g : Game)
    (hrun : (togglePause inp g).isPaused = false) :
    (UpdatePlatformer inp g).cameraOffset =
        (cameraPhase inp (exitPhase (beforeExit inp g))).cameraOffset ∧
      (UpdatePlatformer inp g).player = (exitPhase (beforeExit inp g)).player ∧
      (exitPhase (beforeExit inp g)).levelBounds = g.levelBounds := by
  rw [UpdatePlatformer_unfold inp g hrun]
  have hc : ∀ y : Game, (cleanupPhase (deathPhase y)).cameraOffset = y.cameraOffset := by
    intro y
    simp only [cleanupPhase, deathPhase]
    split_ifs <;> rfl
  have hp : ∀ y : Game, (cleanupPhase (deathPhase y)).player = y.player := by
    intro y
    rw [(cleanupPhase_tail _).2.1, (deathPhase_tail _).2]
  have hx := (exitPhase_tail (beforeExit inp g)).1
  have hs := beforeExit_static inp g
  simp only [tailPart, staticPart, Prod.mk.injEq] at hx hs
  refine ⟨hc _, (hp _).trans (cameraPhase_tail _ _).2.1, ?_⟩
  rw [hx.1.2.1, hs.2.1, (togglePause_static inp g).1]

theorem half_viewport (w : Int) (h : w = 1280 ∨ w = 1920 ∨ w = 2560) :
    ((Int.tdiv w 2 : Int) : ℚ) = (w : ℚ) / 2 := by
  rcases h with h | h | h <;> subst h
  · have h2 : Int.tdiv 1280 2 = 640 := by decide
    rw [h2]
    norm_num
  · have h2 : Int.tdiv 1920 2 = 960 := by decide
    rw [h2]
    norm_num
  · have h2 : Int.tdiv 2560 2 = 1280 := by decide
    rw [h2]
    norm_num

theorem camera_clamp_narrow (t L : ℚ) (hL : L < 0) :
    (if (if t < 0 then 0 else t) > L then L else (if t < 0 then 0 else t)) = L := by
  split_ifs <;> linarith

/-- C20, what the code does: after a non-paused step on a viewport 1280, 1920 or 2560
wide, in a level at least as wide as the viewport `cameraOffset.x` lies in
[0, levelBounds.width - viewportWidth] and is the centre of the player minus half the
viewport width, clamped to that interval; in a level narrower than the viewport (level
1 at 1920 and 2560, level 2 at 2560) the upper clamp of source lines 1963-1964 overwrites
the 0 of the lower clamp and `cameraOffset.x` is `levelBounds.width - viewportWidth`,
which is negative. -/
theorem C20_camera_negative_in_narrow_level (inp : Frame) (g : Game)
    (hrun : (togglePause inp g).isPaused = false)
    (hview : inp.screenWidth = 1280 ∨ inp.screenWidth = 1920 ∨ inp.screenWidth = 2560) :
    ((inp.screenWidth : ℚ) ≤ g.levelBounds.width →
        0 ≤ (UpdatePlatformer inp g).cameraOffset.x ∧
          (UpdatePlatformer inp g).cameraOffset.x ≤
            g.levelBounds.width - (inp.screenWidth : ℚ) ∧
          (UpdatePlatformer inp g).cameraOffset.x =
            max 0 (min
              ((UpdatePlatformer inp g).player.rect.x +
                (UpdatePlatformer inp g).player.rect.width / 2 - (inp.screenWidth : ℚ) / 2)
              (g.levelBounds.width - (inp.screenWidth : ℚ)))) ∧
      (g.levelBounds.width < (inp.screenWidth : ℚ) →
        (UpdatePlatformer inp g).cameraOffset.x =
            g.levelBounds.width - (inp.screenWidth : ℚ) ∧
          (UpdatePlatformer inp g).cameraOffset.x < 0) := by
  obtain ⟨hcam, hpl, hbounds⟩ := UpdatePlatformer_camera inp g hrun
  rw [hcam, hpl]
  simp only [cameraPhase, hbounds, half_viewport inp.screenWidth hview]
  refine ⟨?_, ?_⟩
  · intro hwide
    have h := camera_clamp
      ((exitPhase (beforeExit inp g)).player.rect.x - (inp.screenWidth : ℚ) / 2 +
        (exitPhase (beforeExit inp g)).player.rect.width / 2)
      (g.levelBounds.width - (inp.screenWidth : ℚ)) (by linarith)
    have hform : (exitPhase (beforeExit inp g)).player.rect.x +
        (exitPhase (beforeExit inp g)).player.rect.width / 2 - (inp.screenWidth : ℚ) / 2 =
        (exitPhase (beforeExit inp g)).player.rect.x - (inp.screenWidth : ℚ) / 2 +
          (exitPhase (beforeExit inp g)).player.rect.width / 2 := by ring
    rw [hform]
    exact h
  · intro hnarrow
    have hL : g.levelBounds.width - (inp.screenWidth : ℚ) < 0 := by linarith
    rw [camera_clamp_narrow _ _ hL]
    exact ⟨rfl, hL⟩

theorem C20_camera_negative_in_narrow_level_witness :
    ((togglePause wideFrame level1Start).isPaused = false ∧ wideFrame.screenWidth = 1920 ∧
      level1Start.levelBounds.width = 1500 ∧
      level1Start.levelBounds.width < (wideFrame.screenWidth : ℚ)) ∧
      ((UpdatePlatformer wideFrame level1Start).cameraOffset.x =
          level1Start.levelBounds.width - (wideFrame.screenWidth : ℚ) ∧
        (UpdatePlatformer wideFrame level1Start).cameraOffset.x < 0) ∧
      (UpdatePlatformer wideFrame level1Start).cameraOffset.x = -420 ∧
      (UpdatePlatformer idleFrame hazardFall).cameraOffset.x = 210 :=
  ⟨by decide!,
    (C20_camera_negative_in_narrow_level wideFrame level1Start (by decide!)
      (Or.inr (Or.inl (by decide!)))).2 (by decide!),
    by decide!, by decide!⟩

/-! ## Selection indices wrap around (C21) -/

theorem optionNames_length (b : Selector) :
    ((optionNames b).length : Int) = 3 ∨ ((optionNames b).length : Int) = 4 ∨
      ((optionNames b).length : Int) = 5 := by
  cases b <;> decide

theorem applyResolution_selection (b : Selector) (g : Game) :
    selection b (applyResolution g) = selection b g := by
  unfold applyResolution
  split_ifs <;> cases b <;> rfl

/-- The index of the clicked button becomes `(index + 1) % n`, `n` the length of its
array; the other indices are left alone. -/
theorem cycle_selection (b c : Selector) (g : Game) :
    selection b (cycle c g) =
      if b = c then Int.tmod (selection b g + 1) ((optionNames b).length : Int)
      else selection b g := by
  cases c <;> cases b <;>
    first
    | rfl
    | (simp only [cycle, applyResolution_selection]; rfl)

theorem optionNames_pos (b : Selector) : (0 : Int) < ((optionNames b).length : Int) := by
  rcases optionNames_length b with h | h | h <;> rw [h] <;> decide

theorem InRange_initial : InRange initialGame := by
  intro b
  cases b <;> decide

theorem InRange_cycle (c : Selector) (g : Game) (h : InRange g) : InRange (cycle c g) := by
  intro b
  rw [cycle_selection]
  split_ifs
  · have h0 : 0 ≤ selection b g + 1 := by linarith [(h b).1]
    exact ⟨Int.tmod_nonneg _ h0, Int.tmod_lt_of_pos _ (optionNames_pos b)⟩
  · exact h b

theorem InRange_runClicks (clicks : List Selector) (g : Game) (h : InRange g) :
    InRange (runClicks clicks g) := by
  induction clicks generalizing g with
  | nil => exact h
  | cons c cs ih => exact ih (cycle c g) (InRange_cycle c g h)

theorem cycle_iterate (b : Selector) (g : Game) (h : InRange g) (k : Nat) :
    selection b ((cycle b)^[k] g) =
      (selection b g + (k : Int)) % ((optionNames b).length : Int) := by
  induction k with
  | zero =>
    rw [Function.iterate_zero, id_eq, Nat.cast_zero, add_zero,
      Int.emod_eq_of_lt (h b).1 (h b).2]
  | succ k ih =>
    rw [Function.iterate_succ_apply', cycle_selection, if_pos rfl, ih]
    have hn := optionNames_pos b
    have h0 : 0 ≤ (selection b g + (k : Int)) % ((optionNames b).length : Int) :=
      Int.emod_nonneg _ (ne_of_gt hn)
    rw [Int.tmod_eq_emod (by linarith) (le_of_lt hn), Int.emod_add_emod]
    push_cast
    rw [add_assoc]

/-- C21 (selection indices wrap around): a click on any of the twelve selection buttons
(spacesuit, hairstyle, hair colour, beard, skin, eye, face, class, weapon, armor,
accessory, resolution) replaces its index by `(index + 1) % n`, `n` the length of the
array of option names the button is labelled from. In every state reached from the
initial globals (all indices 0) by any sequence of clicks, every index lies in
`[0, n)`, so the array access that labels the button is within the array; and `n`
further clicks on a button bring its index back to the value it had. -/
theorem C21_selection_cycles_wrap (clicks : List Selector) (b : Selector) :
    (∀ g : Game, selection b (cycle b g) =
        Int.tmod (selection b g + 1) ((optionNames b).length : Int)) ∧
      (0 ≤ selection b (runClicks clicks initialGame) ∧
        selection b (runClicks clicks initialGame) < ((optionNames b).length : Int)) ∧
      (∃ name : String,
        (optionNames b)[(selection b (runClicks clicks initialGame)).toNat]? = some name) ∧
      selection b ((cycle b)^[(optionNames b).length] (runClicks clicks initialGame)) =
        selection b (runClicks clicks initialGame) := by
  have hr := InRange_runClicks clicks initialGame InRange_initial
  refine ⟨fun g => ?_, hr b, ?_, ?_⟩
  · rw [cycle_selection, if_pos rfl]
  · have hlt : (selection b (runClicks clicks initialGame)).toNat < (optionNames b).length := by
      have h1 := (hr b).1
      have h2 := (hr b).2
      omega
    exact ⟨(optionNames b)[(selection b (runClicks clicks initialGame)).toNat],
      List.getElem?_eq_getElem hlt⟩
  · rw [cycle_iterate b _ hr, Int.add_emod_self, Int.emod_eq_of_lt (hr b).1 (hr b).2]

/-! ## Vertical movers never reverse (C22) -/

theorem movePlatform_vertical (w : ℚ) (p : Platform) (h : VerticalMover p) :
    movePlatform w p = drift p 1 := by
  obtain ⟨⟨x, y, wd, ht⟩, d, t, ⟨vx, vy⟩⟩ := p
  obtain ⟨h1, h2, h3, h4⟩ := h
  simp only at h1 h2 h3 h4
  subst h1 h2
  rw [abs_le] at h4
  simp only [movePlatform, drift, Nat.cast_one, one_mul, add_zero, ne_eq, not_true_eq_false,
    false_and, if_false]
  split_ifs
  all_goals first
    | rfl
    | (exfalso
       rename_i c3
       simp only [] at c3
       rcases c3 with ⟨_, c⟩ | ⟨_, c⟩ <;> linarith [h4.1, h4.2])

theorem drift_mover (p : Platform) (n : Nat) (h : VerticalMover p) : VerticalMover (drift p n) :=
  h

theorem drift_drift (p : Platform) (m n : Nat) : drift (drift p m) n = drift p (m + n) := by
  simp only [drift, Nat.cast_add, add_mul, add_assoc]

theorem platformBody_mover (g : Game) (p : Platform) (h : VerticalMover p) :
    (platformBody g p).2 = drift p 1 := by
  have ht : p.type = 1 := h.1
  have h2 : ¬ ((1 : Int) = 2) := by decide
  simp only [platformBody, landOn, PlaySound, ht, h2, if_false, if_true]
  split_ifs <;> exact movePlatform_vertical _ p h

theorem forall₂_compose {α : Type} {R S T : α → α → Prop} {xs ys zs : List α}
    (hRS : ∀ a b c, R a b → S b c → T a c) (h1 : List.Forall₂ R xs ys)
    (h2 : List.Forall₂ S ys zs) : List.Forall₂ T xs zs := by
  induction h1 generalizing zs with
  | nil => cases h2; exact List.Forall₂.nil
  | cons hab _ ih =>
    cases h2 with
    | cons hbc hrest => exact List.Forall₂.cons (hRS _ _ _ hab hbc) (ih hrest)

theorem forall₂_exists {α : Type} {R : α → α → Prop} {xs ys : List α}
    (h : List.Forall₂ R xs ys) (x : α) (hx : x ∈ xs) : ∃ y ∈ ys, R x y := by
  induction h with
  | nil => simp at hx
  | cons hab _ ih =>
    rcases List.mem_cons.mp hx with rfl | hx
    · exact ⟨_, List.mem_cons_self _ _, hab⟩
    · obtain ⟨y, hy, hr⟩ := ih hx
      exact ⟨y, List.mem_cons_of_mem _ hy, hr⟩

/-- The platforms after a non-paused step are those the platform loop leaves. -/
theorem UpdatePlatformer_platforms (inp : Frame) (g : Game)
    (hrun : (togglePause inp g).isPaused = false) :
    (UpdatePlatformer inp g).platforms =
      (forEach platformBody (clearCanJump (movePlayer inp (togglePause inp g))) g.platforms).2 ∧
      (UpdatePlatformer inp g).isPaused = false := by
  rw [UpdatePlatformer_running inp g hrun]
  have ht := afterEnemies_tail inp (enemyPhase inp (clampPlayer (beforeClamp inp g)))
  simp only [tailPart, staticPart, Prod.mk.injEq] at ht
  have hs := beforeClamp_static inp g
  have he := (enemyPhase_frame inp (clampPlayer (beforeClamp inp g))).1
  have hc := clampPlayer_static (beforeClamp inp g)
  simp only [staticPart, Prod.mk.injEq] at hs he hc
  refine ⟨?_, ?_⟩
  · rw [ht.2.2.1, (enemyPhase_frame _ _).2.1, (clampPlayer_lists _).2]
    unfold beforeClamp
    rw [(shootPhase_lists _ _).2.1]
    simp only [platformPhase, (movePlayer_lists _ _).2, (togglePause_frame _ _).2.2.1]
  · rw [ht.1.2.2.2.2.2.2, he.2.2.2.2.2.2, hc.2.2.2.2.2.2, hs.2.2.2.2.2.2]
    exact hrun

theorem UpdatePlatformer_mover (inp : Frame) (g : Game)
    (hrun : (togglePause inp g).isPaused = false) :
    List.Forall₂ (fun p q => VerticalMover p → q = drift p 1) g.platforms
      (UpdatePlatformer inp g).platforms := by
  rw [(UpdatePlatformer_platforms inp g hrun).1]
  exact forEach_forall₂ platformBody _ (fun s p => platformBody_mover s p) _ _

/-- C22, what the code does: over any run of non-paused steps a vertically moving
platform keeps its velocity and moves by it at every step; it never reverses, because
the test of source lines 1784-1791 compares `rect.y` with `rect.y - velocity.y`, which
differ by the speed and not by the distance travelled. After `n` steps it is
`n * velocity.y` away from where it started. -/
theorem C22_vertical_mover_never_reverses (frames : List Frame) (g : Game)
    (hrun : g.isPaused = false) (hkeys : ∀ f ∈ frames, f.keyM = false) :
    List.Forall₂ (fun p q => VerticalMover p → q = drift p frames.length) g.platforms
      (runFrames frames g).platforms := by
  induction frames generalizing g with
  | nil =>
    have hrefl : ∀ ps : List Platform,
        List.Forall₂ (fun p q => VerticalMover p → q = drift p 0) ps ps := by
      intro ps
      induction ps with
      | nil => exact List.Forall₂.nil
      | cons p ps ih =>
        refine List.Forall₂.cons (fun _ => ?_) ih
        simp only [drift, Nat.cast_zero, zero_mul, add_zero]
    exact hrefl g.platforms
  | cons f fs ih =>
    have hf : (togglePause f g).isPaused = false := by
      simp only [togglePause, hkeys f (List.mem_cons_self _ _), Bool.false_eq_true, if_false]
      exact hrun
    have h1 := UpdatePlatformer_mover f g hf
    have h2 := ih (UpdatePlatformer f g) (UpdatePlatformer_platforms f g hf).2
      (fun x hx => hkeys x (List.mem_cons_of_mem _ hx))
    refine forall₂_compose ?_ h1 h2
    intro a b c hab hbc ha
    rw [hbc (by rw [hab ha]; exact drift_mover a 1 ha), hab ha, drift_drift,
      List.length_cons, Nat.add_comm]

theorem C22_vertical_mover_never_reverses_witness :
    (level2Start.isPaused = false ∧ (∀ f ∈ List.replicate 68 idleFrame, f.keyM = false) ∧
      level2Lift ∈ level2Start.platforms ∧ VerticalMover level2Lift) ∧
      ∃ q ∈ (runFrames (List.replicate 68 idleFrame) level2Start).platforms,
        q.velocity.y = 3 / 2 ∧ q.rect.y = 302 ∧ q.rect.y > 200 + 100 + 3 / 2 :=
  ⟨by decide!,
    (forall₂_exists
      (C22_vertical_mover_never_reverses (List.replicate 68 idleFrame) level2Start
        (by decide!) (by decide!)) level2Lift (by decide!)).imp
      fun q hq => ⟨hq.1, by
        rw [hq.2 (by decide!)]
        decide!⟩⟩

/-! ## Breakable platforms (C23) -/

/-- C23, what the code does: the landing branch moves a Breakable platform to
`rect.x = -100` and changes nothing else of it, so afterwards it reaches from -100 to
`-100 + rect.width`; it still overlaps the extent `[0, levelBounds.width]` of a level
exactly when it is wider than 100, as the breakable platforms of width 120 are. -/
theorem C23_breakable_moved_to_minus_100 (g : Game) (p : Platform)
    (hland : landsOn g.player p = true) (htype : p.type = 2)
    (hwidth : 0 ≤ g.levelBounds.width) :
    (platformBody g p).2 = { p with rect := { p.rect with x := -100 } } ∧
      (inExtent (platformBody g p).2 g.levelBounds.width ↔ 100 < p.rect.width) := by
  have h1 : ¬ ((2 : Int) = 1) := by decide
  have hq : (platformBody g p).2 = { p with rect := { p.rect with x := -100 } } := by
    simp only [platformBody, hland, landOn, PlaySound, htype, h1, if_true, if_false]
  rw [hq]
  refine ⟨rfl, ?_⟩
  simp only [inExtent]
  constructor
  · intro h
    linarith [h.2]
  · intro h
    exact ⟨by linarith, by linarith⟩

theorem C23_breakable_moved_to_minus_100_witness :
    (landsOn (movePlayer idleFrame breakFall).player ⟨⟨1600, 550, 120, 30⟩, false, 2, ⟨0, 0⟩⟩ = true ∧
      (⟨⟨1600, 550, 120, 30⟩, false, 2, ⟨0, 0⟩⟩ : Platform).type = 2 ∧
      0 ≤ (movePlayer idleFrame breakFall).levelBounds.width) ∧
      (platformBody (movePlayer idleFrame breakFall) ⟨⟨1600, 550, 120, 30⟩, false, 2, ⟨0, 0⟩⟩).2 =
        ⟨⟨-100, 550, 120, 30⟩, false, 2, ⟨0, 0⟩⟩ ∧
      (⟨⟨1600, 550, 120, 30⟩, false, 2, ⟨0, 0⟩⟩ ∈ breakFall.platforms ∧
        ⟨⟨-100, 550, 120, 30⟩, false, 2, ⟨0, 0⟩⟩ ∈ (UpdatePlatformer idleFrame breakFall).platforms ∧
        (UpdatePlatformer idleFrame breakFall).platforms.length = breakFall.platforms.length ∧
        inExtent ⟨⟨-100, 550, 120, 30⟩, false, 2, ⟨0, 0⟩⟩ breakFall.levelBounds.width) ∧
      ((UpdatePlatformer idleFrame breakReturn).player.canJump = true ∧
        (UpdatePlatformer idleFrame breakReturn).player.rect.y = 430) :=
  ⟨by decide!,
    (C23_breakable_moved_to_minus_100 (movePlayer idleFrame breakFall)
      ⟨⟨1600, 550, 120, 30⟩, false, 2, ⟨0, 0⟩⟩ (by decide!) (by decide!) (by decide!)).1,
    by decide!, by decide!⟩

/-! ## Enemy contact damage (C24) -/

theorem enemyBody_contact (inp : Frame) (s : Game) (e : Enemy) :
    (touches inp s e = true →
        (enemyBody inp s e).1.player.health = s.player.health - 5 ∧
          (enemyBody inp s e).1.player.velocity =
            ⟨if s.player.rect.x < (enemyBehavior inp s e).2.rect.x then -8 else 8, -5⟩) ∧
      (touches inp s e = false → (enemyBody inp s e).1.player = s.player) := by
  have hpl := (enemyBehavior_fst inp s e).2.2
  refine ⟨?_, ?_⟩
  · intro h
    simp only [touches, Bool.and_eq_true] at h
    have hc : CheckCollisionRecs (enemyBehavior inp s e).1.player.rect
        (enemyBehavior inp s e).2.rect = true := by rw [hpl]; exact h.2
    simp only [enemyBody, h.1, Bool.not_true, Bool.false_eq_true, if_false, enemyContact, hc,
      h.2, if_true, PlaySound, hpl]
    exact ⟨trivial, trivial⟩
  · intro h
    refine enemyBody_no_contact inp s e ?_
    intro ha
    simpa [touches, ha] using h

theorem touches_congr (inp : Frame) (s g : Game) (e : Enemy)
    (hr : s.player.rect = g.player.rect) (hp : s.platforms = g.platforms)
    (hb : s.levelBounds = g.levelBounds) : touches inp s e = touches inp g e := by
  simp only [touches, hr, enemyBehavior_snd_congr inp s g e hp hb]

theorem forEach_enemyBody_health (inp : Frame) (g : Game) (es : List Enemy) :
    ∀ s : Game, s.player.rect = g.player.rect → s.platforms = g.platforms →
      s.levelBounds = g.levelBounds →
      (forEach (enemyBody inp) s es).1.player.health =
        s.player.health - 5 * (es.countP (touches inp g) : Int) := by
  induction es with
  | nil =>
    intro s _ _ _
    simp [forEach]
  | cons e es ih =>
    intro s hr hp hb
    obtain ⟨f1, f2, f3⟩ := enemyBody_frame inp s e
    simp only [staticPart, Prod.mk.injEq] at f1
    have hstep := ih (enemyBody inp s e).1 (f3.trans hr) (f2.trans hp) (f1.2.1.trans hb)
    simp only [forEach]
    rw [hstep, List.countP_cons, ← touches_congr inp s g e hr hp hb]
    obtain ⟨c1, c2⟩ := enemyBody_contact inp s e
    cases ht : touches inp s e
    · rw [c2 ht]
      simp
    · rw [(c1 ht).1]
      push_cast
      simp only [if_true]
      ring

theorem enemyPhase_contacts (inp : Frame) (g : Game) :
    (enemyPhase inp g).player.health = g.player.health - 5 * (contacts inp g : Int) :=
  forEach_enemyBody_health inp g g.enemies g rfl rfl rfl

theorem UpdatePlatformer_end_health (inp : Frame) (g : Game)
    (hrun : (togglePause inp g).isPaused = false) :
    (UpdatePlatformer inp g).player.health = (beforeExit inp g).player.health := by
  rw [UpdatePlatformer_unfold inp g hrun, (cleanupPhase_tail _).2.1, (deathPhase_tail _).2,
    (cameraPhase_tail _ _).2.1, (exitPhase_tail _).2]

theorem UpdatePlatformer_only_contact (inp : Frame) (g : Game) (h : OnlyContact inp g) :
    (UpdatePlatformer inp g).player.health =
      g.player.health - 5 * (contacts inp (clampPlayer (beforeClamp inp g)) : Int) := by
  obtain ⟨hrun, hplat, hrest⟩ := h
  rw [UpdatePlatformer_end_health inp g hrun, hrest, enemyPhase_contacts]
  have hc := clampPlayer_healthPart (beforeClamp inp g)
  simp only [healthPart, Prod.mk.injEq] at hc
  rw [hc.1]
  unfold beforeClamp
  rw [(shootPhase_lists _ _).2.2, hplat]

theorem runFrames_only_contact (frames : List Frame) (g : Game) (h : OnlyContactRun frames g) :
    (runFrames frames g).player.health = g.player.health - 5 * (runContacts frames g : Int) := by
  induction frames generalizing g with
  | nil => simp [runFrames, runContacts]
  | cons f fs ih =>
    obtain ⟨h1, h2⟩ := h
    have hstep := ih (UpdatePlatformer f g) h2
    simp only [runFrames, List.foldl_cons] at hstep ⊢
    rw [hstep, UpdatePlatformer_only_contact f g h1]
    simp only [runContacts]
    push_cast
    ring

/-- C24 (contact damage, no cooldown): in the enemy loop of a non-paused step every
active enemy whose rectangle, after its own update, overlaps the player's takes exactly
5 from `player.health` and sets the player's velocity to (-8 if `player.rect.x <
enemy.rect.x` else +8, -5); an inactive enemy changes nothing. So the loop costs 5 times
the number of touching enemies, and over a run of steps in which nothing else changes
the health the cost is 5 times the contacts of all the steps: an overlap kept up over
`n` steps costs `5 * n`. -/
theorem C24_contact_damage_no_cooldown (frames : List Frame) (g : Game)
    (h : OnlyContactRun frames g) :
    (runFrames frames g).player.health = g.player.health - 5 * (runContacts frames g : Int) ∧
      (∀ (inp : Frame) (s : Game),
        (enemyPhase inp s).player.health = s.player.health - 5 * (contacts inp s : Int)) ∧
      (∀ (inp : Frame) (s : Game) (e : Enemy), touches inp s e = true →
        (enemyBody inp s e).1.player.health = s.player.health - 5 ∧
          (enemyBody inp s e).1.player.velocity =
            ⟨if s.player.rect.x < (enemyBehavior inp s e).2.rect.x then -8 else 8, -5⟩) ∧
      (∀ (inp : Frame) (s : Game) (e : Enemy), e.active = false →
        touches inp s e = false ∧ enemyBody inp s e = (s, e)) := by
  refine ⟨runFrames_only_contact frames g h, enemyPhase_contacts,
    fun inp s e ht => (enemyBody_contact inp s e).1 ht, ?_⟩
  intro inp s e ha
  refine ⟨by simp [touches, ha], ?_⟩
  simp [enemyBody, ha]

theorem C24_contact_damage_no_cooldown_witness :
    OnlyContactRun (List.replicate 3 idleFrame) crowdState ∧
      (runFrames (List.replicate 3 idleFrame) crowdState).player.health =
        crowdState.player.health - 5 * (runContacts (List.replicate 3 idleFrame) crowdState : Int) ∧
      contacts idleFrame (clampPlayer (beforeClamp idleFrame crowdState)) = 2 ∧
      runContacts (List.replicate 3 idleFrame) crowdState = 6 ∧
      (UpdatePlatformer idleFrame crowdState).player.health = 90 ∧
      (UpdatePlatformer idleFrame crowdState).player.velocity = ⟨8, -5⟩ ∧
      (runFrames (List.replicate 3 idleFrame) crowdState).player.health = 70 :=
  ⟨by decide!,
    (C24_contact_damage_no_cooldown (List.replicate 3 idleFrame) crowdState (by decide!)).1,
    by decide!, by decide!, by decide!, by decide!, by decide!⟩

/-! ## The Powerup pickup (C25) -/

/-- C25, the factor the claim leaves out: the Powerup `SpawnCollectible` builds has
value 10; picking it up adds 100 to `player.score`, not 10, in the loop body and in a
whole step. -/
theorem C25_counterexample :
    (SpawnCollectible 120 520 2 { duelState with collectibles := [] }).collectibles = [powerup] ∧
      powerup.active = true ∧ powerup.type = 2 ∧ powerup.value = 10 ∧
      CheckCollisionRecs powerupState.player.rect powerup.rect = true ∧
      (collectibleBody powerupState powerup).1.player.score = powerupState.player.score + 100 ∧
      (collectibleBody powerupState powerup).1.player.score ≠
        powerupState.player.score + powerup.value ∧
      (UpdatePlatformer idleFrame powerupState).player.score = powerupState.player.score + 100 := by
  decide!

/-- C25 (amended, the Powerup pickup): when the player overlaps an active Powerup
collectible (type 2) with value v, the pickup adds `v * 10` to `player.score`, leaves
`player.health` and `player.currency` unchanged, and deactivates the collectible. -/
theorem C25_powerup_adds_ten_times_value (g : Game) (c : Collectible)
    (hactive : c.active = true) (hover : CheckCollisionRecs g.player.rect c.rect = true)
    (htype : c.type = 2) :
    (collectibleBody g c).1.player.score = g.player.score + c.value * 10 ∧
      (collectibleBody g c).1.player.health = g.player.health ∧
      (collectibleBody g c).1.player.currency = g.player.currency ∧
      (collectibleBody g c).2.active = false := by
  have h0 : ¬ ((2 : Int) = 0) := by decide
  have h1 : ¬ ((2 : Int) = 1) := by decide
  simp only [collectibleBody, hactive, hover, htype, PlaySound, Bool.not_true,
    Bool.false_eq_true, if_false, if_true, h0, h1]
  exact ⟨trivial, trivial, trivial, trivial⟩

theorem C25_powerup_adds_ten_times_value_witness :
    (powerup.active = true ∧ CheckCollisionRecs powerupState.player.rect powerup.rect = true ∧
      powerup.type = 2) ∧
      ((collectibleBody powerupState powerup).1.player.score =
          powerupState.player.score + powerup.value * 10 ∧
        (collectibleBody powerupState powerup).1.player.health = powerupState.player.health ∧
        (collectibleBody powerupState powerup).1.player.currency = powerupState.player.currency ∧
        (collectibleBody powerupState powerup).2.active = false) ∧
      (UpdatePlatformer idleFrame powerupState).player.score = 100 ∧
      (UpdatePlatformer idleFrame powerupState).collectibles = [] :=
  ⟨by decide!,
    C25_powerup_adds_ten_times_value powerupState powerup (by decide!) (by decide!) (by decide!),
    by decide!, by decide!⟩

/-! ## Hazards on the ground strip (C26) -/

/-- C26, what the code does: when the first platform of the collection that the feet
overlap is not deadly, the player lands on it, `velocity.y` becomes 0 and
`player.health` is unchanged by the platform loop, also when the feet overlap a deadly
platform later in the collection: the landing test `velocity.y > 0` fails for it. -/
theorem C26_first_platform_shields_hazard (g : Game) (pre post : List Platform) (p : Platform)
    (hps : g.platforms = pre ++ p :: post)
    (hpre : ∀ q ∈ pre, CheckCollisionRecs (playerFeet g.player) q.rect = false)
    (hp : CheckCollisionRecs (playerFeet g.player) p.rect = true)
    (hv : g.player.velocity.y > 0) (hsafe : p.deadly = false) :
    (platformPhase g).player.health = g.player.health ∧
      (platformPhase g).player.velocity.y = 0 ∧
      (platformPhase g).player.rect.y = p.rect.y - g.player.rect.height := by
  obtain ⟨_, h2, _, h4, h5⟩ := platformPhase_landing g pre post p hps hpre hp hv
  simp only [hsafe, Bool.false_eq_true, if_false] at h4 h5
  exact ⟨h5, h4, h2⟩

theorem C26_first_platform_shields_hazard_witness :
    ((movePlayer rightFrame groundWalk).platforms =
        groundPlatforms.take 7 ++ ⟨⟨700, 650, 100, 30⟩, false, 0, ⟨0, 0⟩⟩ ::
          (movePlayer rightFrame groundWalk).platforms.drop 8 ∧
      (∀ q ∈ groundPlatforms.take 7,
        CheckCollisionRecs (playerFeet (movePlayer rightFrame groundWalk).player) q.rect = false) ∧
      CheckCollisionRecs (playerFeet (movePlayer rightFrame groundWalk).player)
        ⟨700, 650, 100, 30⟩ = true ∧
      (movePlayer rightFrame groundWalk).player.velocity.y > 0) ∧
      (level1Spikes ∈ (movePlayer rightFrame groundWalk).platforms.drop 8 ∧
        level1Spikes.deadly = true ∧
        CheckCollisionRecs (playerFeet (movePlayer rightFrame groundWalk).player)
          level1Spikes.rect = true) ∧
      ((platformPhase (movePlayer rightFrame groundWalk)).player.health = 100 ∧
        (platformPhase (movePlayer rightFrame groundWalk)).player.velocity.y = 0) ∧
      ((runFrames (List.replicate 20 rightFrame) groundWalk).player.health = 100 ∧
        (runFrames (List.replicate 20 rightFrame) groundWalk).player.rect = ⟨880, 530, 80, 120⟩) :=
  have h := C26_first_platform_shields_hazard (movePlayer rightFrame groundWalk)
    (groundPlatforms.take 7) ((movePlayer rightFrame groundWalk).platforms.drop 8)
    ⟨⟨700, 650, 100, 30⟩, false, 0, ⟨0, 0⟩⟩ (by decide!) (by decide!) (by decide!) (by decide!) rfl
  ⟨by decide!, by decide!, ⟨by decide!, h.2.1⟩, by decide!⟩

/-! ## Displayed and dealt weapon damage (C27) -/

theorem displayedDamage_table :
    displayedDamage 0 = some 5 ∧ displayedDamage 1 = some 8 ∧ displayedDamage 2 = some 12 := by
  decide

/-- C27, what the code does: the projectile fired with weapon 0, 1 or 2 has damage 1, 2
or 3 (source line 1807), while the equipment screen displays DMG 5, 8 or 12 for that
weapon (source lines 1673, 1677, 1681): for every weapon the damage dealt is smaller
than the damage displayed. -/
theorem C27_displayed_damage_differs (inp : Frame) (g : Game) (p : Projectile)
    (hfire : inp.keySpace = true)
    (hweapon : g.selectedWeapon = 0 ∨ g.selectedWeapon = 1 ∨ g.selectedWeapon = 2)
    (hp : (shootPhase inp g).projectiles = g.projectiles ++ [p]) :
    p.damage = g.selectedWeapon + 1 ∧
      ∃ d : Int, displayedDamage g.selectedWeapon = some d ∧
        d = (if g.selectedWeapon = 0 then 5 else if g.selectedWeapon = 1 then 8 else 12) ∧
        p.damage < d := by
  obtain ⟨t0, t1, t2⟩ := shootPhase_table inp g p hfire hweapon hp
  obtain ⟨d0, d1, d2⟩ := displayedDamage_table
  rcases hweapon with h | h | h
  · rw [(t0 h).2, h]
    exact ⟨by decide, 5, d0, by decide, by decide⟩
  · rw [(t1 h).2, h]
    exact ⟨by decide, 8, d1, by decide, by decide⟩
  · rw [(t2 h).2, h]
    exact ⟨by decide, 12, d2, by decide, by decide⟩

theorem C27_displayed_damage_differs_witness :
    (fireFrame.keySpace = true ∧ level1Start.selectedWeapon = 0 ∧
      (shootPhase fireFrame level1Start).projectiles =
        level1Start.projectiles ++ [⟨⟨180, 360, 15, 8⟩, ⟨15, 0⟩, true, true, 1⟩]) ∧
      ((⟨⟨180, 360, 15, 8⟩, ⟨15, 0⟩, true, true, 1⟩ : Projectile).damage =
          level1Start.selectedWeapon + 1 ∧
        ∃ d : Int, displayedDamage level1Start.selectedWeapon = some d ∧
          d = (if level1Start.selectedWeapon = 0 then 5
            else if level1Start.selectedWeapon = 1 then 8 else 12) ∧
          (⟨⟨180, 360, 15, 8⟩, ⟨15, 0⟩, true, true, 1⟩ : Projectile).damage < d) ∧
      weaponStatsLine 0 = some "DMG: 5 | SPD: Fast | RNG: Medium" ∧
      displayedDamage 0 = some 5 :=
  ⟨by decide!,
    C27_displayed_damage_differs fireFrame level1Start ⟨⟨180, 360, 15, 8⟩, ⟨15, 0⟩, true, true, 1⟩
      (by decide!) (Or.inl (by decide!)) (by decide!),
    by decide, by decide⟩

/-! ## Enemies never revive (C28) -/

theorem SpawnEnemy_alive (r : Int) (x y : ℚ) (t : Fin 3) (g : Game) :
    Alive (SpawnEnemy r x y t g).enemies ↔ Alive g.enemies := by
  obtain ⟨e, he, _, _, hh, _⟩ := SpawnEnemy_reward r x y t g
  rw [he]
  constructor
  · intro h a ha
    exact h a (List.mem_append_left _ ha)
  · intro h a ha
    rcases List.mem_append.mp ha with ha | ha
    · exact h a ha
    · rw [List.mem_singleton.mp ha]
      exact fun _ => hh

theorem SpawnCollectible_enemies (x y : ℚ) (t : Fin 3) (g : Game) :
    (SpawnCollectible x y t g).enemies = g.enemies :=
  rfl

theorem pushPlatforms_enemies (ps : List Platform) (g : Game) :
    (pushPlatforms ps g).enemies = g.enemies :=
  rfl

theorem setExit_enemies (rect : Rectangle) (active : Bool) (targetLevel : Int) (g : Game) :
    (setExit rect active targetLevel g).enemies = g.enemies :=
  rfl

theorem randomCoins_enemies (draw : Nat → Int) (g : Game) :
    (randomCoins draw g).enemies = g.enemies := by
  unfold randomCoins
  generalize List.range 20 = l
  induction l generalizing g with
  | nil => rfl
  | cons i l ih => exact ih _

theorem level1Layout_alive (draw : Nat → Int) (g : Game) (h : Alive g.enemies) :
    Alive (level1Layout draw g).enemies := by
  refine runAll_inv (fun s => Alive s.enemies) _ ?_ g h
  simp only [List.forall_mem_cons, List.not_mem_nil, false_implies, implies_true, and_true,
    SpawnEnemy_alive, SpawnCollectible_enemies, pushPlatforms_enemies, setExit_enemies, imp_self]

theorem level2Layout_alive (draw : Nat → Int) (g : Game) (h : Alive g.enemies) :
    Alive (level2Layout draw g).enemies := by
  refine runAll_inv (fun s => Alive s.enemies) _ ?_ g h
  simp only [List.forall_mem_cons, List.not_mem_nil, false_implies, implies_true, and_true,
    SpawnEnemy_alive, SpawnCollectible_enemies, pushPlatforms_enemies, setExit_enemies, imp_self]

theorem level3Layout_alive (draw : Nat → Int) (g : Game) (h : Alive g.enemies) :
    Alive (level3Layout draw g).enemies := by
  refine runAll_inv (fun s => Alive s.enemies) _ ?_ g h
  simp only [List.forall_mem_cons, List.not_mem_nil, false_implies, implies_true, and_true,
    SpawnEnemy_alive, SpawnCollectible_enemies, pushPlatforms_enemies, setExit_enemies,
    randomCoins_enemies, imp_self]

theorem finishLevel_enemies (width : ℚ) (g : Game) : (finishLevel width g).enemies = g.enemies :=
  rfl

theorem prepareLevel_alive (g : Game) : Alive (prepareLevel g).enemies := by
  intro e he
  simp [prepareLevel, pushPlatforms] at he

theorem CreateLevelLayout_alive (draw : Nat → Int) (level : Int) (g : Game) :
    Alive (CreateLevelLayout draw level g).enemies := by
  by_cases h1 : level = 1
  · subst h1
    rw [CreateLevelLayout_one, finishLevel_enemies]
    exact level1Layout_alive draw _ (prepareLevel_alive g)
  by_cases h2 : level = 2
  · subst h2
    rw [CreateLevelLayout_two, finishLevel_enemies]
    exact level2Layout_alive draw _ (prepareLevel_alive g)
  by_cases h3 : level = 3
  · subst h3
    rw [CreateLevelLayout_three, finishLevel_enemies]
    exact level3Layout_alive draw _ (prepareLevel_alive g)
  intro e he
  simp [CreateLevelLayout, h1, h2, h3, pushPlatforms] at he

theorem foldl_enemyLand_vitals (ps : List Platform) (e : Enemy) :
    SameVitals e (ps.foldl enemyLand e) := by
  induction ps generalizing e with
  | nil => exact ⟨rfl, rfl⟩
  | cons p ps ih =>
    have hstep : SameVitals e (enemyLand e p) := by
      simp only [enemyLand]
      split_ifs <;> exact ⟨rfl, rfl⟩
    obtain ⟨a, b⟩ := ih (enemyLand e p)
    exact ⟨a.trans hstep.1, b.trans hstep.2⟩

theorem enemyBody_vitals (inp : Frame) (s : Game) (e : Enemy) :
    SameVitals e (enemyBody inp s e).2 := by
  have hp : ∀ (w : ℚ) (x : Enemy), SameVitals x (patrol w x) := by
    intro w x
    simp only [patrol]
    split_ifs <;> exact ⟨rfl, rfl⟩
  have hg : ∀ x : Enemy, SameVitals x (groundPhysics s x) := by
    intro x
    exact foldl_enemyLand_vitals s.platforms _
  have hfl : ∀ (w : ℚ) (x : Enemy), SameVitals x (flyingMotion inp w x) := by
    intro w x
    simp only [flyingMotion]
    split_ifs <;> exact ⟨rfl, rfl⟩
  have hf : ∀ (t v : ℚ) (d : Int) (x : Enemy), SameVitals x (enemyFire t v d s x).2 := by
    intro t v d x
    simp only [enemyFire]
    split_ifs <;> exact ⟨rfl, rfl⟩
  have hground : ∀ (t v : ℚ) (d : Int), SameVitals e
      (enemyFire t v d s
        { groundPhysics s (patrol s.levelBounds.width e) with
          timer := roundF32
            ((groundPhysics s (patrol s.levelBounds.width e)).timer + inp.frameTime) }).2 := by
    intro t v d
    obtain ⟨a1, a2⟩ := hp s.levelBounds.width e
    obtain ⟨b1, b2⟩ := hg (patrol s.levelBounds.width e)
    obtain ⟨c1, c2⟩ := hf t v d
      { groundPhysics s (patrol s.levelBounds.width e) with
        timer := roundF32
            ((groundPhysics s (patrol s.levelBounds.width e)).timer + inp.frameTime) }
    exact ⟨c1.trans (b1.trans a1), c2.trans (b2.trans a2)⟩
  unfold enemyBody
  split_ifs
  · exact ⟨rfl, rfl⟩
  · show SameVitals e (enemyBehavior inp s e).2
    unfold enemyBehavior
    split_ifs
    · exact hground 3 8 1
    · obtain ⟨a1, a2⟩ := hfl s.levelBounds.width e
      obtain ⟨c1, c2⟩ := hf 2 8 1 (flyingMotion inp s.levelBounds.width e)
      exact ⟨c1.trans a1, c2.trans a2⟩
    · exact hground 4 6 2
    · exact ⟨rfl, rfl⟩

theorem enemyPhase_alive (inp : Frame) (g : Game) (h : Alive g.enemies) :
    Alive (enemyPhase inp g).enemies :=
  forall₂_transfer
    (forEach_forall₂ (enemyBody inp) SameVitals (enemyBody_vitals inp) g g.enemies)
    (fun x y hxy hx ha => by rw [hxy.1]; exact hx (hxy.2 ▸ ha)) h

theorem hitEnemies_alive (proj : Projectile) (g : Game) (es : List Enemy) (h : Alive es) :
    Alive (hitEnemies proj g es).2.2 := by
  induction es with
  | nil => exact h
  | cons e es ih =>
    have hrest : Alive es := fun x hx => h x (List.mem_cons_of_mem _ hx)
    simp only [hitEnemies, PlaySound]
    split_ifs with h1 h2
    · intro x hx ha
      rcases List.mem_cons.mp hx with rfl | hx
      · simp at ha
      · exact hrest x hx ha
    · intro x hx ha
      rcases List.mem_cons.mp hx with rfl | hx
      · exact not_le.mp h2
      · exact hrest x hx ha
    · intro x hx ha
      rcases List.mem_cons.mp hx with rfl | hx
      · exact h _ (List.mem_cons_self _ _) ha
      · exact ih hrest x hx ha

theorem projectileBody_alive (g : Game) (proj : Projectile) (h : Alive g.enemies) :
    Alive (projectileBody g proj).1.enemies := by
  have hh := hitEnemies_alive (advance proj) g g.enemies h
  simp only [projectileBody, PlaySound]
  split_ifs
  all_goals first | exact h | exact hh

theorem projectilePhase_alive (g : Game) (h : Alive g.enemies) :
    Alive (projectilePhase g).enemies :=
  forEach_inv projectileBody (fun s => Alive s.enemies)
    (fun s x hs => projectileBody_alive s x hs) g g.projectiles h

theorem UpdatePlatformer_alive (inp : Frame) (g : Game) (h : Alive g.enemies) :
    Alive (UpdatePlatformer inp g).enemies := by
  by_cases hrun : (togglePause inp g).isPaused = false
  · rw [UpdatePlatformer_running inp g hrun]
    unfold afterEnemies
    rw [afterProjectiles_enemies]
    refine projectilePhase_alive _ (enemyPhase_alive inp _ ?_)
    rw [(clampPlayer_lists _).1, (beforeClamp_lists _ _).1]
    exact h
  · have hp : (togglePause inp g).isPaused = true := by simpa using hrun
    simp only [UpdatePlatformer, hp, if_true]
    rw [(togglePause_frame inp g).2.1]
    exact h

theorem runFrames_alive (frames : List Frame) (g : Game) (h : Alive g.enemies) :
    Alive (runFrames frames g).enemies := by
  induction frames generalizing g with
  | nil => exact h
  | cons f fs ih => exact ih (UpdatePlatformer f g) (UpdatePlatformer_alive f g h)

/-- C28 (enemies never revive): in every state reached from a level `CreateLevelLayout`
builds, for any level index, random source and prior state, by any number of
`UpdatePlatformer` steps, every active enemy has `health > 0`; and one more step leaves
every inactive enemy inactive, with the rectangle, velocity, timer and health it had,
so no enemy goes from inactive to active. -/
theorem C28_enemies_never_revive (draw : Nat → Int) (level : Int) (g : Game)
    (frames : List Frame) (inp : Frame) :
    (∀ e ∈ (runFrames frames (CreateLevelLayout draw level g)).enemies,
        e.active = true → e.health > 0) ∧
      List.Forall₂
        (fun e e2 => e.active = false →
          e2.active = false ∧ e2.rect = e.rect ∧ e2.velocity = e.velocity ∧
            e2.timer = e.timer ∧ e2.health = e.health)
        (runFrames frames (CreateLevelLayout draw level g)).enemies
        (UpdatePlatformer inp (runFrames frames (CreateLevelLayout draw level g))).enemies := by
  refine ⟨runFrames_alive frames _ (CreateLevelLayout_alive draw level g), ?_⟩
  refine List.Forall₂.imp ?_ (UpdatePlatformer_frozen inp _)
  intro e e2 hfrozen ha
  rw [hfrozen ha]
  exact ⟨ha, rfl, rfl, rfl, rfl⟩

/-! ## One landing per step (C29) -/

theorem platformBody_quiet (g : Game) (p : Platform) (hland : landsOn g.player p = false) :
    vertical (platformBody g p).1 = vertical g ∧ (p.type = 2 → (platformBody g p).2 = p) := by
  refine ⟨?_, ?_⟩
  · simp only [platformBody, hland, vertical, Bool.false_eq_true, if_false]
    split_ifs <;> rfl
  · intro ht
    have h21 : ¬ ((2 : Int) = 1) := by decide
    simp only [platformBody, hland, ht, h21, Bool.false_eq_true, if_false]

theorem landsOn_rising (g : Game) (p : Platform) (hv : ¬ g.player.velocity.y > 0) :
    landsOn g.player p = false := by
  simp [landsOn, hv]

/-- Once the player does not move down, the rest of the loop lands on nothing. -/
theorem forEach_platformBody_rising (ps : List Platform) :
    ∀ g : Game, ¬ g.player.velocity.y > 0 →
      landings g ps = 0 ∧ vertical (forEach platformBody g ps).1 = vertical g ∧
        brokenCount ps (forEach platformBody g ps).2 = 0 := by
  induction ps with
  | nil =>
    intro g _
    exact ⟨rfl, rfl, rfl⟩
  | cons p ps ih =>
    intro g hv
    have hland := landsOn_rising g p hv
    obtain ⟨q1, q2⟩ := platformBody_quiet g p hland
    have hvel : (platformBody g p).1.player.velocity = g.player.velocity := by
      simp only [vertical, Prod.mk.injEq] at q1
      exact q1.2.2.2.1
    obtain ⟨i1, i2, i3⟩ := ih (platformBody g p).1 (by rw [hvel]; exact hv)
    refine ⟨?_, ?_, ?_⟩
    · simp only [landings, hland, Bool.false_eq_true, if_false, i1]
    · simp only [forEach]
      exact i2.trans q1
    · simp only [forEach, brokenCount, List.zip_cons_cons, List.countP_cons]
      simp only [brokenCount] at i3
      rw [i3]
      by_cases ht : p.type = 2
      · simp [q2 ht]
      · simp [ht]

theorem brokenCount_cons_le (p q : Platform) (ps qs : List Platform) :
    brokenCount (p :: ps) (q :: qs) ≤ brokenCount ps qs + 1 := by
  simp only [brokenCount, List.zip_cons_cons, List.countP_cons]
  split_ifs <;> omega

/-- The landing branch is taken at most once in the platform loop. -/
theorem forEach_platformBody_once (ps : List Platform) :
    ∀ g : Game,
      landings g ps ≤ 1 ∧
        ((forEach platformBody g ps).1.player.health = g.player.health ∨
          (forEach platformBody g ps).1.player.health = g.player.health - 10) ∧
        brokenCount ps (forEach platformBody g ps).2 ≤ 1 ∧
        (landings g ps = 1 →
          (forEach platformBody g ps).1.player.velocity.y = 0 ∨
            (forEach platformBody g ps).1.player.velocity.y = -8) := by
  induction ps with
  | nil =>
    intro g
    exact ⟨Nat.zero_le _, Or.inl rfl, Nat.zero_le _, fun h => by simp [landings] at h⟩
  | cons p ps ih =>
    intro g
    cases hland : landsOn g.player p
    · obtain ⟨q1, q2⟩ := platformBody_quiet g p hland
      simp only [vertical, Prod.mk.injEq] at q1
      obtain ⟨i1, i2, i3, i4⟩ := ih (platformBody g p).1
      have hl : landings g (p :: ps) = landings (platformBody g p).1 ps := by
        simp only [landings, hland, Bool.false_eq_true, if_false, zero_add]
      have hb : brokenCount (p :: ps) (forEach platformBody g (p :: ps)).2 =
          brokenCount ps (forEach platformBody (platformBody g p).1 ps).2 := by
        simp only [forEach, brokenCount, List.zip_cons_cons, List.countP_cons]
        by_cases ht : p.type = 2
        · simp [q2 ht]
        · simp [ht]
      rw [hl, hb]
      simp only [forEach]
      rw [q1.2.2.2.2.2.2] at i2
      exact ⟨i1, i2, i3, i4⟩
    · obtain ⟨_, _, _, l4, l5⟩ := platformBody_landing g p hland
      have hv : ¬ (platformBody g p).1.player.velocity.y > 0 := by
        rw [l4]
        split_ifs <;> norm_num
      obtain ⟨r1, r2, r3⟩ := forEach_platformBody_rising ps (platformBody g p).1 hv
      simp only [vertical, Prod.mk.injEq] at r2
      have hl : landings g (p :: ps) = 1 := by
        simp only [landings, hland, if_true, r1]
      have hb : brokenCount (p :: ps) (forEach platformBody g (p :: ps)).2 ≤ 1 := by
        have h := brokenCount_cons_le p (platformBody g p).2 ps
          (forEach platformBody (platformBody g p).1 ps).2
        rw [r3] at h
        simpa only [forEach] using h
      refine ⟨le_of_eq hl, ?_, hb, fun _ => ?_⟩
      · simp only [forEach]
        rw [r2.2.2.2.2.2.2, l5]
        split_ifs
        · exact Or.inr rfl
        · exact Or.inl rfl
      · simp only [forEach]
        rw [r2.2.2.2.1, l4]
        split_ifs
        · exact Or.inr rfl
        · exact Or.inl rfl

/-- C29 (one landing per step): in the platform loop of a step, run on the state `s`
that the integration leaves, the landing branch is taken for at most one platform,
however many the feet overlap; after a landing `velocity.y` is 0 or -8; the loop takes
0 or 10 from `player.health`; and at most one Breakable platform is changed, in the
loop and so in the whole non-paused step. -/
theorem C29_one_landing_per_step (inp : Frame) (g : Game)
    (hrun : (togglePause inp g).isPaused = false) :
    (∀ s : Game,
      landings (clearCanJump s) s.platforms ≤ 1 ∧
        (landings (clearCanJump s) s.platforms = 1 →
          (platformPhase s).player.velocity.y = 0 ∨ (platformPhase s).player.velocity.y = -8) ∧
        ((platformPhase s).player.health = s.player.health ∨
          (platformPhase s).player.health = s.player.health - 10) ∧
        brokenCount s.platforms (platformPhase s).platforms ≤ 1) ∧
      brokenCount g.platforms (UpdatePlatformer inp g).platforms ≤ 1 := by
  refine ⟨fun s => ?_, ?_⟩
  · obtain ⟨h1, h2, h3, h4⟩ := forEach_platformBody_once s.platforms (clearCanJump s)
    exact ⟨h1, h4, h2, h3⟩
  · rw [(UpdatePlatformer_platforms inp g hrun).1]
    exact (forEach_platformBody_once g.platforms _).2.2.1

theorem C29_one_landing_per_step_witness :
    (togglePause idleFrame crowdedFall).isPaused = false ∧
      brokenCount crowdedFall.platforms (UpdatePlatformer idleFrame crowdedFall).platforms ≤ 1 ∧
      (crowdedFall.platforms.countP fun p =>
          CheckCollisionRecs (playerFeet (movePlayer idleFrame crowdedFall).player) p.rect) = 3 ∧
      landings (clearCanJump (movePlayer idleFrame crowdedFall))
        (movePlayer idleFrame crowdedFall).platforms = 1 ∧
      (UpdatePlatformer idleFrame crowdedFall).player.health = 100 ∧
      brokenCount breakFall.platforms (UpdatePlatformer idleFrame breakFall).platforms = 1 :=
  ⟨by decide!, (C29_one_landing_per_step idleFrame crowdedFall (by decide!)).2,
    by decide!, by decide!, by decide!, by decide!⟩

/-! ## The knockback never moves the player (C30) -/

theorem movePlayer_withVelocityX (inp : Frame) (v : ℚ) (g : Game) :
    movePlayer inp (withVelocityX v g) = movePlayer inp g := by
  simp only [movePlayer, withVelocityX, PlaySound]
  split_ifs <;> rfl

theorem togglePause_withVelocityX (inp : Frame) (v : ℚ) (g : Game) :
    togglePause inp (withVelocityX v g) = withVelocityX v (togglePause inp g) := by
  simp only [togglePause, withVelocityX]
  split_ifs <;> rfl

theorem movePlayer_horizontal (inp : Frame) (g : Game) :
    (movePlayer inp g).player.velocity.x = MOVE_SPEED * inputDirection inp ∧
      (movePlayer inp g).player.rect.x = g.player.rect.x + MOVE_SPEED * inputDirection inp := by
  simp only [movePlayer, inputDirection, PlaySound, MOVE_SPEED]
  split_ifs <;> simp

theorem platformBody_no_mover (g : Game) (p : Platform) (ht : p.type ≠ 1) :
    (platformBody g p).1.player.rect.x = g.player.rect.x := by
  have h : ∀ q : Platform, (landOn g p).2.type = 1 → False := by
    intro _ h1
    simp only [landOn] at h1
    split_ifs at h1 <;> exact ht h1
  simp only [platformBody]
  split_ifs <;>
    first
    | rfl
    | (exfalso; exact h p (by assumption))
    | (simp only [landOn, PlaySound]; split_ifs <;> rfl)

theorem platformPhase_no_mover (g : Game) (h : ∀ p ∈ g.platforms, p.type ≠ 1) :
    (platformPhase g).player.rect.x = g.player.rect.x :=
  forEach_inv_mem platformBody (fun s => s.player.rect.x = g.player.rect.x) g.platforms
    (fun s p hp hs => (platformBody_no_mover s p (h p hp)).trans hs) (clearCanJump g) rfl

theorem clampPlayer_x_congr (a b : Game) (hx : a.player.rect.x = b.player.rect.x)
    (hw : a.player.rect.width = b.player.rect.width)
    (hb : a.levelBounds.width = b.levelBounds.width) :
    (clampPlayer a).player.rect.x = (clampPlayer b).player.rect.x := by
  simp only [clampPlayer, hx]
  split_ifs <;> simp_all

/-- C30 (the knockback never moves the player): a non-paused `UpdatePlatformer` step
gives the same state whatever `player.velocity.x` was before it, so the +8 / -8 an enemy
contact leaves has no effect. The input handling sets `velocity.x` to `MOVE_SPEED`
times the input direction (+5, -5 or 0) before it is added to `rect.x`; with no moving
platform in the level the player ends the step at that position, clamped to the level
bounds. -/
theorem C30_knockback_never_moves_player (inp : Frame) (g : Game) (v : ℚ)
    (hrun : (togglePause inp g).isPaused = false) :
    UpdatePlatformer inp (withVelocityX v g) = UpdatePlatformer inp g ∧
      (MOVE_SPEED = 5 ∧
        (movePlayer inp (togglePause inp g)).player.velocity.x =
          MOVE_SPEED * inputDirection inp ∧
        (movePlayer inp (togglePause inp g)).player.rect.x =
          g.player.rect.x + MOVE_SPEED * inputDirection inp) ∧
      ((∀ p ∈ g.platforms, p.type ≠ 1) →
        (UpdatePlatformer inp g).player.rect.x =
          (clampPlayer (movePlayer inp (togglePause inp g))).player.rect.x) := by
  have hpl := (togglePause_frame inp g).1
  refine ⟨?_, ⟨rfl, ?_, ?_⟩, ?_⟩
  · have hp : (togglePause inp (withVelocityX v g)).isPaused = false := by
      rw [togglePause_withVelocityX]
      exact hrun
    rw [UpdatePlatformer_unfold inp g hrun, UpdatePlatformer_unfold inp _ hp]
    simp only [beforeExit, beforeClamp, togglePause_withVelocityX, movePlayer_withVelocityX]
  · exact (movePlayer_horizontal inp (togglePause inp g)).1
  · rw [(movePlayer_horizontal inp (togglePause inp g)).2, hpl]
  · intro hno
    rw [UpdatePlatformer_rect inp g hrun]
    have hplat : (movePlayer inp (togglePause inp g)).platforms = g.platforms := by
      rw [(movePlayer_lists _ _).2, (togglePause_frame _ _).2.2.1]
    have hs := movePlayer_static inp (togglePause inp g)
    simp only [staticPart, Prod.mk.injEq] at hs
    refine clampPlayer_x_congr _ _ ?_ ?_ ?_
    · unfold beforeClamp
      rw [(shootPhase_lists _ _).2.2]
      exact platformPhase_no_mover _ (by rw [hplat]; exact hno)
    · rw [(beforeClamp_size inp g).1, (movePlayer_size _ _).1, hpl]
    · rw [(beforeClamp_size inp g).2, hs.2.1, (togglePause_static _ _).1]

theorem C30_knockback_never_moves_player_witness :
    (togglePause rightFrame knockedState).isPaused = false ∧
      UpdatePlatformer rightFrame (withVelocityX (-8) knockedState) =
        UpdatePlatformer rightFrame knockedState ∧
      knockedState.player.velocity.x = 8 ∧
      (UpdatePlatformer rightFrame knockedState).player.rect.x = knockedState.player.rect.x + 5 ∧
      (UpdatePlatformer idleFrame knockedState).player.rect.x = knockedState.player.rect.x :=
  ⟨by decide!,
    (C30_knockback_never_moves_player rightFrame knockedState (-8) (by decide!)).1,
    by decide!, by decide!, by decide!⟩

end SpaceVenture
